import Mathlib

/-!
Verification development for the OpenClaw Unraid startup-configuration script
(`startup-config.js`).  The script is a single synchronous JavaScript program
that loads a JSON document, applies two recursive merges (`deepMerge`,
`forceMerge`), optionally provisions an `ollama` provider entry from
environment variables, and writes the document back with `JSON.stringify`.

We shallowly embed the JSON/JavaScript value space and translate each function
of the script.  JavaScript semantics that are observable through this program
are modelled faithfully:

* truthiness tests (`!x`, `x && y`, `x || y`) on values;
* `typeof x === 'object'` being true for objects, arrays and `null`;
* property reads on primitives yielding `undefined`, and property reads on
  `undefined`/`null` throwing `TypeError` (an exception aborts `main`; the
  top-level `try`/`catch` then exits 0 without saving, so the file on disk is
  unchanged);
* property writes on primitives being silent no-ops (sloppy mode), and writes
  on `undefined`/`null` throwing;
* assignments to string-keyed properties of arrays attaching non-index
  properties that `JSON.stringify` later drops;
* object literals / spreads where a later duplicate key overwrites the value
  in place while keeping the first key's position.

Numbers are modelled as integers: every number this program itself creates is
an integer, and the merge logic inspects numbers only through truthiness
(`0` falsy).  Canonical array-index keys are modelled for all naturals (the
JavaScript bound of 2^32-1 is ignored; no key used by the program is numeric).
-/

namespace StartupConfig

/-- A JavaScript/JSON value as manipulated by the script.  `jarr` carries both
the element list and the non-index string properties that sloppy-mode
assignments can attach to an array object (these are dropped by
`JSON.stringify`).  Parsed JSON documents always have empty `jarr` properties. -/
inductive JVal where
  | jnull : JVal
  | jbool : Bool → JVal
  | jnum : Int → JVal
  | jstr : String → JVal
  | jarr : List JVal → List (String × JVal) → JVal
  | jobj : List (String × JVal) → JVal

/-- First binding of key `k` in an association list (JS objects cannot have
duplicate keys, so first-match and last-match coincide on faithful inputs). -/
def lookupField (fs : List (String × JVal)) (k : String) : Option JVal :=
  match fs with
  | [] => none
  | (k', v) :: rest => if k' = k then some v else lookupField rest k

/-- JS property assignment on an object: overwrite the value in place if the
key is present, otherwise append the new binding (insertion order). -/
def setField (fs : List (String × JVal)) (k : String) (v : JVal) :
    List (String × JVal) :=
  match fs with
  | [] => [(k, v)]
  | (k', v') :: rest =>
      if k' = k then (k', v) :: rest else (k', v') :: setField rest k v

/-- Digits-only string to a natural number (none if a non-digit occurs). -/
def digitsToNat (acc : Nat) : List Char → Option Nat
  | [] => some acc
  | c :: cs =>
      if c.isDigit then digitsToNat (acc * 10 + (c.toNat - 48)) cs else none

/-- Is `k` the canonical decimal representation of an array index?  (JS treats
such property keys on an array as element indices.)  The `Nat.repr` guard
rejects leading zeros and the empty string and makes the map injective. -/
def canonIndex? (k : String) : Option Nat :=
  match digitsToNat 0 k.data with
  | some i => if Nat.repr i = k then some i else none
  | none => none

/-- JS property read `x[k]` for object and array receivers; `none` means the
read yields `undefined`.  Scalar receivers are handled by `readProp` below. -/
def getKey (t : JVal) (k : String) : Option JVal :=
  match t with
  | .jobj fs => lookupField fs k
  | .jarr es ps =>
      match canonIndex? k with
      | some i => es.get? i
      | none => lookupField ps k
  | _ => none

/-- JS property write `x[k] = v` on object and array receivers.  A canonical
index key on an array sets/extends the element list (a gap is filled with
`null`, matching what `JSON.stringify` shows for holes); any other key on an
array becomes a non-index property.  Writes on scalar receivers are silent
no-ops (the program never performs them on `null`/`undefined` without
throwing first; those throwing paths are modelled in the pipeline itself). -/
def setKey (t : JVal) (k : String) (v : JVal) : JVal :=
  match t with
  | .jobj fs => .jobj (setField fs k v)
  | .jarr es ps =>
      match canonIndex? k with
      | some i =>
          if i < es.length then .jarr (es.set i v) ps
          else .jarr (es ++ List.replicate (i - es.length) .jnull ++ [v]) ps
      | none => .jarr es (setField ps k v)
  | t => t

/-- JS truthiness of a value. -/
def truthy (v : JVal) : Bool :=
  match v with
  | .jnull => false
  | .jbool b => b
  | .jnum n => n != 0
  | .jstr s => s.length != 0
  | .jarr _ _ => true
  | .jobj _ => true

/-- The test guarding the recursive branch of both merges
(`source[key] && typeof source[key] === 'object' && !Array.isArray(source[key])`):
true exactly for non-null, non-array objects. -/
def isMergeableObj (v : JVal) : Bool :=
  match v with
  | .jobj _ => true
  | _ => false

/-- The merge functions' target preparation
(`if (!target[key] || typeof target[key] !== 'object') target[key] = {}`):
objects and arrays are kept (arrays are truthy and `typeof` them is
`'object'`), everything else — absence, `null`, scalars — is replaced by a
fresh empty object. -/
def mergeBase (t : Option JVal) : JVal :=
  match t with
  | some (.jobj fs) => .jobj fs
  | some (.jarr es ps) => .jarr es ps
  | _ => .jobj []

mutual

/-- Translation of `deepMerge(target, source)` from `startup-config.js`
lines 25-38: merge `source` into `target` without overwriting existing
values. -/
def deepMerge (target source : JVal) : JVal :=
  match source with
  | .jobj sf => deepMergeFields target sf
  | _ => target

/-- Iteration of `for (const key of Object.keys(source))` in `deepMerge`. -/
def deepMergeFields (target : JVal) (sf : List (String × JVal)) : JVal :=
  match sf with
  | [] => target
  | (k, sv) :: rest =>
      let target' :=
        if isMergeableObj sv then
          setKey target k (deepMerge (mergeBase (getKey target k)) sv)
        else
          match getKey target k with
          | none => setKey target k sv
          | some _ => target
      deepMergeFields target' rest

end

mutual

/-- Translation of `forceMerge(target, source)` from `startup-config.js`
lines 41-53: identical traversal, but scalar/sequence source values always
overwrite. -/
def forceMerge (target source : JVal) : JVal :=
  match source with
  | .jobj sf => forceMergeFields target sf
  | _ => target

/-- Iteration of `for (const key of Object.keys(source))` in `forceMerge`. -/
def forceMergeFields (target : JVal) (sf : List (String × JVal)) : JVal :=
  match sf with
  | [] => target
  | (k, sv) :: rest =>
      let target' :=
        if isMergeableObj sv then
          setKey target k (forceMerge (mergeBase (getKey target k)) sv)
        else
          setKey target k sv
      forceMergeFields target' rest

end

mutual

/-- The `JSON.stringify` observation of a value: non-index array properties
are dropped; everything else is kept structurally. -/
def serialize (v : JVal) : JVal :=
  match v with
  | .jnull => .jnull
  | .jbool b => .jbool b
  | .jnum n => .jnum n
  | .jstr s => .jstr s
  | .jarr es _ => .jarr (serializeList es) []
  | .jobj fs => .jobj (serializeFields fs)

def serializeList (es : List JVal) : List JVal :=
  match es with
  | [] => []
  | v :: vs => serialize v :: serializeList vs

def serializeFields (fs : List (String × JVal)) : List (String × JVal) :=
  match fs with
  | [] => []
  | (k, v) :: rest => (k, serialize v) :: serializeFields rest

end

/-! ## The main pipeline (`main`, lines 55-215)

Effectful JavaScript property access is modelled with `Except Unit`:
`.error ()` marks a thrown `TypeError`.  An exception aborts `main`; the
outer `try`/`catch` logs and exits 0 without writing the file, so a thrown
run leaves the persisted document unchanged. -/

/-- Truthiness of an optional value (a missing binding is `undefined`,
which is falsy). -/
def truthyOpt (v : Option JVal) : Bool :=
  match v with
  | none => false
  | some w => truthy w

/-- JS property read `x.k` where `x` may be any value: reading on `null`
throws; reading a (non-index, non-`length`) key on a scalar yields
`undefined`.  The program only ever reads the fixed keys `models`,
`providers`, `ollama`, `id`, `agents`, `defaults`, `model`, `primary`,
none of which is an index or `length`, so scalar reads are `undefined`. -/
def readProp (t : JVal) (k : String) : Except Unit (Option JVal) :=
  match t with
  | .jnull => .error ()
  | .jobj fs => .ok (lookupField fs k)
  | .jarr es ps => .ok (getKey (.jarr es ps) k)
  | _ => .ok none

/-- Chained property reads `x.k₁.k₂...`: a mid-chain `undefined` makes the
next read throw. -/
def readAt (root : JVal) (path : List String) : Except Unit (Option JVal) :=
  match path with
  | [] => .ok (some root)
  | [k] => readProp root k
  | k :: ks =>
      match readProp root k with
      | .error e => .error e
      | .ok none => .error ()
      | .ok (some v) => readAt v ks

/-- JS property write `x.k = v`: throws on `null` (and the pipeline throws
before ever writing on `undefined`), is a silent no-op on scalars
(sloppy mode), and updates objects/arrays. -/
def writeProp (t : JVal) (k : String) (v : JVal) : Except Unit JVal :=
  match t with
  | .jnull => .error ()
  | .jobj fs => .ok (.jobj (setField fs k v))
  | .jarr es ps => .ok (setKey (.jarr es ps) k v)
  | t => .ok t

/-- Assignment `root.p₁.p₂....k = v`: the base chain is read first
(throwing on `null`/`undefined` as `readAt` does), then the final write is
performed and the mutation is threaded back up the unaliased tree. -/
def assignAt (root : JVal) (path : List String) (k : String) (v : JVal) :
    Except Unit JVal :=
  match path with
  | [] => writeProp root k v
  | p :: rest =>
      match readProp root p with
      | .error e => .error e
      | .ok none => .error ()
      | .ok (some base) =>
          match assignAt base rest k v with
          | .error e => .error e
          | .ok base' => writeProp root p base'

/-- Truthiness of an optional environment string (an unset variable is
`undefined`; an empty string is falsy). -/
def truthyStr (s : Option String) : Bool :=
  match s with
  | none => false
  | some s => s.length != 0

/-- Strict equality test `v === s` against a string literal: true only for
an identical string. -/
def isStrVal (v : Option JVal) (s : String) : Bool :=
  match v with
  | some (.jstr s') => s' = s
  | _ => false

/-- Coalescing `v || dflt`. -/
def jsOr (v : Option JVal) (dflt : JVal) : JVal :=
  match v with
  | some w => if truthy w then w else dflt
  | none => dflt

/-- Whitespace skipped by `parseInt` (JS WhiteSpace/LineTerminator; the
common ASCII cases suffice for this program's inputs). -/
def jsSpace (c : Char) : Bool :=
  c = ' ' ∨ c = '\t' ∨ c = '\n' ∨ c = '\r' ∨ c.toNat = 11 ∨ c.toNat = 12

/-- Value of a decimal digit, if any. -/
def decVal (c : Char) : Option Nat :=
  if c.isDigit then some (c.toNat - 48) else none

/-- Value of a hexadecimal digit, if any. -/
def hexVal (c : Char) : Option Nat :=
  if c.isDigit then some (c.toNat - 48)
  else if 'a' ≤ c ∧ c ≤ 'f' then some (c.toNat - 87)
  else if 'A' ≤ c ∧ c ≤ 'F' then some (c.toNat - 55)
  else none

/-- Longest digit-sequence value at the head of the list; `none` when no
digit was consumed (parseInt's NaN case). -/
def digitsPre (dv : Char → Option Nat) (base : Nat) (acc : Option Nat) :
    List Char → Option Nat
  | [] => acc
  | c :: cs =>
      match dv c with
      | some d => digitsPre dv base (some ((acc.getD 0) * base + d)) cs
      | none => acc

/-- Model of JavaScript `parseInt(s)` with no radix argument: skip leading
whitespace, optional sign, optional `0x`/`0X` hex prefix, then the longest
prefix of digits; `none` is NaN. -/
def jsParseInt (s : String) : Option Int :=
  let cs := s.data.dropWhile jsSpace
  let signed : Int × List Char :=
    match cs with
    | '-' :: rest => (-1, rest)
    | '+' :: rest => (1, rest)
    | _ => (1, cs)
  let digits : Option Nat :=
    match signed.2 with
    | '0' :: 'x' :: rest => digitsPre hexVal 16 none rest
    | '0' :: 'X' :: rest => digitsPre hexVal 16 none rest
    | rest => digitsPre decVal 10 none rest
  digits.map (fun n => signed.1 * (n : Int))

/-- Line 123: `parseInt(process.env.OLLAMA_CONTEXT_WINDOW) || 32768`.
An unset variable gives `parseInt(undefined) = NaN`; NaN and `0` are falsy,
so both fall back to the default. -/
def effectiveContextWindow (raw : Option String) : Int :=
  match raw with
  | none => 32768
  | some s =>
      match jsParseInt s with
      | none => 32768
      | some n => if n = 0 then 32768 else n

/-- Environment variables read by `main` (lines 120-123). -/
structure Env where
  ollamaUrl : Option String
  ollamaKey : Option String
  ollamaModel : Option String
  ollamaContextWindow : Option String

/-- The value of the `gateway` key of the `gatewayDefaults` literal
(lines 82-91). -/
def gatewayInner : JVal :=
  .jobj [("mode", .jstr "local"),
         ("bind", .jstr "lan"),
         ("controlUi", .jobj [("allowInsecureAuth", .jbool true)]),
         ("auth", .jobj [("mode", .jstr "token")])]

/-- The `gatewayDefaults` literal (lines 81-92). -/
def gatewayDefaults : JVal :=
  .jobj [("gateway", gatewayInner)]

/-- The `tools` object of the `agentDefaults` literal (lines 98-106). -/
def toolsInner : JVal :=
  .jobj [("profile", .jstr "standard"),
         ("allow", .jarr
            [.jstr "read", .jstr "write", .jstr "edit",
             .jstr "exec", .jstr "web", .jstr "browser"] []),
         ("exec", .jobj
            [("host", .jstr "gateway"),
             ("ask", .jstr "off"),
             ("security", .jstr "standard")])]

/-- The `defaults` object of the `agentDefaults` literal (lines 97-107). -/
def defaultsInner : JVal :=
  .jobj [("tools", toolsInner)]

/-- The value of the `agents` key of the `agentDefaults` literal
(lines 96-108). -/
def agentsInner : JVal :=
  .jobj [("defaults", defaultsInner)]

/-- The `agentDefaults` literal (lines 95-109). -/
def agentDefaults : JVal :=
  .jobj [("agents", agentsInner)]

/-- Successive assignments of an object literal: a later duplicate key
overwrites the value in place, keeping the first occurrence's position
(JS object-literal/spread semantics). -/
def applyFields (base : List (String × JVal)) :
    List (String × JVal) → List (String × JVal)
  | [] => base
  | (k, v) :: rest => applyFields (setField base k v) rest

/-- Own enumerable properties copied by an object spread `{...v}`:
an object's fields; an array's elements keyed by index followed by its
attached properties; a string's characters keyed by index; nothing for
numbers and booleans (null never reaches this, being coalesced by
`|| {}` first). -/
def spreadFields (v : JVal) : List (String × JVal) :=
  match v with
  | .jobj fs => fs
  | .jarr es ps => (es.enum.map fun p => (toString p.1, p.2)) ++ ps
  | .jstr s => s.data.enum.map fun p => (toString p.1, .jstr (String.mk [p.2]))
  | _ => []

/-- The four literal fields of the rebuilt `ollama` provider entry
(lines 137-140), written first; the spread of the pre-existing entry
follows them and therefore overwrites them when present. -/
def baseEntryFields (env : Env) : List (String × JVal) :=
  [("baseUrl", .jstr (env.ollamaUrl.getD "")),
   ("apiKey", .jstr (env.ollamaKey.getD "")),
   ("api", .jstr "openai-completions"),
   ("authHeader", .jbool false)]

/-- The fresh model entry appended at lines 153-161. -/
def mkModelEntry (mid : String) (cw : Int) : JVal :=
  .jobj [("id", .jstr mid),
         ("name", .jstr ("Ollama - " ++ mid)),
         ("reasoning", .jbool false),
         ("input", .jarr [.jstr "text"] []),
         ("cost", .jobj [("input", .jnum 0), ("output", .jnum 0)]),
         ("contextWindow", .jnum cw),
         ("maxTokens", .jnum (min 8192 (Int.fdiv cw 4)))]

/-- Evaluation of `existingModels.some(m => m.id === ollamaModel)`
(line 148): walks the elements in order; reading `.id` on a `null`
element throws; a non-string or missing id never matches a string. -/
def someIdEq : List JVal → String → Except Unit Bool
  | [], _ => .ok false
  | m :: rest, mid =>
      match m with
      | .jnull => .error ()
      | m =>
          match readProp m "id" with
          | .error e => .error e
          | .ok idv =>
              if isStrVal idv mid then .ok true else someIdEq rest mid

/-- Guarded initialisation `if (!x) x = {}` (lines 132, 133, 166, 167):
when the read value was falsy, assign a fresh empty object at the given
place; otherwise leave the tree alone. -/
def guardAssign (cond : Bool) (c : JVal) (path : List String) (k : String) :
    Except Unit JVal :=
  if cond then pure c else assignAt c path k (.jobj [])

/-- Optional-chaining read `model?.primary` (line 170): `undefined` and
`null` short-circuit to `undefined`; otherwise the property is read. -/
def primaryOf (mvv : Option JVal) : Except Unit (Option JVal) :=
  match mvv with
  | none => .ok none
  | some .jnull => .ok none
  | some m => readProp m "primary"

/-- Pure value of the optional-chaining read `model?.primary`: the read
never throws, so it is this value that `primaryOf` returns. -/
def primaryValD (mvv : Option JVal) : Option JVal :=
  match mvv with
  | none => none
  | some .jnull => none
  | some (.jobj mfs) => lookupField mfs "primary"
  | some (.jarr es ps) => getKey (.jarr es ps) "primary"
  | some _ => none

/-- Coercion used by `existingModels.some(...)` (line 148): only an array
has a `.some` method, anything else throws. -/
def coerceModels (v : JVal) : Except Unit (List JVal) :=
  match v with
  | .jarr es _ => .ok es
  | _ => .error ()

/-- Lines 132-142: ensure `models.providers` exists and rebuild the
`ollama` provider entry; the spread of the existing entry comes last in
the literal and so wins over the four fixed fields. -/
def ensureProviderEntry (env : Env) (c0 : JVal) : Except Unit JVal := do
  -- line 132: `if (!config.models) config.models = {}`
  let mv ← readProp c0 "models"
  let c1 ← guardAssign (truthyOpt mv) c0 [] "models"
  -- line 133: `if (!config.models.providers) config.models.providers = {}`
  let pv ← readAt c1 ["models", "providers"]
  let c2 ← guardAssign (truthyOpt pv) c1 ["models"] "providers"
  -- lines 136-142
  let ex ← readAt c2 ["models", "providers", "ollama"]
  assignAt c2 ["models", "providers"] "ollama"
    (JVal.jobj (applyFields (baseEntryFields env)
      (spreadFields (jsOr ex (.jobj [])))))

/-- Lines 147-163: append a fresh model entry unless one with the same id
is already present. -/
def addModelEntry (env : Env) (mid : String) (c3 : JVal) : Except Unit JVal := do
  let emv ← readAt c3 ["models", "providers", "ollama", "models"]
  let es ← coerceModels (jsOr emv (.jarr [] []))
  let found ← someIdEq es mid
  let newList := JVal.jarr (es ++
    [mkModelEntry mid (effectiveContextWindow env.ollamaContextWindow)]) []
  if found then pure c3
  else assignAt c3 ["models", "providers", "ollama"] "models" newList

/-- Lines 166-181: make the environment-supplied model the default
selector unless it already is. -/
def setSelector (mid : String) (c4 : JVal) : Except Unit JVal := do
  let av ← readProp c4 "agents"
  let c5 ← guardAssign (truthyOpt av) c4 [] "agents"
  let dv ← readAt c5 ["agents", "defaults"]
  let c6 ← guardAssign (truthyOpt dv) c5 ["agents"] "defaults"
  let mvv ← readAt c6 ["agents", "defaults", "model"]
  let currentPrimary ← primaryOf mvv
  let upd := JVal.jobj [("primary", JVal.jstr ("ollama/" ++ mid))]
  if isStrVal currentPrimary ("ollama/" ++ mid) then pure c6
  else assignAt c6 ["agents", "defaults"] "model" upd

/-- Lines 126-182: the Ollama provisioning block, reached when both base
URL and API key are truthy.  Lines 147-182 run only when a model id is
supplied. -/
def provisionOllama (env : Env) (c0 : JVal) : Except Unit JVal := do
  let c3 ← ensureProviderEntry env c0
  if truthyStr env.ollamaModel then do
    let c4 ← addModelEntry env (env.ollamaModel.getD "") c3
    setSelector (env.ollamaModel.getD "") c4
  else
    pure c3

/-- Is the value a (non-null) object or an array?  `forceMerge` throws a
`TypeError` on any other top-level target: reading `target[key]` on `null`
throws at once, and on a scalar the nested recursion immediately reads a
property of `undefined`. -/
def isObjLike (v : JVal) : Bool :=
  match v with
  | .jobj _ => true
  | .jarr _ _ => true
  | _ => false

/-- One run of `main` (lines 55-215) on the parsed on-disk document:
`none` means the run threw (the catch block exits 0 without saving);
`some cfg` is the in-memory document passed to `JSON.stringify`. -/
def runMain (env : Env) (config0 : JVal) : Option JVal :=
  if isObjLike config0 then
    let c1 := forceMerge config0 gatewayDefaults    -- line 112
    let c2 := deepMerge c1 agentDefaults            -- line 116
    if truthyStr env.ollamaUrl && truthyStr env.ollamaKey then
      (provisionOllama env c2).toOption             -- lines 125-184
    else
      some c2                                       -- lines 185-192: no mutation
  else
    none

/-- The parsed persisted document after a run, given the parsed document
that was on disk before it: the stringified result on success, the
unchanged prior document when the run threw. -/
def persistedAfter (env : Env) (disk : JVal) : JVal :=
  match runMain env disk with
  | some cfg => serialize cfg
  | none => disk

/-- Pure path lookup in a value tree (for stating properties). -/
def getPath (v : JVal) : List String → Option JVal
  | [] => some v
  | k :: ks =>
      match getKey v k with
      | some w => getPath w ks
      | none => none

/-! ## Concrete inputs used by claim-level theorems -/

/-- Is the value a scalar (string/number/boolean) or a sequence, the
values the spec's merge rules treat atomically? -/
def isScalarOrSeq (v : JVal) : Bool :=
  match v with
  | .jbool _ => true
  | .jnum _ => true
  | .jstr _ => true
  | .jarr _ _ => true
  | _ => false

/-- Environment with provisioning enabled and no model id. -/
def envProvisionNoModel : Env :=
  { ollamaUrl := some "http://172.17.0.1:11434/v1"
    ollamaKey := some "ollama-local"
    ollamaModel := none
    ollamaContextWindow := none }

/-- A persisted document whose ollama entry carries a manually edited
`api` mode and a custom `baseUrl`. -/
def diskWithEditedOllama : JVal :=
  .jobj [("models", .jobj [("providers", .jobj [("ollama", .jobj
    [("api", .jstr "openai-responses"),
     ("baseUrl", .jstr "http://old:1/v1")])])])]

/-- Environment with only the base URL set (partial configuration). -/
def envOnlyUrl : Env :=
  { ollamaUrl := some "http://172.17.0.1:11434/v1"
    ollamaKey := none
    ollamaModel := some "qwen2.5-coder:32b"
    ollamaContextWindow := none }

/-- Environment with provisioning fully enabled and a model id. -/
def envFullModel : Env :=
  { ollamaUrl := some "http://172.17.0.1:11434/v1"
    ollamaKey := some "ollama-local"
    ollamaModel := some "qwen2.5-coder:32b"
    ollamaContextWindow := none }

/-- A persisted document whose default-model mapping selects another
provider model and carries a sibling field. -/
def diskWithModelSiblings : JVal :=
  .jobj [("agents", .jobj [("defaults", .jobj [("model", .jobj
    [("primary", .jstr "ollama/modelA"), ("temperature", .jnum 1)])])])]

mutual

/-- Is a merge source made only of plain object keys — no key is an array
index and no key repeats among its siblings?  Both default literals of the
program satisfy this; the merge-stability lemmas assume it. -/
def plainSource (v : JVal) : Bool :=
  match v with
  | .jobj sf => plainFields sf
  | _ => true

/-- Field-list form of `plainSource`. -/
def plainFields (sf : List (String × JVal)) : Bool :=
  match sf with
  | [] => true
  | (k, sv) :: rest =>
      decide (canonIndex? k = none) && decide (k ∉ rest.map Prod.fst)
        && plainSource sv && plainFields rest

end

/-! ## Lemmas: field lists -/

theorem lookupField_eq_none (fs : List (String × JVal)) (k : String) :
    lookupField fs k = none ↔ k ∉ fs.map Prod.fst := by
  induction fs with
  | nil => simp [lookupField]
  | cons p rest ih =>
      obtain ⟨k', v⟩ := p
      by_cases h : k' = k
      · simp [lookupField, h]
      · simp [lookupField, h, ih]
        tauto

theorem lookupField_setField_self (fs : List (String × JVal)) (k : String)
    (v : JVal) : lookupField (setField fs k v) k = some v := by
  induction fs with
  | nil => simp [setField, lookupField]
  | cons p rest ih =>
      obtain ⟨k', v'⟩ := p
      by_cases h : k' = k <;> simp [setField, h, lookupField, ih]

theorem lookupField_setField_ne (fs : List (String × JVal)) (k k' : String)
    (v : JVal) (h : k' ≠ k) :
    lookupField (setField fs k' v) k = lookupField fs k := by
  induction fs with
  | nil => simp [setField, lookupField, h]
  | cons p rest ih =>
      obtain ⟨k0, v0⟩ := p
      by_cases h0 : k0 = k' <;> by_cases h1 : k0 = k <;>
        simp_all [setField, lookupField]

theorem setField_self (fs : List (String × JVal)) (k : String) (v : JVal)
    (h : lookupField fs k = some v) : setField fs k v = fs := by
  induction fs with
  | nil => simp [lookupField] at h
  | cons p rest ih =>
      obtain ⟨k0, v0⟩ := p
      by_cases h0 : k0 = k
      · simp [lookupField, h0] at h
        simp [setField, h0, h]
      · simp [lookupField, h0] at h
        simp [setField, h0, ih h]

theorem setField_keys_mem (fs : List (String × JVal)) (k : String) (v : JVal)
    (h : k ∈ fs.map Prod.fst) :
    (setField fs k v).map Prod.fst = fs.map Prod.fst := by
  induction fs with
  | nil => simp at h
  | cons p rest ih =>
      obtain ⟨k0, v0⟩ := p
      by_cases h0 : k0 = k
      · simp [setField, h0]
      · simp only [List.map_cons, List.mem_cons] at h
        rcases h with h | h
        · exact absurd h.symm h0
        · simp [setField, h0, ih h]

theorem setField_keys_not_mem (fs : List (String × JVal)) (k : String)
    (v : JVal) (h : k ∉ fs.map Prod.fst) :
    (setField fs k v).map Prod.fst = fs.map Prod.fst ++ [k] := by
  induction fs with
  | nil => simp [setField]
  | cons p rest ih =>
      obtain ⟨k0, v0⟩ := p
      simp only [List.map_cons, List.mem_cons, not_or] at h
      have h0 : k0 ≠ k := fun hh => h.1 hh.symm
      simp [setField, h0, ih h.2]

theorem setField_setField_same (fs : List (String × JVal)) (k : String)
    (a b : JVal) : setField (setField fs k a) k b = setField fs k b := by
  induction fs with
  | nil => simp [setField]
  | cons p rest ih =>
      obtain ⟨k0, v0⟩ := p
      by_cases h : k0 = k <;> simp [setField, h, ih]

theorem setField_append_not_mem (fs : List (String × JVal)) (k : String)
    (v : JVal) (h : k ∉ fs.map Prod.fst) :
    setField fs k v = fs ++ [(k, v)] := by
  induction fs with
  | nil => simp [setField]
  | cons p rest ih =>
      obtain ⟨k0, v0⟩ := p
      simp only [List.map_cons, List.mem_cons, not_or] at h
      have h0 : k0 ≠ k := fun hh => h.1 hh.symm
      simp [setField, h0, ih h.2]

theorem applyFields_append_disjoint (acc : List (String × JVal)) :
    ∀ more : List (String × JVal),
      (∀ p ∈ more, (p.1 ∉ acc.map Prod.fst)) →
      (more.map Prod.fst).Nodup →
      applyFields acc more = acc ++ more := by
  intro more
  induction more generalizing acc with
  | nil => intro _ _; simp [applyFields]
  | cons p rest ih =>
      intro hdis hnd
      obtain ⟨k, v⟩ := p
      simp only [List.map_cons, List.nodup_cons] at hnd
      have hk : k ∉ acc.map Prod.fst := hdis (k, v) (by simp)
      rw [show applyFields acc ((k, v) :: rest)
          = applyFields (setField acc k v) rest from rfl]
      rw [setField_append_not_mem acc k v hk]
      rw [ih (acc ++ [(k, v)]) ?_ hnd.2]
      · simp
      · intro q hq
        simp only [List.map_append, List.mem_append, List.map_cons,
          List.map_nil, List.mem_singleton, not_or]
        constructor
        · exact hdis q (by simp [hq])
        · intro hqk
          exact hnd.1 (hqk ▸ (List.mem_map.mpr ⟨q, hq, rfl⟩))

theorem applyFields_keys (base : List (String × JVal)) :
    ∀ more : List (String × JVal),
      (base.map Prod.fst).Nodup →
      ∃ ex : List String,
        (applyFields base more).map Prod.fst = base.map Prod.fst ++ ex ∧
        (base.map Prod.fst ++ ex).Nodup := by
  intro more
  induction more generalizing base with
  | nil =>
      intro hnd
      exact ⟨[], by simp [applyFields], by simpa using hnd⟩
  | cons p rest ih =>
      intro hnd
      obtain ⟨k, v⟩ := p
      rw [show applyFields base ((k, v) :: rest)
          = applyFields (setField base k v) rest from rfl]
      by_cases hk : k ∈ base.map Prod.fst
      · have hkeys := setField_keys_mem base k v hk
        obtain ⟨ex, h1, h2⟩ := ih (setField base k v) (by rw [hkeys]; exact hnd)
        exact ⟨ex, by rwa [hkeys] at h1, by rwa [hkeys] at h2⟩
      · have hkeys := setField_keys_not_mem base k v hk
        have hnd' : ((setField base k v).map Prod.fst).Nodup := by
          rw [hkeys]
          simp [List.nodup_append, hnd, hk]
        obtain ⟨ex, h1, h2⟩ := ih (setField base k v) hnd'
        refine ⟨k :: ex, ?_, ?_⟩
        · rw [h1, hkeys]
          simp
        · rw [hkeys] at h2
          simpa using h2

/-! ## Lemmas: canonical indices and key access -/

theorem canonIndex?_repr (a : String) (i : Nat) (h : canonIndex? a = some i) :
    Nat.repr i = a := by
  unfold canonIndex? at h
  cases hd : digitsToNat 0 a.data with
  | none => simp [hd] at h
  | some j =>
      rw [hd] at h
      by_cases hr : Nat.repr j = a
      · simp [hr] at h
        rw [h] at hr
        exact hr
      · simp [hr] at h

theorem canonIndex?_inj (a b : String) (i : Nat) (ha : canonIndex? a = some i)
    (hb : canonIndex? b = some i) : a = b := by
  rw [← canonIndex?_repr a i ha, ← canonIndex?_repr b i hb]

theorem getKey_obj (fs : List (String × JVal)) (k : String) :
    getKey (.jobj fs) k = lookupField fs k := rfl

theorem setKey_obj (fs : List (String × JVal)) (k : String) (v : JVal) :
    setKey (.jobj fs) k v = .jobj (setField fs k v) := rfl

theorem setKey_arr_nonidx (es : List JVal) (ps : List (String × JVal))
    (k : String) (v : JVal) (hc : canonIndex? k = none) :
    setKey (.jarr es ps) k v = .jarr es (setField ps k v) := by
  simp [setKey, hc]

theorem getKey_setKey_obj_ne (fs : List (String × JVal)) (k k' : String)
    (v : JVal) (h : k' ≠ k) :
    getKey (setKey (.jobj fs) k' v) k = getKey (.jobj fs) k := by
  simp [setKey, getKey, lookupField_setField_ne _ _ _ _ h]

theorem getKey_setKey_nonidx_ne (t : JVal) (k k' : String) (v : JVal)
    (hc : canonIndex? k' = none) (h : k' ≠ k) :
    getKey (setKey t k' v) k = getKey t k := by
  cases t with
  | jarr es ps =>
      rw [setKey_arr_nonidx es ps k' v hc]
      simp only [getKey]
      cases canonIndex? k with
      | some i => rfl
      | none => exact lookupField_setField_ne _ _ _ _ h
  | jobj fs => exact getKey_setKey_obj_ne fs k k' v h
  | jnull => rfl
  | jbool b => rfl
  | jnum n => rfl
  | jstr s => rfl

theorem getKey_setKey_obj_self (fs : List (String × JVal)) (k : String)
    (v : JVal) : getKey (setKey (.jobj fs) k v) k = some v := by
  simp [setKey, getKey, lookupField_setField_self]

/-! ## Lemmas: serialization -/

mutual

theorem serialize_idem : ∀ v, serialize (serialize v) = serialize v
  | .jnull => rfl
  | .jbool _ => rfl
  | .jnum _ => rfl
  | .jstr _ => rfl
  | .jarr es _ => by simp [serialize, serializeList_idem es]
  | .jobj fs => by simp [serialize, serializeFields_idem fs]

theorem serializeList_idem :
    ∀ es, serializeList (serializeList es) = serializeList es
  | [] => rfl
  | v :: vs => by simp [serializeList, serialize_idem v, serializeList_idem vs]

theorem serializeFields_idem :
    ∀ fs, serializeFields (serializeFields fs) = serializeFields fs
  | [] => rfl
  | (k, v) :: rest => by
      simp [serializeFields, serialize_idem v, serializeFields_idem rest]

end

theorem serializeFields_lookup (fs : List (String × JVal)) (k : String) :
    lookupField (serializeFields fs) k = (lookupField fs k).map serialize := by
  induction fs with
  | nil => simp [serializeFields, lookupField]
  | cons p rest ih =>
      obtain ⟨k0, v0⟩ := p
      by_cases h : k0 = k <;> simp [serializeFields, lookupField, h, ih]

theorem serializeFields_setField (fs : List (String × JVal)) (k : String)
    (v : JVal) :
    serializeFields (setField fs k v) =
      setField (serializeFields fs) k (serialize v) := by
  induction fs with
  | nil => simp [serializeFields, setField]
  | cons p rest ih =>
      obtain ⟨k0, v0⟩ := p
      by_cases h : k0 = k <;> simp [serializeFields, setField, h, ih]

theorem serializeFields_keys (fs : List (String × JVal)) :
    (serializeFields fs).map Prod.fst = fs.map Prod.fst := by
  induction fs with
  | nil => rfl
  | cons p rest ih =>
      obtain ⟨k0, v0⟩ := p
      simp [serializeFields, ih]

theorem serializeFields_fix_lookup (fs : List (String × JVal))
    (h : serializeFields fs = fs) (k : String) (v : JVal)
    (hl : lookupField fs k = some v) : serialize v = v := by
  induction fs with
  | nil => simp [lookupField] at hl
  | cons p rest ih =>
      obtain ⟨k0, v0⟩ := p
      rw [show serializeFields ((k0, v0) :: rest)
          = (k0, serialize v0) :: serializeFields rest from rfl] at h
      injection h with h1 h2
      obtain ⟨hk0, hv0⟩ : k0 = k0 ∧ serialize v0 = v0 := by
        constructor
        · rfl
        · have := congrArg Prod.snd h1
          simpa using this
      by_cases hk : k0 = k
      · rw [lookupField, if_pos hk] at hl
        injection hl with hv
        rw [← hv]
        exact hv0
      · rw [lookupField, if_neg hk] at hl
        exact ih h2 hl

/-! ## Lemmas: the merge folds on mapping targets -/

theorem deepMergeFields_obj_isObj (sf : List (String × JVal)) :
    ∀ fs, ∃ gs, deepMergeFields (.jobj fs) sf = .jobj gs := by
  induction sf with
  | nil => intro fs; exact ⟨fs, rfl⟩
  | cons p rest ih =>
      intro fs
      obtain ⟨k0, sv⟩ := p
      by_cases hm : isMergeableObj sv
      · have h1 := ih (setField fs k0 (deepMerge (mergeBase (lookupField fs k0)) sv))
        simpa [deepMergeFields, hm, setKey] using h1
      · cases hg : getKey (.jobj fs) k0 with
        | none =>
            have h1 := ih (setField fs k0 sv)
            simpa [deepMergeFields, hm, hg, setKey] using h1
        | some w =>
            have h1 := ih fs
            simpa [deepMergeFields, hm, hg] using h1

theorem deepMergeFields_obj_frame (sf : List (String × JVal)) (k : String)
    (h : k ∉ sf.map Prod.fst) :
    ∀ fs, getKey (deepMergeFields (.jobj fs) sf) k = lookupField fs k := by
  induction sf with
  | nil => intro fs; simp [deepMergeFields, getKey]
  | cons p rest ih =>
      intro fs
      obtain ⟨k0, sv⟩ := p
      simp only [List.map_cons, List.mem_cons, not_or] at h
      have hk0 : k0 ≠ k := fun hh => h.1 hh.symm
      have ih' := ih h.2
      by_cases hm : isMergeableObj sv
      · rw [show deepMergeFields (.jobj fs) ((k0, sv) :: rest)
              = deepMergeFields
                  (.jobj (setField fs k0
                    (deepMerge (mergeBase (lookupField fs k0)) sv))) rest by
            simp [deepMergeFields, hm, setKey, getKey]]
        rw [ih' _, lookupField_setField_ne _ _ _ _ hk0]
      · cases hg : lookupField fs k0 with
        | none =>
            rw [show deepMergeFields (.jobj fs) ((k0, sv) :: rest)
                  = deepMergeFields (.jobj (setField fs k0 sv)) rest by
                simp [deepMergeFields, hm, setKey, getKey, hg]]
            rw [ih' _, lookupField_setField_ne _ _ _ _ hk0]
        | some w =>
            rw [show deepMergeFields (.jobj fs) ((k0, sv) :: rest)
                  = deepMergeFields (.jobj fs) rest by
                simp [deepMergeFields, hm, getKey, hg]]
            exact ih' fs

theorem deepMergeFields_obj_mem (sf : List (String × JVal)) (k : String)
    (sv : JVal) (hnd : (sf.map Prod.fst).Nodup)
    (hl : lookupField sf k = some sv) :
    ∀ fs, getKey (deepMergeFields (.jobj fs) sf) k =
      if isMergeableObj sv then
        some (deepMerge (mergeBase (lookupField fs k)) sv)
      else some ((lookupField fs k).getD sv) := by
  induction sf with
  | nil => simp [lookupField] at hl
  | cons p rest ih =>
      intro fs
      obtain ⟨k0, sv0⟩ := p
      simp only [List.map_cons, List.nodup_cons] at hnd
      by_cases h0 : k0 = k
      · subst h0
        simp only [lookupField, if_pos rfl] at hl
        obtain rfl : sv0 = sv := by injection hl
        have hrest : k0 ∉ rest.map Prod.fst := hnd.1
        by_cases hm : isMergeableObj sv0
        · rw [show deepMergeFields (.jobj fs) ((k0, sv0) :: rest)
                = deepMergeFields
                    (.jobj (setField fs k0
                      (deepMerge (mergeBase (lookupField fs k0)) sv0))) rest by
              simp [deepMergeFields, hm, setKey, getKey]]
          rw [deepMergeFields_obj_frame rest k0 hrest _,
            lookupField_setField_self, if_pos hm]
        · cases hg : lookupField fs k0 with
          | none =>
              rw [show deepMergeFields (.jobj fs) ((k0, sv0) :: rest)
                    = deepMergeFields (.jobj (setField fs k0 sv0)) rest by
                  simp [deepMergeFields, hm, setKey, getKey, hg]]
              rw [deepMergeFields_obj_frame rest k0 hrest _,
                lookupField_setField_self]
              simp [hm, hg]
          | some w =>
              rw [show deepMergeFields (.jobj fs) ((k0, sv0) :: rest)
                    = deepMergeFields (.jobj fs) rest by
                  simp [deepMergeFields, hm, getKey, hg]]
              rw [deepMergeFields_obj_frame rest k0 hrest _]
              simp [hm, hg]
      · simp only [lookupField, if_neg h0] at hl
        have ih' := ih hnd.2 hl
        by_cases hm : isMergeableObj sv0
        · rw [show deepMergeFields (.jobj fs) ((k0, sv0) :: rest)
                = deepMergeFields
                    (.jobj (setField fs k0
                      (deepMerge (mergeBase (lookupField fs k0)) sv0))) rest by
              simp [deepMergeFields, hm, setKey, getKey]]
          rw [ih' _, lookupField_setField_ne _ _ _ _ h0]
        · cases hg : lookupField fs k0 with
          | none =>
              rw [show deepMergeFields (.jobj fs) ((k0, sv0) :: rest)
                    = deepMergeFields (.jobj (setField fs k0 sv0)) rest by
                  simp [deepMergeFields, hm, setKey, getKey, hg]]
              rw [ih' _, lookupField_setField_ne _ _ _ _ h0]
          | some w =>
              rw [show deepMergeFields (.jobj fs) ((k0, sv0) :: rest)
                    = deepMergeFields (.jobj fs) rest by
                  simp [deepMergeFields, hm, getKey, hg]]
              exact ih' fs

theorem forceMergeFields_obj_isObj (sf : List (String × JVal)) :
    ∀ fs, ∃ gs, forceMergeFields (.jobj fs) sf = .jobj gs := by
  induction sf with
  | nil => intro fs; exact ⟨fs, rfl⟩
  | cons p rest ih =>
      intro fs
      obtain ⟨k0, sv⟩ := p
      by_cases hm : isMergeableObj sv
      · simpa [forceMergeFields, hm, setKey] using
          ih (setField fs k0 (forceMerge (mergeBase (lookupField fs k0)) sv))
      · simpa [forceMergeFields, hm, setKey] using ih (setField fs k0 sv)

theorem forceMergeFields_obj_frame (sf : List (String × JVal)) (k : String)
    (h : k ∉ sf.map Prod.fst) :
    ∀ fs, getKey (forceMergeFields (.jobj fs) sf) k = lookupField fs k := by
  induction sf with
  | nil => intro fs; simp [forceMergeFields, getKey]
  | cons p rest ih =>
      intro fs
      obtain ⟨k0, sv⟩ := p
      simp only [List.map_cons, List.mem_cons, not_or] at h
      have hk0 : k0 ≠ k := fun hh => h.1 hh.symm
      have ih' := ih h.2
      by_cases hm : isMergeableObj sv
      · rw [show forceMergeFields (.jobj fs) ((k0, sv) :: rest)
              = forceMergeFields
                  (.jobj (setField fs k0
                    (forceMerge (mergeBase (lookupField fs k0)) sv))) rest by
            simp [forceMergeFields, hm, setKey, getKey]]
        rw [ih' _, lookupField_setField_ne _ _ _ _ hk0]
      · rw [show forceMergeFields (.jobj fs) ((k0, sv) :: rest)
              = forceMergeFields (.jobj (setField fs k0 sv)) rest by
            simp [forceMergeFields, hm, setKey, getKey]]
        rw [ih' _, lookupField_setField_ne _ _ _ _ hk0]

theorem forceMergeFields_obj_mem (sf : List (String × JVal)) (k : String)
    (sv : JVal) (hnd : (sf.map Prod.fst).Nodup)
    (hl : lookupField sf k = some sv) :
    ∀ fs, getKey (forceMergeFields (.jobj fs) sf) k =
      if isMergeableObj sv then
        some (forceMerge (mergeBase (lookupField fs k)) sv)
      else some sv := by
  induction sf with
  | nil => simp [lookupField] at hl
  | cons p rest ih =>
      intro fs
      obtain ⟨k0, sv0⟩ := p
      simp only [List.map_cons, List.nodup_cons] at hnd
      by_cases h0 : k0 = k
      · subst h0
        simp only [lookupField, if_pos rfl] at hl
        obtain rfl : sv0 = sv := by injection hl
        have hrest : k0 ∉ rest.map Prod.fst := hnd.1
        by_cases hm : isMergeableObj sv0
        · rw [show forceMergeFields (.jobj fs) ((k0, sv0) :: rest)
                = forceMergeFields
                    (.jobj (setField fs k0
                      (forceMerge (mergeBase (lookupField fs k0)) sv0))) rest by
              simp [forceMergeFields, hm, setKey, getKey]]
          rw [forceMergeFields_obj_frame rest k0 hrest _,
            lookupField_setField_self, if_pos hm]
        · rw [show forceMergeFields (.jobj fs) ((k0, sv0) :: rest)
                = forceMergeFields (.jobj (setField fs k0 sv0)) rest by
              simp [forceMergeFields, hm, setKey, getKey]]
          rw [forceMergeFields_obj_frame rest k0 hrest _,
            lookupField_setField_self]
          simp [hm]
      · simp only [lookupField, if_neg h0] at hl
        have ih' := ih hnd.2 hl
        by_cases hm : isMergeableObj sv0
        · rw [show forceMergeFields (.jobj fs) ((k0, sv0) :: rest)
                = forceMergeFields
                    (.jobj (setField fs k0
                      (forceMerge (mergeBase (lookupField fs k0)) sv0))) rest by
              simp [forceMergeFields, hm, setKey, getKey]]
          rw [ih' _, lookupField_setField_ne _ _ _ _ h0]
        · rw [show forceMergeFields (.jobj fs) ((k0, sv0) :: rest)
                = forceMergeFields (.jobj (setField fs k0 sv0)) rest by
              simp [forceMergeFields, hm, setKey, getKey]]
          rw [ih' _, lookupField_setField_ne _ _ _ _ h0]

/-! ## Claim C1 -/

/-- C1: the claim states that after a provisioning-enabled run the
persisted `models.providers.ollama.api` equals `"openai-completions"` even
when a pre-existing entry had `"openai-responses"`, and that the four fixed
fields are re-asserted over pre-existing values.  The code evaluates the
object literal with the spread of the pre-existing entry *last*
(`startup-config.js` lines 136-142), so the pre-existing fields win: on the
failing input the persisted `api` remains `"openai-responses"` and the
pre-existing `baseUrl` survives, while a run with no pre-existing entry
does set `"openai-completions"`.  This contradicts the code's own
`CRITICAL` comment on line 139. -/
theorem c1_api_not_reasserted :
    getPath (persistedAfter envProvisionNoModel diskWithEditedOllama)
        ["models", "providers", "ollama", "api"]
      = some (.jstr "openai-responses") ∧
    getPath (persistedAfter envProvisionNoModel diskWithEditedOllama)
        ["models", "providers", "ollama", "baseUrl"]
      = some (.jstr "http://old:1/v1") ∧
    getPath (persistedAfter envProvisionNoModel diskWithEditedOllama)
        ["models", "providers", "ollama", "apiKey"]
      = some (.jstr "ollama-local") ∧
    getPath (persistedAfter envProvisionNoModel (.jobj []))
        ["models", "providers", "ollama", "api"]
      = some (.jstr "openai-completions") := by
  refine ⟨rfl, rfl, rfl, rfl⟩

/-! ## Claim C2 -/

/-- C2 counterexample: the claim predicts that when the source value at a
key is a mapping and the target value is a sequence, the sequence is
discarded and replaced by an empty mapping before recursing, so the result
at the key would be the plain mapping `(b ↦ 2)`.  In the code the guard
`!target[key] || typeof target[key] !== 'object'` does not fire for an
array (arrays are truthy objects), so both merges keep the sequence and
recurse into it; the result at the key is the original sequence carrying a
non-index property, not the predicted mapping. -/
theorem c2_sequence_target_counterexample :
    getKey (deepMerge (.jobj [("a", .jarr [.jnum 1] [])])
        (.jobj [("a", .jobj [("b", .jnum 2)])])) "a"
      ≠ some (.jobj [("b", .jnum 2)]) ∧
    getKey (forceMerge (.jobj [("a", .jarr [.jnum 1] [])])
        (.jobj [("a", .jobj [("b", .jnum 2)])])) "a"
      ≠ some (.jobj [("b", .jnum 2)]) ∧
    getKey (deepMerge (.jobj [("a", .jarr [.jnum 1] [])])
        (.jobj [("a", .jobj [("b", .jnum 2)])])) "a"
      = some (.jarr [.jnum 1] [("b", .jnum 2)]) ∧
    getKey (forceMerge (.jobj [("a", .jarr [.jnum 1] [])])
        (.jobj [("a", .jobj [("b", .jnum 2)])])) "a"
      = some (.jarr [.jnum 1] [("b", .jnum 2)]) := by
  refine ⟨by rw [show getKey (deepMerge (.jobj [("a", .jarr [.jnum 1] [])])
      (.jobj [("a", .jobj [("b", .jnum 2)])])) "a"
        = some (.jarr [.jnum 1] [("b", .jnum 2)]) from rfl]; simp,
    by rw [show getKey (forceMerge (.jobj [("a", .jarr [.jnum 1] [])])
      (.jobj [("a", .jobj [("b", .jnum 2)])])) "a"
        = some (.jarr [.jnum 1] [("b", .jnum 2)]) from rfl]; simp,
    rfl, rfl⟩

/-- C2 amended: when the source value at a key is a nested mapping, both
merges recurse into `mergeBase` of the target's current value, which is a
fresh empty mapping when that value is absent, `null`, or a scalar — but an
existing mapping or *sequence* is kept (a sequence is recursed into as a JS
object, its elements untouched); a sequence source value is never merged
element-wise: PreserveMerge keeps any present target value and ForceMerge
replaces the value wholesale. -/
theorem c2_amended_merge_recursion (tf sf : List (String × JVal))
    (k : String) (sv : JVal) (hnd : (sf.map Prod.fst).Nodup)
    (hl : lookupField sf k = some sv) :
    (isMergeableObj sv = true →
       getKey (deepMerge (.jobj tf) (.jobj sf)) k
         = some (deepMerge (mergeBase (lookupField tf k)) sv) ∧
       getKey (forceMerge (.jobj tf) (.jobj sf)) k
         = some (forceMerge (mergeBase (lookupField tf k)) sv)) ∧
    (∀ es ps, lookupField tf k = some (.jarr es ps) →
       mergeBase (lookupField tf k) = .jarr es ps) ∧
    (∀ gs, lookupField tf k = some (.jobj gs) →
       mergeBase (lookupField tf k) = .jobj gs) ∧
    (∀ v, lookupField tf k = some v → isMergeableObj v = false →
       (∀ es ps, v ≠ .jarr es ps) → mergeBase (lookupField tf k) = .jobj []) ∧
    (lookupField tf k = none → mergeBase (lookupField tf k) = .jobj []) ∧
    (∀ es ps, sv = .jarr es ps →
       getKey (deepMerge (.jobj tf) (.jobj sf)) k
         = some ((lookupField tf k).getD sv) ∧
       getKey (forceMerge (.jobj tf) (.jobj sf)) k = some sv) := by
  refine ⟨?_, ?_, ?_, ?_, ?_, ?_⟩
  · intro hm
    constructor
    · rw [show deepMerge (.jobj tf) (.jobj sf) = deepMergeFields (.jobj tf) sf
        from rfl]
      rw [deepMergeFields_obj_mem sf k sv hnd hl tf, if_pos hm]
    · rw [show forceMerge (.jobj tf) (.jobj sf) = forceMergeFields (.jobj tf) sf
        from rfl]
      rw [forceMergeFields_obj_mem sf k sv hnd hl tf, if_pos hm]
  · intro es ps h
    simp [mergeBase, h]
  · intro gs h
    simp [mergeBase, h]
  · intro v h hm hne
    cases v with
    | jarr es ps => exact absurd rfl (hne es ps)
    | jobj gs => simp [isMergeableObj] at hm
    | jnull => simp [mergeBase, h]
    | jbool b => simp [mergeBase, h]
    | jnum n => simp [mergeBase, h]
    | jstr s => simp [mergeBase, h]
  · intro h
    simp [mergeBase, h]
  · intro es ps hsv
    have hm : isMergeableObj sv = false := by rw [hsv]; rfl
    constructor
    · rw [show deepMerge (.jobj tf) (.jobj sf) = deepMergeFields (.jobj tf) sf
        from rfl]
      rw [deepMergeFields_obj_mem sf k sv hnd hl tf, if_neg (by simp [hm])]
    · rw [show forceMerge (.jobj tf) (.jobj sf) = forceMergeFields (.jobj tf) sf
        from rfl]
      rw [forceMergeFields_obj_mem sf k sv hnd hl tf, if_neg (by simp [hm])]

/-- Witness for the C2 amended theorem at a concrete input: a sequence at
the target key is kept by the recursion (its `mergeBase` is the sequence
itself), and a sequence source value is copied atomically. -/
theorem c2_amended_merge_recursion_witness :
    mergeBase (lookupField [("a", JVal.jarr [.jnum 1] [])] "a")
        = .jarr [.jnum 1] [] ∧
    getKey (deepMerge (.jobj [("a", JVal.jarr [.jnum 1] [])])
        (.jobj [("a", .jobj [("b", .jnum 2)])])) "a"
      = some (deepMerge (mergeBase
          (lookupField [("a", JVal.jarr [.jnum 1] [])] "a"))
          (.jobj [("b", .jnum 2)])) := by
  have h := c2_amended_merge_recursion [("a", JVal.jarr [.jnum 1] [])]
    [("a", JVal.jobj [("b", .jnum 2)])] "a" (.jobj [("b", .jnum 2)])
    (by simp) rfl
  exact ⟨h.2.1 [.jnum 1] [] rfl, (h.1 rfl).1⟩

/-! ## Claim C4 -/

/-- C4: for every target and source mapping and every key whose source
value is a scalar or a sequence, PreserveMerge sets the key only when it is
absent from the target; any present value — including `null` and `false` —
is left unchanged. -/
theorem c4_preserve_existing_scalars (tf sf : List (String × JVal))
    (k : String) (sv : JVal) (hnd : (sf.map Prod.fst).Nodup)
    (hl : lookupField sf k = some sv) (hs : isScalarOrSeq sv = true) :
    (lookupField tf k = none →
       getKey (deepMerge (.jobj tf) (.jobj sf)) k = some sv) ∧
    (∀ v, lookupField tf k = some v →
       getKey (deepMerge (.jobj tf) (.jobj sf)) k = some v) := by
  have hm : isMergeableObj sv = false := by
    cases sv <;> simp_all [isScalarOrSeq, isMergeableObj]
  have key : getKey (deepMerge (.jobj tf) (.jobj sf)) k
      = some ((lookupField tf k).getD sv) := by
    rw [show deepMerge (.jobj tf) (.jobj sf) = deepMergeFields (.jobj tf) sf
      from rfl]
    rw [deepMergeFields_obj_mem sf k sv hnd hl tf, if_neg (by simp [hm])]
  constructor
  · intro h
    rw [key, h]
    rfl
  · intro v h
    rw [key, h]
    rfl

/-- Witness for C4: a present `false` (and a present `null`) survive the
preserve-merge of a source scalar, and an absent key is filled in. -/
theorem c4_preserve_existing_scalars_witness :
    getKey (deepMerge (.jobj [("x", JVal.jbool false)])
        (.jobj [("x", .jnum 5)])) "x" = some (.jbool false) ∧
    getKey (deepMerge (.jobj []) (.jobj [("x", .jnum 5)])) "x"
      = some (.jnum 5) ∧
    getKey (deepMerge (.jobj [("x", JVal.jnull)])
        (.jobj [("x", .jnum 5)])) "x" = some .jnull := by
  refine ⟨?_, ?_, ?_⟩
  · exact (c4_preserve_existing_scalars [("x", JVal.jbool false)]
      [("x", JVal.jnum 5)] "x" (.jnum 5) (by simp) rfl rfl).2
      (.jbool false) rfl
  · exact (c4_preserve_existing_scalars [] [("x", JVal.jnum 5)] "x"
      (.jnum 5) (by simp) rfl rfl).1 rfl
  · exact (c4_preserve_existing_scalars [("x", JVal.jnull)]
      [("x", JVal.jnum 5)] "x" (.jnum 5) (by simp) rfl rfl).2 .jnull rfl

/-! ## Claim C7 -/

/-- C7: PreserveMerge never touches a target key that does not occur in
the source (so unknown top-level or nested keys survive), and on the
spec's own example a user-set `agents.defaults.tools.allow = ["read"]`
survives the preserve-merge of the agent defaults, as does a nested
user key unknown to the defaults. -/
theorem c7_preserve_frame (tf sf : List (String × JVal)) (k : String)
    (h : k ∉ sf.map Prod.fst) :
    getKey (deepMerge (.jobj tf) (.jobj sf)) k = lookupField tf k ∧
    getPath (deepMerge
        (.jobj [("agents", .jobj [("defaults", .jobj [("tools", .jobj
          [("allow", .jarr [.jstr "read"] [])])])])])
        agentDefaults)
        ["agents", "defaults", "tools", "allow"]
      = some (.jarr [.jstr "read"] []) ∧
    getPath (deepMerge
        (.jobj [("agents", .jobj [("custom", .jnum 42)])])
        agentDefaults)
        ["agents", "custom"]
      = some (.jnum 42) := by
  refine ⟨?_, rfl, rfl⟩
  rw [show deepMerge (.jobj tf) (.jobj sf) = deepMergeFields (.jobj tf) sf
    from rfl]
  exact deepMergeFields_obj_frame sf k h tf

/-- Witness for C7 at a concrete input: a top-level key absent from the
source survives with its exact value. -/
theorem c7_preserve_frame_witness :
    getKey (deepMerge (.jobj [("keepme", JVal.jstr "v")])
        (.jobj [("other", .jnum 1)])) "keepme" = some (.jstr "v") := by
  have h := c7_preserve_frame [("keepme", JVal.jstr "v")]
    [("other", JVal.jnum 1)] "keepme" (by simp)
  exact h.1

/-! ## Lemmas: the effectful pipeline steps -/

theorem except_bind_ok {α β : Type} (x : Except Unit α) (f : α → Except Unit β)
    (b : β) (h : x >>= f = .ok b) : ∃ a, x = .ok a ∧ f a = .ok b := by
  cases x with
  | error e => simp [Bind.bind, Except.bind] at h
  | ok a =>
      refine ⟨a, rfl, ?_⟩
      simpa [Bind.bind, Except.bind] using h

theorem except_pure_ok {α : Type} (a b : α)
    (h : (pure a : Except Unit α) = .ok b) : a = b := by
  simpa [pure, Except.pure] using h

theorem except_toOption_ok {α : Type} (x : Except Unit α) (a : α)
    (h : x.toOption = some a) : x = .ok a := by
  cases x with
  | error e => simp [Except.toOption] at h
  | ok b =>
      simp [Except.toOption] at h
      rw [h]

theorem readProp_objLike (t : JVal) (k : String) (ht : isObjLike t = true) :
    readProp t k = .ok (getKey t k) := by
  cases t <;> simp_all [readProp, isObjLike, getKey]

theorem writeProp_ok_getKey_ne (t : JVal) (k : String) (v res : JVal)
    (h : writeProp t k v = .ok res) (hidx : canonIndex? k = none)
    (q : String) (hq : k ≠ q) : getKey res q = getKey t q := by
  cases t with
  | jnull => simp [writeProp] at h
  | jobj fs =>
      simp only [writeProp, Except.ok.injEq] at h
      rw [← h]
      exact getKey_setKey_obj_ne fs q k v hq
  | jarr es ps =>
      simp only [writeProp, Except.ok.injEq] at h
      rw [← h]
      exact getKey_setKey_nonidx_ne _ _ _ _ hidx hq
  | jbool b => simp only [writeProp, Except.ok.injEq] at h; rw [← h]
  | jnum n => simp only [writeProp, Except.ok.injEq] at h; rw [← h]
  | jstr s => simp only [writeProp, Except.ok.injEq] at h; rw [← h]

theorem writeProp_obj (fs : List (String × JVal)) (k : String) (v : JVal) :
    writeProp (.jobj fs) k v = .ok (.jobj (setField fs k v)) := rfl

theorem writeProp_ok_obj (fs : List (String × JVal)) (k : String) (v res : JVal)
    (h : writeProp (.jobj fs) k v = .ok res) : res = .jobj (setField fs k v) := by
  simpa [writeProp] using h.symm

theorem assignAt_cons_inv (root : JVal) (p : String) (rest : List String)
    (k : String) (v res : JVal) (h : assignAt root (p :: rest) k v = .ok res) :
    ∃ base base', readProp root p = .ok (some base) ∧
      assignAt base rest k v = .ok base' ∧ writeProp root p base' = .ok res := by
  unfold assignAt at h
  cases hr : readProp root p with
  | error e => rw [hr] at h; simp at h
  | ok o =>
      rw [hr] at h
      cases o with
      | none => simp at h
      | some base =>
          simp only at h
          cases ha : assignAt base rest k v with
          | error e => rw [ha] at h; simp at h
          | ok base' =>
              rw [ha] at h
              exact ⟨base, base', rfl, ha, h⟩

theorem assignAt_frame (root : JVal) (path : List String) (k : String)
    (v res : JVal) (h : assignAt root path k v = .ok res) (q : String)
    (hq : path.headD k ≠ q) (hidx : canonIndex? (path.headD k) = none) :
    getKey res q = getKey root q := by
  cases path with
  | nil => exact writeProp_ok_getKey_ne root k v res h hidx q hq
  | cons p rest =>
      obtain ⟨base, base', hr, ha, hw⟩ := assignAt_cons_inv root p rest k v res h
      exact writeProp_ok_getKey_ne root p base' res hw hidx q hq

theorem assignAt_obj (root : JVal) (path : List String) (k : String)
    (v res : JVal) (h : assignAt root path k v = .ok res)
    (fs : List (String × JVal)) (hro : root = .jobj fs) :
    ∃ gs, res = .jobj gs := by
  subst hro
  cases path with
  | nil => exact ⟨setField fs k v, writeProp_ok_obj fs k v res h⟩
  | cons p rest =>
      obtain ⟨base, base', hr, ha, hw⟩ :=
        assignAt_cons_inv (.jobj fs) p rest k v res h
      exact ⟨setField fs p base', writeProp_ok_obj fs p base' res hw⟩

theorem getKey_setKey_nonidx_self (t : JVal) (k : String) (v : JVal)
    (ht : isObjLike t = true) (hidx : canonIndex? k = none) :
    getKey (setKey t k v) k = some v := by
  cases t with
  | jobj fs => exact getKey_setKey_obj_self fs k v
  | jarr es ps =>
      rw [setKey_arr_nonidx es ps k v hidx]
      simp [getKey, hidx, lookupField_setField_self]
  | jnull => simp [isObjLike] at ht
  | jbool b => simp [isObjLike] at ht
  | jnum n => simp [isObjLike] at ht
  | jstr s => simp [isObjLike] at ht

theorem getKey_serialize_obj (fs : List (String × JVal)) (k : String) :
    getKey (serialize (.jobj fs)) k = (lookupField fs k).map serialize := by
  rw [show serialize (.jobj fs) = .jobj (serializeFields fs) from rfl]
  exact serializeFields_lookup fs k

/-! ## Lemmas: the two default merges of `main` -/

theorem isMergeableObj_gatewayInner : isMergeableObj gatewayInner = true := rfl

theorem isMergeableObj_agentsInner : isMergeableObj agentsInner = true := rfl

theorem forceMerge_gd_obj (fs : List (String × JVal)) :
    forceMerge (.jobj fs) gatewayDefaults =
      .jobj (setField fs "gateway"
        (forceMerge (mergeBase (lookupField fs "gateway")) gatewayInner)) := by
  show forceMergeFields (.jobj fs) [("gateway", gatewayInner)] = _
  simp [forceMergeFields, isMergeableObj_gatewayInner, setKey_obj, getKey_obj]

theorem forceMerge_gd_arr (es : List JVal) (ps : List (String × JVal)) :
    forceMerge (.jarr es ps) gatewayDefaults =
      .jarr es (setField ps "gateway"
        (forceMerge (mergeBase (lookupField ps "gateway")) gatewayInner)) := by
  show forceMergeFields (.jarr es ps) [("gateway", gatewayInner)] = _
  have hidx : canonIndex? "gateway" = none := rfl
  simp [forceMergeFields, isMergeableObj_gatewayInner,
    setKey_arr_nonidx es ps "gateway" _ hidx, getKey, hidx]

theorem deepMerge_ad_obj (fs : List (String × JVal)) :
    deepMerge (.jobj fs) agentDefaults =
      .jobj (setField fs "agents"
        (deepMerge (mergeBase (lookupField fs "agents")) agentsInner)) := by
  show deepMergeFields (.jobj fs) [("agents", agentsInner)] = _
  simp [deepMergeFields, isMergeableObj_agentsInner, setKey_obj, getKey_obj]

theorem deepMerge_ad_arr (es : List JVal) (ps : List (String × JVal)) :
    deepMerge (.jarr es ps) agentDefaults =
      .jarr es (setField ps "agents"
        (deepMerge (mergeBase (lookupField ps "agents")) agentsInner)) := by
  show deepMergeFields (.jarr es ps) [("agents", agentsInner)] = _
  have hidx : canonIndex? "agents" = none := rfl
  simp [deepMergeFields, isMergeableObj_agentsInner,
    setKey_arr_nonidx es ps "agents" _ hidx, getKey, hidx]

theorem forceMerge_gd_frame (t : JVal) (ht : isObjLike t = true) (q : String)
    (hq : "gateway" ≠ q) :
    getKey (forceMerge t gatewayDefaults) q = getKey t q := by
  cases t with
  | jobj fs =>
      rw [forceMerge_gd_obj]
      exact lookupField_setField_ne fs q "gateway" _ hq
  | jarr es ps =>
      rw [forceMerge_gd_arr, ← setKey_arr_nonidx es ps "gateway" _ rfl]
      exact getKey_setKey_nonidx_ne _ _ _ _ rfl hq
  | jnull => simp [isObjLike] at ht
  | jbool b => simp [isObjLike] at ht
  | jnum n => simp [isObjLike] at ht
  | jstr s => simp [isObjLike] at ht

theorem deepMerge_ad_frame (t : JVal) (ht : isObjLike t = true) (q : String)
    (hq : "agents" ≠ q) :
    getKey (deepMerge t agentDefaults) q = getKey t q := by
  cases t with
  | jobj fs =>
      rw [deepMerge_ad_obj]
      exact lookupField_setField_ne fs q "agents" _ hq
  | jarr es ps =>
      rw [deepMerge_ad_arr, ← setKey_arr_nonidx es ps "agents" _ rfl]
      exact getKey_setKey_nonidx_ne _ _ _ _ rfl hq
  | jnull => simp [isObjLike] at ht
  | jbool b => simp [isObjLike] at ht
  | jnum n => simp [isObjLike] at ht
  | jstr s => simp [isObjLike] at ht

theorem forceMerge_gd_objLike (t : JVal) (ht : isObjLike t = true) :
    isObjLike (forceMerge t gatewayDefaults) = true := by
  cases t with
  | jobj fs => rw [forceMerge_gd_obj]; rfl
  | jarr es ps => rw [forceMerge_gd_arr]; rfl
  | jnull => simp [isObjLike] at ht
  | jbool b => simp [isObjLike] at ht
  | jnum n => simp [isObjLike] at ht
  | jstr s => simp [isObjLike] at ht

theorem deepMerge_ad_objLike (t : JVal) (ht : isObjLike t = true) :
    isObjLike (deepMerge t agentDefaults) = true := by
  cases t with
  | jobj fs => rw [deepMerge_ad_obj]; rfl
  | jarr es ps => rw [deepMerge_ad_arr]; rfl
  | jnull => simp [isObjLike] at ht
  | jbool b => simp [isObjLike] at ht
  | jnum n => simp [isObjLike] at ht
  | jstr s => simp [isObjLike] at ht

theorem forceMerge_gd_getKey_gateway (t : JVal) (ht : isObjLike t = true) :
    getKey (forceMerge t gatewayDefaults) "gateway"
      = some (forceMerge (mergeBase (getKey t "gateway")) gatewayInner) := by
  cases t with
  | jobj fs =>
      rw [forceMerge_gd_obj]
      exact lookupField_setField_self fs "gateway" _
  | jarr es ps =>
      rw [forceMerge_gd_arr]
      simp [getKey, show canonIndex? "gateway" = none from rfl,
        lookupField_setField_self]
  | jnull => simp [isObjLike] at ht
  | jbool b => simp [isObjLike] at ht
  | jnum n => simp [isObjLike] at ht
  | jstr s => simp [isObjLike] at ht

theorem deepMerge_ad_getKey_agents (t : JVal) (ht : isObjLike t = true) :
    getKey (deepMerge t agentDefaults) "agents"
      = some (deepMerge (mergeBase (getKey t "agents")) agentsInner) := by
  cases t with
  | jobj fs =>
      rw [deepMerge_ad_obj]
      exact lookupField_setField_self fs "agents" _
  | jarr es ps =>
      rw [deepMerge_ad_arr]
      simp [getKey, show canonIndex? "agents" = none from rfl,
        lookupField_setField_self]
  | jnull => simp [isObjLike] at ht
  | jbool b => simp [isObjLike] at ht
  | jnum n => simp [isObjLike] at ht
  | jstr s => simp [isObjLike] at ht

theorem isMergeableObj_defaultsInner : isMergeableObj defaultsInner = true := rfl

theorem deepMerge_agentsInner_obj (afs : List (String × JVal)) :
    deepMerge (.jobj afs) agentsInner
      = .jobj (setField afs "defaults"
          (deepMerge (mergeBase (lookupField afs "defaults")) defaultsInner)) := by
  show deepMergeFields (.jobj afs) [("defaults", defaultsInner)] = _
  simp [deepMergeFields, isMergeableObj_defaultsInner, setKey_obj, getKey_obj]

theorem deepMerge_defaultsInner_model_frame (dfs : List (String × JVal)) :
    getKey (deepMerge (.jobj dfs) defaultsInner) "model"
      = lookupField dfs "model" := by
  show getKey (deepMergeFields (.jobj dfs) [("tools", toolsInner)]) "model" = _
  exact deepMergeFields_obj_frame [("tools", toolsInner)] "model" (by simp) dfs

theorem deepMerge_defaultsInner_isObj (dfs : List (String × JVal)) :
    ∃ gs, deepMerge (.jobj dfs) defaultsInner = .jobj gs := by
  show ∃ gs, deepMergeFields (.jobj dfs) [("tools", toolsInner)] = .jobj gs
  exact deepMergeFields_obj_isObj [("tools", toolsInner)] dfs

/-! ## Lemmas: frames and shapes of the provisioning stages -/

theorem guardAssign_frame (cond : Bool) (c : JVal) (path : List String)
    (k : String) (res : JVal) (h : guardAssign cond c path k = .ok res)
    (q : String) (hq : path.headD k ≠ q)
    (hidx : canonIndex? (path.headD k) = none) :
    getKey res q = getKey c q := by
  unfold guardAssign at h
  by_cases hc : cond = true
  · rw [if_pos hc] at h
    rw [← except_pure_ok _ _ h]
  · rw [if_neg hc] at h
    exact assignAt_frame c path k _ res h q hq hidx

theorem guardAssign_obj (cond : Bool) (c : JVal) (path : List String)
    (k : String) (res : JVal) (h : guardAssign cond c path k = .ok res)
    (fs : List (String × JVal)) (hc : c = .jobj fs) :
    ∃ gs, res = .jobj gs := by
  unfold guardAssign at h
  by_cases hb : cond = true
  · rw [if_pos hb] at h
    exact ⟨fs, (except_pure_ok _ _ h).symm.trans hc⟩
  · rw [if_neg hb] at h
    exact assignAt_obj c path k _ res h fs hc

theorem ensureProviderEntry_frame (env : Env) (c c3 : JVal)
    (h : ensureProviderEntry env c = .ok c3) (q : String)
    (hq : "models" ≠ q) : getKey c3 q = getKey c q := by
  unfold ensureProviderEntry at h
  obtain ⟨mv, hmv, h⟩ := except_bind_ok _ _ _ h
  obtain ⟨c1, hc1, h⟩ := except_bind_ok _ _ _ h
  obtain ⟨pv, hpv, h⟩ := except_bind_ok _ _ _ h
  obtain ⟨c2, hc2, h⟩ := except_bind_ok _ _ _ h
  obtain ⟨ex, hex, h⟩ := except_bind_ok _ _ _ h
  have e3 : getKey c3 q = getKey c2 q := assignAt_frame c2 _ _ _ c3 h q hq rfl
  have e2 : getKey c2 q = getKey c1 q :=
    guardAssign_frame _ c1 _ _ c2 hc2 q hq rfl
  have e1 : getKey c1 q = getKey c q :=
    guardAssign_frame _ c _ _ c1 hc1 q hq rfl
  rw [e3, e2, e1]

theorem ensureProviderEntry_obj (env : Env) (c c3 : JVal)
    (h : ensureProviderEntry env c = .ok c3)
    (fs : List (String × JVal)) (hc : c = .jobj fs) :
    ∃ gs, c3 = .jobj gs := by
  unfold ensureProviderEntry at h
  obtain ⟨mv, hmv, h⟩ := except_bind_ok _ _ _ h
  obtain ⟨c1, hc1, h⟩ := except_bind_ok _ _ _ h
  obtain ⟨pv, hpv, h⟩ := except_bind_ok _ _ _ h
  obtain ⟨c2, hc2, h⟩ := except_bind_ok _ _ _ h
  obtain ⟨ex, hex, h⟩ := except_bind_ok _ _ _ h
  obtain ⟨g1, e1⟩ := guardAssign_obj _ c _ _ c1 hc1 fs hc
  obtain ⟨g2, e2⟩ := guardAssign_obj _ c1 _ _ c2 hc2 g1 e1
  exact assignAt_obj c2 _ _ _ c3 h g2 e2

theorem addModelEntry_frame (env : Env) (mid : String) (c3 c4 : JVal)
    (h : addModelEntry env mid c3 = .ok c4) (q : String)
    (hq : "models" ≠ q) : getKey c4 q = getKey c3 q := by
  unfold addModelEntry at h
  obtain ⟨emv, hemv, h⟩ := except_bind_ok _ _ _ h
  obtain ⟨es, hes, h⟩ := except_bind_ok _ _ _ h
  obtain ⟨found, hfound, h⟩ := except_bind_ok _ _ _ h
  by_cases hf : found = true
  · rw [if_pos hf] at h
    rw [← except_pure_ok _ _ h]
  · rw [if_neg hf] at h
    exact assignAt_frame c3 _ _ _ c4 h q hq rfl

theorem addModelEntry_obj (env : Env) (mid : String) (c3 c4 : JVal)
    (h : addModelEntry env mid c3 = .ok c4)
    (fs : List (String × JVal)) (hc : c3 = .jobj fs) :
    ∃ gs, c4 = .jobj gs := by
  unfold addModelEntry at h
  obtain ⟨emv, hemv, h⟩ := except_bind_ok _ _ _ h
  obtain ⟨es, hes, h⟩ := except_bind_ok _ _ _ h
  obtain ⟨found, hfound, h⟩ := except_bind_ok _ _ _ h
  by_cases hf : found = true
  · rw [if_pos hf] at h
    exact ⟨fs, (except_pure_ok _ _ h).symm.trans hc⟩
  · rw [if_neg hf] at h
    exact assignAt_obj c3 _ _ _ c4 h fs hc

theorem setSelector_frame (mid : String) (c4 cfg : JVal)
    (h : setSelector mid c4 = .ok cfg) (q : String)
    (hq : "agents" ≠ q) : getKey cfg q = getKey c4 q := by
  unfold setSelector at h
  obtain ⟨av, hav, h⟩ := except_bind_ok _ _ _ h
  obtain ⟨c5, hc5, h⟩ := except_bind_ok _ _ _ h
  obtain ⟨dv, hdv, h⟩ := except_bind_ok _ _ _ h
  obtain ⟨c6, hc6, h⟩ := except_bind_ok _ _ _ h
  obtain ⟨mvv, hmvv, h⟩ := except_bind_ok _ _ _ h
  obtain ⟨cur, hcur, h⟩ := except_bind_ok _ _ _ h
  have e7 : getKey cfg q = getKey c6 q := by
    by_cases hs : isStrVal cur ("ollama/" ++ mid) = true
    · rw [if_pos hs] at h
      rw [← except_pure_ok _ _ h]
    · rw [if_neg hs] at h
      exact assignAt_frame c6 _ _ _ cfg h q hq rfl
  have e6 : getKey c6 q = getKey c5 q :=
    guardAssign_frame _ c5 _ _ c6 hc6 q hq rfl
  have e5 : getKey c5 q = getKey c4 q :=
    guardAssign_frame _ c4 _ _ c5 hc5 q hq rfl
  rw [e7, e6, e5]

theorem setSelector_obj (mid : String) (c4 cfg : JVal)
    (h : setSelector mid c4 = .ok cfg)
    (fs : List (String × JVal)) (hc : c4 = .jobj fs) :
    ∃ gs, cfg = .jobj gs := by
  unfold setSelector at h
  obtain ⟨av, hav, h⟩ := except_bind_ok _ _ _ h
  obtain ⟨c5, hc5, h⟩ := except_bind_ok _ _ _ h
  obtain ⟨dv, hdv, h⟩ := except_bind_ok _ _ _ h
  obtain ⟨c6, hc6, h⟩ := except_bind_ok _ _ _ h
  obtain ⟨mvv, hmvv, h⟩ := except_bind_ok _ _ _ h
  obtain ⟨cur, hcur, h⟩ := except_bind_ok _ _ _ h
  obtain ⟨g5, e5⟩ := guardAssign_obj _ c4 _ _ c5 hc5 fs hc
  obtain ⟨g6, e6⟩ := guardAssign_obj _ c5 _ _ c6 hc6 g5 e5
  by_cases hs : isStrVal cur ("ollama/" ++ mid) = true
  · rw [if_pos hs] at h
    exact ⟨g6, (except_pure_ok _ _ h).symm.trans e6⟩
  · rw [if_neg hs] at h
    exact assignAt_obj c6 _ _ _ cfg h g6 e6

theorem primaryOf_ok (mvv : Option JVal) :
    primaryOf mvv = .ok (primaryValD mvv) := by
  cases mvv with
  | none => rfl
  | some m => cases m <;> rfl

theorem setSelector_compute (mid : String) (g4 ags dgs : List (String × JVal))
    (c4 : JVal) (hc4 : c4 = .jobj g4)
    (hA : lookupField g4 "agents" = some (.jobj ags))
    (hD : lookupField ags "defaults" = some (.jobj dgs)) :
    setSelector mid c4 =
      if isStrVal (primaryValD (lookupField dgs "model")) ("ollama/" ++ mid) then
        .ok c4
      else
        .ok (.jobj (setField g4 "agents" (.jobj (setField ags "defaults"
          (.jobj (setField dgs "model"
            (.jobj [("primary", .jstr ("ollama/" ++ mid))])))))))  := by
  subst hc4
  unfold setSelector
  have h1 : readProp (.jobj g4) "agents" = .ok (some (.jobj ags)) := by
    simp [readProp, hA]
  have h2 : readAt (.jobj g4) ["agents", "defaults"] = .ok (some (.jobj dgs)) := by
    simp [readAt, readProp, hA, hD]
  have h3 : readAt (.jobj g4) ["agents", "defaults", "model"]
      = .ok (lookupField dgs "model") := by
    simp [readAt, readProp, hA, hD]
  have h4 : assignAt (.jobj g4) ["agents", "defaults"] "model"
      (.jobj [("primary", .jstr ("ollama/" ++ mid))])
      = .ok (.jobj (setField g4 "agents" (.jobj (setField ags "defaults"
        (.jobj (setField dgs "model"
          (.jobj [("primary", .jstr ("ollama/" ++ mid))]))))))) := by
    simp [assignAt, readProp, hA, hD, writeProp]
  rw [h1]
  simp only [Bind.bind, Except.bind, guardAssign, truthyOpt, truthy, if_true]
  simp only [pure, Except.pure]
  rw [h2]
  simp only [truthyOpt, truthy, if_true]
  rw [h3]
  simp only []
  rw [primaryOf_ok]
  simp only []
  by_cases hs : isStrVal (primaryValD (lookupField dgs "model"))
      ("ollama/" ++ mid) = true
  · rw [if_pos hs, if_pos hs]
  · rw [if_neg hs, if_neg hs, h4]

theorem applyFields_base4_absorb (env : Env) (ef : List (String × JVal))
    (htake : (ef.map Prod.fst).take 4 = ["baseUrl", "apiKey", "api", "authHeader"])
    (hnd : (ef.map Prod.fst).Nodup) :
    applyFields (baseEntryFields env) ef = ef := by
  cases ef with
  | nil => simp at htake
  | cons e1 t1 =>
    cases t1 with
    | nil => simp at htake
    | cons e2 t2 =>
      cases t2 with
      | nil => simp at htake
      | cons e3 t3 =>
        cases t3 with
        | nil => simp at htake
        | cons e4 rest =>
          obtain ⟨k1, v1⟩ := e1
          obtain ⟨k2, v2⟩ := e2
          obtain ⟨k3, v3⟩ := e3
          obtain ⟨k4, v4⟩ := e4
          simp only [List.map_cons, List.take] at htake
          obtain ⟨rfl, rfl, rfl, rfl⟩ : k1 = "baseUrl" ∧ k2 = "apiKey" ∧
              k3 = "api" ∧ k4 = "authHeader" := by
            injection htake with h1 htake
            injection htake with h2 htake
            injection htake with h3 htake
            injection htake with h4 htake
            exact ⟨h1, h2, h3, h4⟩
          have hstep : applyFields (baseEntryFields env)
              (("baseUrl", v1) :: ("apiKey", v2) :: ("api", v3) ::
                ("authHeader", v4) :: rest)
              = applyFields [("baseUrl", v1), ("apiKey", v2), ("api", v3),
                  ("authHeader", v4)] rest := by
            simp [applyFields, baseEntryFields, setField]
          rw [hstep]
          simp only [List.map_cons, List.nodup_cons, List.mem_cons,
            not_or] at hnd
          rw [applyFields_append_disjoint _ rest ?_ hnd.2.2.2.2]
          · simp
          · intro q hq
            have hq1 : q.1 ∈ rest.map Prod.fst := List.mem_map.mpr ⟨q, hq, rfl⟩
            simp only [List.map_cons, List.map_nil, List.mem_cons,
              List.not_mem_nil, or_false, not_or]
            refine ⟨fun hh => hnd.1.2.2.2 (hh ▸ hq1),
              fun hh => hnd.2.1.2.2 (hh ▸ hq1),
              fun hh => hnd.2.2.1.2 (hh ▸ hq1),
              fun hh => hnd.2.2.2.1 (hh ▸ hq1)⟩

/-! ## Lemmas: computing the provisioning stages on explicit shapes -/

theorem ensure_compute_obj_obj (env : Env) (c : JVal)
    (g mfs pfs : List (String × JVal)) (hc : c = .jobj g)
    (hm : lookupField g "models" = some (.jobj mfs))
    (hp : lookupField mfs "providers" = some (.jobj pfs)) :
    ensureProviderEntry env c = .ok (.jobj (setField g "models"
      (.jobj (setField mfs "providers" (.jobj (setField pfs "ollama"
        (.jobj (applyFields (baseEntryFields env)
          (spreadFields (jsOr (lookupField pfs "ollama") (.jobj []))))))))))) := by
  subst hc
  unfold ensureProviderEntry
  have h1 : readProp (.jobj g) "models" = .ok (some (.jobj mfs)) := by
    simp [readProp, hm]
  have h2 : readAt (.jobj g) ["models", "providers"] = .ok (some (.jobj pfs)) := by
    simp [readAt, readProp, hm, hp]
  have h3 : readAt (.jobj g) ["models", "providers", "ollama"]
      = .ok (lookupField pfs "ollama") := by
    simp [readAt, readProp, hm, hp]
  have h4 : assignAt (.jobj g) ["models", "providers"] "ollama"
      (.jobj (applyFields (baseEntryFields env)
        (spreadFields (jsOr (lookupField pfs "ollama") (.jobj [])))))
      = .ok (.jobj (setField g "models"
        (.jobj (setField mfs "providers" (.jobj (setField pfs "ollama"
          (.jobj (applyFields (baseEntryFields env)
            (spreadFields (jsOr (lookupField pfs "ollama") (.jobj []))))))))))) := by
    simp [assignAt, readProp, hm, hp, writeProp]
  rw [h1]
  simp only [Bind.bind, Except.bind, guardAssign, truthyOpt, truthy, if_true]
  simp only [pure, Except.pure]
  rw [h2]
  simp only [truthyOpt, truthy, if_true]
  rw [h3]
  simp only []
  rw [h4]

theorem ensure_compute_obj_arrProviders (env : Env) (c : JVal)
    (g mfs : List (String × JVal)) (pes : List JVal) (hc : c = .jobj g)
    (hm : lookupField g "models" = some (.jobj mfs))
    (hp : lookupField mfs "providers" = some (.jarr pes [])) :
    ensureProviderEntry env c = .ok (.jobj (setField g "models"
      (.jobj (setField mfs "providers"
        (.jarr pes [("ollama", .jobj (baseEntryFields env))]))))) := by
  subst hc
  unfold ensureProviderEntry
  have h1 : readProp (.jobj g) "models" = .ok (some (.jobj mfs)) := by
    simp [readProp, hm]
  have h2 : readAt (.jobj g) ["models", "providers"] = .ok (some (.jarr pes [])) := by
    simp [readAt, readProp, hm, hp]
  have h3 : readAt (.jobj g) ["models", "providers", "ollama"]
      = .ok none := by
    simp [readAt, readProp, hm, hp, getKey,
      show canonIndex? "ollama" = none from rfl, lookupField]
  have h4 : assignAt (.jobj g) ["models", "providers"] "ollama"
      (.jobj (applyFields (baseEntryFields env) (spreadFields (.jobj []))))
      = .ok (.jobj (setField g "models"
        (.jobj (setField mfs "providers"
          (.jarr pes [("ollama", .jobj (baseEntryFields env))]))))) := by
    simp [assignAt, readProp, hm, hp, writeProp, setKey,
      show canonIndex? "ollama" = none from rfl, setField, spreadFields,
      applyFields]
  rw [h1]
  simp only [Bind.bind, Except.bind, guardAssign, truthyOpt, truthy, if_true]
  simp only [pure, Except.pure]
  rw [h2]
  simp only [truthyOpt, truthy, if_true]
  rw [h3]
  simp only [jsOr, truthy]
  rw [h4]

theorem ensure_compute_obj_noProviders (env : Env) (c : JVal)
    (g mfs : List (String × JVal)) (hc : c = .jobj g)
    (hm : lookupField g "models" = some (.jobj mfs))
    (hfalsy : truthyOpt (lookupField mfs "providers") = false) :
    ensureProviderEntry env c = .ok (.jobj (setField g "models"
      (.jobj (setField mfs "providers"
        (.jobj [("ollama", .jobj (baseEntryFields env))]))))) := by
  subst hc
  unfold ensureProviderEntry
  have h1 : readProp (.jobj g) "models" = .ok (some (.jobj mfs)) := by
    simp [readProp, hm]
  have h2 : readAt (.jobj g) ["models", "providers"]
      = .ok (lookupField mfs "providers") := by
    simp [readAt, readProp, hm]
  have hg2 : assignAt (.jobj g) ["models"] "providers" (.jobj [])
      = .ok (.jobj (setField g "models" (.jobj (setField mfs "providers"
          (.jobj []))))) := by
    simp [assignAt, readProp, hm, writeProp]
  have h3 : readAt (.jobj (setField g "models" (.jobj (setField mfs "providers"
      (.jobj []))))) ["models", "providers", "ollama"] = .ok none := by
    simp [readAt, readProp, lookupField_setField_self, lookupField]
  have h4 : assignAt (.jobj (setField g "models" (.jobj (setField mfs "providers"
      (.jobj []))))) ["models", "providers"] "ollama"
      (.jobj (applyFields (baseEntryFields env) (spreadFields (jsOr none (.jobj [])))))
      = .ok (.jobj (setField g "models"
        (.jobj (setField mfs "providers"
          (.jobj [("ollama", .jobj (baseEntryFields env))]))))) := by
    simp [assignAt, readProp, lookupField_setField_self, writeProp,
      setField_setField_same, jsOr, spreadFields, applyFields, setField]
  rw [h1]
  simp only [Bind.bind, Except.bind]
  rw [show guardAssign (truthyOpt (some (.jobj mfs))) (.jobj g) [] "models"
      = Except.ok (.jobj g) from rfl]
  simp only []
  rw [h2]
  simp only []
  rw [hfalsy]
  rw [show guardAssign false (.jobj g) ["models"] "providers"
      = assignAt (.jobj g) ["models"] "providers" (.jobj []) from rfl]
  rw [hg2]
  simp only []
  rw [h3]
  simp only []
  rw [h4]

theorem ensure_compute_obj_scalarProviders (env : Env) (c : JVal)
    (g mfs : List (String × JVal)) (pv : JVal) (hc : c = .jobj g)
    (hm : lookupField g "models" = some (.jobj mfs))
    (hp : lookupField mfs "providers" = some pv)
    (htr : truthy pv = true) (hsc : isObjLike pv = false) :
    ensureProviderEntry env c = .ok c := by
  subst hc
  unfold ensureProviderEntry
  have hread_pv : readProp pv "ollama" = .ok none := by
    cases pv <;> simp_all [readProp, isObjLike, truthy]
  have h1 : readProp (.jobj g) "models" = .ok (some (.jobj mfs)) := by
    simp [readProp, hm]
  have h2 : readAt (.jobj g) ["models", "providers"] = .ok (some pv) := by
    simp [readAt, readProp, hm, hp]
  have e2 : readProp (.jobj mfs) "providers" = .ok (some pv) := by
    simp [readProp, hp]
  have h3 : readAt (.jobj g) ["models", "providers", "ollama"] = .ok none := by
    simp only [readAt, h1, e2, hread_pv]
  have hwr_pv : writeProp pv "ollama"
      (.jobj (applyFields (baseEntryFields env) (spreadFields (jsOr none (.jobj [])))))
      = .ok pv := by
    cases pv <;> simp_all [writeProp, isObjLike, truthy]
  have w2 : writeProp (.jobj mfs) "providers" pv = .ok (.jobj mfs) := by
    rw [writeProp_obj, setField_self mfs "providers" pv hp]
  have w1 : writeProp (.jobj g) "models" (.jobj mfs) = .ok (.jobj g) := by
    rw [writeProp_obj, setField_self g "models" _ hm]
  have h4 : assignAt (.jobj g) ["models", "providers"] "ollama"
      (.jobj (applyFields (baseEntryFields env) (spreadFields (jsOr none (.jobj [])))))
      = .ok (.jobj g) := by
    simp only [assignAt, h1, e2, hwr_pv, w2, w1]
  rw [h1]
  simp only [Bind.bind, Except.bind]
  rw [show guardAssign (truthyOpt (some (.jobj mfs))) (.jobj g) [] "models"
      = Except.ok (.jobj g) from rfl]
  simp only []
  rw [h2]
  simp only []
  rw [show truthyOpt (some pv) = truthy pv from rfl, htr]
  rw [show guardAssign true (.jobj g) ["models"] "providers"
      = Except.ok (.jobj g) from rfl]
  simp only []
  rw [h3]
  simp only []
  rw [h4]

theorem ensure_compute_arrModels (env : Env) (c : JVal)
    (g : List (String × JVal)) (mes : List JVal) (hc : c = .jobj g)
    (hm : lookupField g "models" = some (.jarr mes [])) :
    ensureProviderEntry env c = .ok (.jobj (setField g "models"
      (.jarr mes [("providers",
        .jobj [("ollama", .jobj (baseEntryFields env))])]))) := by
  subst hc
  unfold ensureProviderEntry
  have h1 : readProp (.jobj g) "models" = .ok (some (.jarr mes [])) := by
    simp [readProp, hm]
  have e2 : readProp (.jarr mes []) "providers" = .ok none := by
    simp [readProp, getKey, show canonIndex? "providers" = none from rfl,
      lookupField]
  have h2 : readAt (.jobj g) ["models", "providers"] = .ok none := by
    simp only [readAt, h1, e2]
  have hg2 : assignAt (.jobj g) ["models"] "providers" (.jobj [])
      = .ok (.jobj (setField g "models"
          (.jarr mes [("providers", .jobj [])]))) := by
    simp only [assignAt, h1]
    simp [writeProp, setKey, show canonIndex? "providers" = none from rfl,
      setField]
  have e2b : readProp (.jarr mes [("providers", .jobj [])]) "providers"
      = .ok (some (.jobj [])) := by
    simp [readProp, getKey, show canonIndex? "providers" = none from rfl,
      lookupField]
  have e1b : readProp (.jobj (setField g "models"
      (.jarr mes [("providers", .jobj [])]))) "models"
      = .ok (some (.jarr mes [("providers", .jobj [])])) := by
    simp [readProp, lookupField_setField_self]
  have h3 : readAt (.jobj (setField g "models"
      (.jarr mes [("providers", .jobj [])]))) ["models", "providers", "ollama"]
      = .ok none := by
    simp only [readAt, e1b, e2b]
    simp [readProp, lookupField]
  have h4 : assignAt (.jobj (setField g "models"
      (.jarr mes [("providers", .jobj [])]))) ["models", "providers"] "ollama"
      (.jobj (applyFields (baseEntryFields env) (spreadFields (jsOr none (.jobj [])))))
      = .ok (.jobj (setField g "models"
        (.jarr mes [("providers",
          .jobj [("ollama", .jobj (baseEntryFields env))])]))) := by
    simp only [assignAt, e1b, e2b]
    simp [writeProp, setKey, show canonIndex? "providers" = none from rfl,
      setField, setField_setField_same, jsOr, spreadFields, applyFields]
  rw [h1]
  simp only [Bind.bind, Except.bind]
  rw [show guardAssign (truthyOpt (some (.jarr mes []))) (.jobj g) [] "models"
      = Except.ok (.jobj g) from rfl]
  simp only []
  rw [h2]
  simp only []
  rw [show truthyOpt (none : Option JVal) = false from rfl]
  rw [show guardAssign false (.jobj g) ["models"] "providers"
      = assignAt (.jobj g) ["models"] "providers" (.jobj []) from rfl]
  rw [hg2]
  simp only []
  rw [h3]
  simp only []
  rw [h4]

theorem ensure_compute_noModels (env : Env) (c : JVal)
    (g : List (String × JVal)) (hc : c = .jobj g)
    (hfalsy : truthyOpt (lookupField g "models") = false) :
    ensureProviderEntry env c = .ok (.jobj (setField g "models"
      (.jobj [("providers", .jobj [("ollama", .jobj (baseEntryFields env))])]))) := by
  subst hc
  unfold ensureProviderEntry
  have h1 : readProp (.jobj g) "models" = .ok (lookupField g "models") := by
    simp [readProp]
  have hg1 : assignAt (.jobj g) [] "models" (.jobj [])
      = .ok (.jobj (setField g "models" (.jobj []))) := by
    simp [assignAt, writeProp]
  have e1 : readProp (.jobj (setField g "models" (.jobj []))) "models"
      = .ok (some (.jobj [])) := by
    simp [readProp, lookupField_setField_self]
  have h2 : readAt (.jobj (setField g "models" (.jobj [])))
      ["models", "providers"] = .ok none := by
    simp only [readAt, e1]
    simp [readProp, lookupField]
  have hg2 : assignAt (.jobj (setField g "models" (.jobj []))) ["models"]
      "providers" (.jobj [])
      = .ok (.jobj (setField g "models" (.jobj [("providers", .jobj [])]))) := by
    simp only [assignAt, e1]
    simp [writeProp, setField_setField_same, setField]
  have e1b : readProp (.jobj (setField g "models"
      (.jobj [("providers", .jobj [])]))) "models"
      = .ok (some (.jobj [("providers", .jobj [])])) := by
    simp [readProp, lookupField_setField_self]
  have h3 : readAt (.jobj (setField g "models"
      (.jobj [("providers", .jobj [])]))) ["models", "providers", "ollama"]
      = .ok none := by
    simp only [readAt, e1b]
    simp [readProp, lookupField]
  have h4 : assignAt (.jobj (setField g "models"
      (.jobj [("providers", .jobj [])]))) ["models", "providers"] "ollama"
      (.jobj (applyFields (baseEntryFields env) (spreadFields (jsOr none (.jobj [])))))
      = .ok (.jobj (setField g "models"
        (.jobj [("providers",
          .jobj [("ollama", .jobj (baseEntryFields env))])]))) := by
    simp only [assignAt, e1b]
    simp [readProp, lookupField, writeProp, setField_setField_same, setField,
      jsOr, spreadFields, applyFields]
  rw [h1]
  simp only [Bind.bind, Except.bind]
  rw [hfalsy]
  rw [show guardAssign false (.jobj g) [] "models"
      = assignAt (.jobj g) [] "models" (.jobj []) from rfl]
  rw [hg1]
  simp only []
  rw [h2]
  simp only []
  rw [show truthyOpt (none : Option JVal) = false from rfl]
  rw [show guardAssign false (.jobj (setField g "models" (.jobj []))) ["models"]
      "providers" = assignAt (.jobj (setField g "models" (.jobj []))) ["models"]
      "providers" (.jobj []) from rfl]
  rw [hg2]
  simp only []
  rw [h3]
  simp only []
  rw [h4]

theorem ensure_error_scalarModels (env : Env) (c : JVal)
    (g : List (String × JVal)) (mv : JVal) (hc : c = .jobj g)
    (hm : lookupField g "models" = some mv)
    (htr : truthy mv = true) (hsc : isObjLike mv = false) :
    ensureProviderEntry env c = .error () := by
  subst hc
  unfold ensureProviderEntry
  have h1 : readProp (.jobj g) "models" = .ok (some mv) := by
    simp [readProp, hm]
  have e2 : readProp mv "providers" = .ok none := by
    cases mv <;> simp_all [readProp, isObjLike, truthy]
  have h2 : readAt (.jobj g) ["models", "providers"] = .ok none := by
    simp only [readAt, h1, e2]
  have hwr : writeProp mv "providers" (.jobj []) = .ok mv := by
    cases mv <;> simp_all [writeProp, isObjLike, truthy]
  have w1 : writeProp (.jobj g) "models" mv = .ok (.jobj g) := by
    rw [writeProp_obj, setField_self g "models" mv hm]
  have hg2 : assignAt (.jobj g) ["models"] "providers" (.jobj [])
      = .ok (.jobj g) := by
    simp only [assignAt, h1, hwr, w1]
  have h3 : readAt (.jobj g) ["models", "providers", "ollama"] = .error () := by
    simp only [readAt, h1, e2]
  rw [h1]
  simp only [Bind.bind, Except.bind]
  rw [show truthyOpt (some mv) = truthy mv from rfl, htr]
  rw [show guardAssign true (.jobj g) [] "models" = Except.ok (.jobj g) from rfl]
  simp only []
  rw [h2]
  simp only []
  rw [show truthyOpt (none : Option JVal) = false from rfl]
  rw [show guardAssign false (.jobj g) ["models"] "providers"
      = assignAt (.jobj g) ["models"] "providers" (.jobj []) from rfl]
  rw [hg2]
  simp only []
  rw [h3]

theorem jsOr_falsy (v : Option JVal) (d : JVal) (h : truthyOpt v = false) :
    jsOr v d = d := by
  cases v with
  | none => rfl
  | some w =>
      simp only [truthyOpt] at h
      simp [jsOr, h]

theorem addModel_compute_entryObj (env : Env) (mid : String) (c3 : JVal)
    (g mfs pfs ef : List (String × JVal)) (mes : List JVal)
    (mps : List (String × JVal)) (b : Bool)
    (hc3 : c3 = .jobj g)
    (hm : lookupField g "models" = some (.jobj mfs))
    (hp : lookupField mfs "providers" = some (.jobj pfs))
    (ho : lookupField pfs "ollama" = some (.jobj ef))
    (hlv : lookupField ef "models" = some (.jarr mes mps))
    (hsi : someIdEq mes mid = .ok b) :
    addModelEntry env mid c3 =
      if b then .ok c3
      else .ok (.jobj (setField g "models" (.jobj (setField mfs "providers"
        (.jobj (setField pfs "ollama" (.jobj (setField ef "models"
          (.jarr (mes ++ [mkModelEntry mid
            (effectiveContextWindow env.ollamaContextWindow)]) []))))))))) := by
  subst hc3
  unfold addModelEntry
  have h1 : readAt (.jobj g) ["models", "providers", "ollama", "models"]
      = .ok (some (.jarr mes mps)) := by
    simp [readAt, readProp, hm, hp, ho, hlv]
  have h4 : assignAt (.jobj g) ["models", "providers", "ollama"] "models"
      (.jarr (mes ++ [mkModelEntry mid
        (effectiveContextWindow env.ollamaContextWindow)]) [])
      = .ok (.jobj (setField g "models" (.jobj (setField mfs "providers"
        (.jobj (setField pfs "ollama" (.jobj (setField ef "models"
          (.jarr (mes ++ [mkModelEntry mid
            (effectiveContextWindow env.ollamaContextWindow)]) []))))))))) := by
    simp [assignAt, readProp, hm, hp, ho, writeProp]
  rw [h1]
  simp only [Bind.bind, Except.bind]
  rw [show jsOr (some (.jarr mes mps)) (.jarr [] []) = .jarr mes mps from by
    simp [jsOr, truthy]]
  rw [show coerceModels (.jarr mes mps) = .ok mes from rfl]
  simp only []
  rw [hsi]
  simp only []
  cases b with
  | true => rfl
  | false =>
      simp only [Bool.false_eq_true, if_false]
      rw [h4]

theorem addModel_error_someId (env : Env) (mid : String) (c3 : JVal)
    (g mfs pfs ef : List (String × JVal)) (mes : List JVal)
    (mps : List (String × JVal))
    (hc3 : c3 = .jobj g)
    (hm : lookupField g "models" = some (.jobj mfs))
    (hp : lookupField mfs "providers" = some (.jobj pfs))
    (ho : lookupField pfs "ollama" = some (.jobj ef))
    (hlv : lookupField ef "models" = some (.jarr mes mps))
    (hsi : someIdEq mes mid = .error ()) :
    addModelEntry env mid c3 = .error () := by
  subst hc3
  unfold addModelEntry
  have h1 : readAt (.jobj g) ["models", "providers", "ollama", "models"]
      = .ok (some (.jarr mes mps)) := by
    simp [readAt, readProp, hm, hp, ho, hlv]
  rw [h1]
  simp only [Bind.bind, Except.bind]
  rw [show jsOr (some (.jarr mes mps)) (.jarr [] []) = .jarr mes mps from by
    simp [jsOr, truthy]]
  rw [show coerceModels (.jarr mes mps) = .ok mes from rfl]
  simp only []
  rw [hsi]

theorem addModel_error_badList (env : Env) (mid : String) (c3 : JVal)
    (g mfs pfs ef : List (String × JVal)) (w : JVal)
    (hc3 : c3 = .jobj g)
    (hm : lookupField g "models" = some (.jobj mfs))
    (hp : lookupField mfs "providers" = some (.jobj pfs))
    (ho : lookupField pfs "ollama" = some (.jobj ef))
    (hlv : lookupField ef "models" = some w)
    (htr : truthy w = true)
    (harr : ∀ es ps, w ≠ .jarr es ps) :
    addModelEntry env mid c3 = .error () := by
  subst hc3
  unfold addModelEntry
  have h1 : readAt (.jobj g) ["models", "providers", "ollama", "models"]
      = .ok (some w) := by
    simp [readAt, readProp, hm, hp, ho, hlv]
  rw [h1]
  simp only [Bind.bind, Except.bind]
  rw [show jsOr (some w) (.jarr [] []) = w from by simp [jsOr, htr]]
  rw [show coerceModels w = .error () from by
    cases w with
    | jarr es ps => exact absurd rfl (harr es ps)
    | jnull => rfl
    | jbool b => rfl
    | jnum n => rfl
    | jstr s => rfl
    | jobj fs => rfl]

theorem addModel_compute_entryObj_noList (env : Env) (mid : String) (c3 : JVal)
    (g mfs pfs ef : List (String × JVal))
    (hc3 : c3 = .jobj g)
    (hm : lookupField g "models" = some (.jobj mfs))
    (hp : lookupField mfs "providers" = some (.jobj pfs))
    (ho : lookupField pfs "ollama" = some (.jobj ef))
    (hlv : truthyOpt (lookupField ef "models") = false) :
    addModelEntry env mid c3 =
      .ok (.jobj (setField g "models" (.jobj (setField mfs "providers"
        (.jobj (setField pfs "ollama" (.jobj (setField ef "models"
          (.jarr [mkModelEntry mid
            (effectiveContextWindow env.ollamaContextWindow)] []))))))))) := by
  subst hc3
  unfold addModelEntry
  have h1 : readAt (.jobj g) ["models", "providers", "ollama", "models"]
      = .ok (lookupField ef "models") := by
    simp [readAt, readProp, hm, hp, ho]
  have h4 : assignAt (.jobj g) ["models", "providers", "ollama"] "models"
      (.jarr ([] ++ [mkModelEntry mid
        (effectiveContextWindow env.ollamaContextWindow)]) [])
      = .ok (.jobj (setField g "models" (.jobj (setField mfs "providers"
        (.jobj (setField pfs "ollama" (.jobj (setField ef "models"
          (.jarr [mkModelEntry mid
            (effectiveContextWindow env.ollamaContextWindow)] []))))))))) := by
    simp [assignAt, readProp, hm, hp, ho, writeProp]
  rw [h1]
  simp only [Bind.bind, Except.bind]
  rw [jsOr_falsy _ _ hlv]
  rw [show coerceModels (.jarr [] []) = .ok [] from rfl]
  simp only []
  rw [show someIdEq [] mid = .ok false from rfl]
  simp only [Bool.false_eq_true, if_false]
  rw [h4]

theorem someIdEq_append_self (mes : List JVal) (mid : String) (cw : Int)
    (h : someIdEq mes mid = .ok false) :
    someIdEq (mes ++ [mkModelEntry mid cw]) mid = .ok true := by
  induction mes with
  | nil =>
      simp [someIdEq, mkModelEntry, readProp, lookupField, isStrVal]
  | cons m rest ih =>
      cases m with
      | jnull => simp [someIdEq] at h
      | jbool b =>
          simp only [List.cons_append, someIdEq, readProp, isStrVal] at h ⊢
          exact ih h
      | jnum n =>
          simp only [List.cons_append, someIdEq, readProp, isStrVal] at h ⊢
          exact ih h
      | jstr s =>
          simp only [List.cons_append, someIdEq, readProp, isStrVal] at h ⊢
          exact ih h
      | jobj fs =>
          simp only [List.cons_append, someIdEq, readProp] at h ⊢
          by_cases hs : isStrVal (lookupField fs "id") mid
          · rw [if_pos hs] at h
            exact absurd h (by simp)
          · rw [if_neg hs] at h ⊢
            exact ih h
      | jarr es ps =>
          simp only [List.cons_append, someIdEq, readProp] at h ⊢
          by_cases hs : isStrVal (getKey (.jarr es ps) "id") mid
          · rw [if_pos hs] at h
            exact absurd h (by simp)
          · rw [if_neg hs] at h ⊢
            exact ih h

/-! ## Lemmas: `provisionOllama` and `runMain` inversions -/

theorem provisionOllama_inv (env : Env) (c cfg : JVal)
    (hm : truthyStr env.ollamaModel = true)
    (h : provisionOllama env c = .ok cfg) :
    ∃ c3 c4, ensureProviderEntry env c = .ok c3 ∧
      addModelEntry env (env.ollamaModel.getD "") c3 = .ok c4 ∧
      setSelector (env.ollamaModel.getD "") c4 = .ok cfg := by
  unfold provisionOllama at h
  obtain ⟨c3, h3, h'⟩ := except_bind_ok _ _ _ h
  rw [hm] at h'
  simp only [if_true] at h'
  obtain ⟨c4, h4, h''⟩ := except_bind_ok _ _ _ h'
  exact ⟨c3, c4, h3, h4, h''⟩

theorem provisionOllama_noModel (env : Env) (c : JVal)
    (hm : truthyStr env.ollamaModel = false) :
    provisionOllama env c = ensureProviderEntry env c := by
  unfold provisionOllama
  cases he : ensureProviderEntry env c with
  | error e => simp [Bind.bind, Except.bind, he]
  | ok c3 => simp [Bind.bind, Except.bind, he, hm, pure, Except.pure]

theorem runMain_some_inv (env : Env) (c0 cfg : JVal)
    (hu : truthyStr env.ollamaUrl = true)
    (hk : truthyStr env.ollamaKey = true)
    (h : runMain env c0 = some cfg) :
    isObjLike c0 = true ∧
    provisionOllama env
      (deepMerge (forceMerge c0 gatewayDefaults) agentDefaults) = .ok cfg := by
  unfold runMain at h
  by_cases ho : isObjLike c0 = true
  · rw [if_pos ho, hu, hk] at h
    simp only [Bool.and_self, if_true] at h
    exact ⟨ho, except_toOption_ok _ _ h⟩
  · rw [if_neg ho] at h
    cases h

theorem runMain_skip (env : Env) (c0 : JVal) (ho : isObjLike c0 = true)
    (hno : (truthyStr env.ollamaUrl && truthyStr env.ollamaKey) = false) :
    runMain env c0 = some (deepMerge (forceMerge c0 gatewayDefaults) agentDefaults) := by
  unfold runMain
  rw [if_pos ho, hno]
  simp

theorem runMain_not_objLike (env : Env) (c0 : JVal)
    (ho : isObjLike c0 = false) : runMain env c0 = none := by
  unfold runMain
  rw [ho]
  simp

/-! ## Claim C9 -/

/-- C9: when exactly one of base URL and API key is set, the provisioner
performs no mutation: the persisted `models` subtree (which holds any stale
fully-provisioned ollama entry) is exactly the prior one, no `models` key
is created when none existed, and on a mapping document the run completes
without throwing.  (The hypothesis `serialize c0 = c0` says the prior
document is a parsed JSON document, which carries no non-index array
properties.) -/
theorem c9_partial_config_skips_provisioning (env : Env) (c0 : JVal)
    (hone : truthyStr env.ollamaUrl ≠ truthyStr env.ollamaKey)
    (hser : serialize c0 = c0) :
    getKey (persistedAfter env c0) "models" = getKey c0 "models" ∧
    (getKey c0 "models" = none → getKey (persistedAfter env c0) "models" = none) ∧
    (isObjLike c0 = true → (runMain env c0).isSome = true) := by
  have hno : (truthyStr env.ollamaUrl && truthyStr env.ollamaKey) = false := by
    cases hu : truthyStr env.ollamaUrl <;> cases hk : truthyStr env.ollamaKey <;>
      simp_all
  by_cases ho : isObjLike c0 = true
  · have hr := runMain_skip env c0 ho hno
    have key : getKey (persistedAfter env c0) "models" = getKey c0 "models" := by
      unfold persistedAfter
      rw [hr]
      have hstep : getKey (deepMerge (forceMerge c0 gatewayDefaults) agentDefaults)
          "models" = getKey c0 "models" := by
        rw [deepMerge_ad_frame _ (forceMerge_gd_objLike c0 ho) "models" (by simp),
          forceMerge_gd_frame c0 ho "models" (by simp)]
      cases c0 with
      | jobj fs =>
          obtain ⟨gs, hgs⟩ : ∃ gs,
              deepMerge (forceMerge (JVal.jobj fs) gatewayDefaults) agentDefaults
                = .jobj gs := by
            rw [forceMerge_gd_obj, deepMerge_ad_obj]
            exact ⟨_, rfl⟩
          rw [hgs] at hstep ⊢
          rw [getKey_serialize_obj]
          have hstep' : lookupField gs "models" = lookupField fs "models" := hstep
          rw [hstep']
          have hsf : serializeFields fs = fs := by
            have h2 := hser
            rw [show serialize (.jobj fs) = .jobj (serializeFields fs) from rfl] at h2
            injection h2
          rw [← serializeFields_lookup, hsf]
          rfl
      | jarr es ps =>
          have hps : ps = [] := by
            have h2 := hser
            rw [show serialize (.jarr es ps) = .jarr (serializeList es) [] from rfl] at h2
            injection h2 with h3 h4
            exact h4.symm
          subst hps
          rw [forceMerge_gd_arr, deepMerge_ad_arr]
          simp [serialize, getKey, show canonIndex? "models" = none from rfl,
            setField, lookupField]
      | jnull => simp [isObjLike] at ho
      | jbool b => simp [isObjLike] at ho
      | jnum n => simp [isObjLike] at ho
      | jstr s => simp [isObjLike] at ho
    refine ⟨key, fun h => by rw [key, h], fun _ => by rw [hr]; rfl⟩
  · have hr := runMain_not_objLike env c0 (by simpa using ho)
    unfold persistedAfter
    rw [hr]
    exact ⟨rfl, fun h => h, fun hobj => absurd hobj ho⟩

/-- Witness for C9 at concrete inputs: with only the base URL set, a stale
fully-provisioned entry survives byte-for-byte and an empty start gains no
`models` key. -/
theorem c9_partial_config_skips_provisioning_witness :
    getKey (persistedAfter envOnlyUrl diskWithEditedOllama) "models"
      = getKey diskWithEditedOllama "models" ∧
    getKey (persistedAfter envOnlyUrl (.jobj [])) "models" = none := by
  constructor
  · exact (c9_partial_config_skips_provisioning envOnlyUrl diskWithEditedOllama
      (by decide) rfl).1
  · exact (c9_partial_config_skips_provisioning envOnlyUrl (.jobj [])
      (by decide) rfl).2.1 rfl

theorem isStrVal_eq_some (x : Option JVal) (s : String)
    (h : isStrVal x s = true) : x = some (.jstr s) := by
  cases x with
  | none => simp [isStrVal] at h
  | some v =>
      cases v <;> simp [isStrVal] at h
      rw [h]

/-! ## Claim C5 -/

/-- C5 counterexample: the claim predicts that whenever provisioning is
enabled with a model id and the persisted `agents.defaults.model.primary`
differs from the desired selector, it is overwritten with it.  When the
loaded document has a *sequence* at `agents`, the merges and the selector
update write only non-index properties of that array, which
`JSON.stringify` drops: the persisted document still has no
`agents.defaults.model.primary`, not the desired selector. -/
theorem c5_sequence_agents_counterexample :
    getPath (persistedAfter envFullModel (.jobj [("agents", .jarr [] [])]))
        ["agents", "defaults", "model", "primary"] = none ∧
    (none : Option JVal) ≠ some (.jstr "ollama/qwen2.5-coder:32b") := by
  exact ⟨rfl, by simp⟩

/-- C5 amended: provided the loaded document is a parsed mapping whose
`agents` value (and, when `agents` is a mapping, its `defaults` value) is
not a sequence, a run with provisioning enabled and a model id that does
not throw persists `agents.defaults.model.primary = "ollama/" + modelId`
whether or not it differed before; and when the current selector already
equals the desired one, the selector stage returns the tree unchanged. -/
theorem c5_env_model_precedence (env : Env) (c0 cfg : JVal)
    (fs0 : List (String × JVal))
    (hu : truthyStr env.ollamaUrl = true) (hk : truthyStr env.ollamaKey = true)
    (hmt : truthyStr env.ollamaModel = true)
    (hrun : runMain env c0 = some cfg)
    (hc0 : c0 = .jobj fs0)
    (hser : serialize c0 = c0)
    (hagseq : ∀ es ps, lookupField fs0 "agents" ≠ some (.jarr es ps))
    (hdfseq : ∀ afs es ps, lookupField fs0 "agents" = some (.jobj afs) →
      lookupField afs "defaults" ≠ some (.jarr es ps)) :
    getPath (persistedAfter env c0) ["agents", "defaults", "model", "primary"]
      = some (.jstr ("ollama/" ++ env.ollamaModel.getD "")) ∧
    (∀ (g ags dgs : List (String × JVal)) (c : JVal), c = .jobj g →
      lookupField g "agents" = some (.jobj ags) →
      lookupField ags "defaults" = some (.jobj dgs) →
      isStrVal (primaryValD (lookupField dgs "model"))
        ("ollama/" ++ env.ollamaModel.getD "") = true →
      setSelector (env.ollamaModel.getD "") c = .ok c) := by
  constructor
  · obtain ⟨ho, hprov⟩ := runMain_some_inv env c0 cfg hu hk hrun
    obtain ⟨c3, c4, hens, hadd, hsel⟩ := provisionOllama_inv env _ cfg hmt hprov
    subst hc0
    have hfix0 : serializeFields fs0 = fs0 := by
      have h2 := hser
      rw [show serialize (.jobj fs0) = .jobj (serializeFields fs0) from rfl] at h2
      injection h2
    obtain ⟨afs, hmba, hfixa, harrd⟩ : ∃ afs,
        mergeBase (lookupField fs0 "agents") = .jobj afs ∧
        serializeFields afs = afs ∧
        (∀ es ps, lookupField afs "defaults" ≠ some (.jarr es ps)) := by
      cases hav : lookupField fs0 "agents" with
      | none => exact ⟨[], rfl, rfl, by simp [lookupField]⟩
      | some v =>
          cases v with
          | jarr es ps => exact absurd hav (hagseq es ps)
          | jobj afs =>
              refine ⟨afs, by simp [mergeBase], ?_,
                fun es ps => hdfseq afs es ps hav⟩
              have h3 := serializeFields_fix_lookup fs0 hfix0 "agents" _ hav
              rw [show serialize (.jobj afs) = .jobj (serializeFields afs)
                from rfl] at h3
              injection h3
          | jnull => exact ⟨[], by simp [mergeBase], rfl, by simp [lookupField]⟩
          | jbool b => exact ⟨[], by simp [mergeBase], rfl, by simp [lookupField]⟩
          | jnum n => exact ⟨[], by simp [mergeBase], rfl, by simp [lookupField]⟩
          | jstr st => exact ⟨[], by simp [mergeBase], rfl, by simp [lookupField]⟩
    obtain ⟨dfs, hmbd, hfixd⟩ : ∃ dfs,
        mergeBase (lookupField afs "defaults") = .jobj dfs ∧
        serializeFields dfs = dfs := by
      cases hdv : lookupField afs "defaults" with
      | none => exact ⟨[], rfl, rfl⟩
      | some v =>
          cases v with
          | jarr es ps => exact absurd hdv (harrd es ps)
          | jobj dfs =>
              refine ⟨dfs, by simp [mergeBase], ?_⟩
              have h3 := serializeFields_fix_lookup afs hfixa "defaults" _ hdv
              rw [show serialize (.jobj dfs) = .jobj (serializeFields dfs)
                from rfl] at h3
              injection h3
          | jnull => exact ⟨[], by simp [mergeBase], rfl⟩
          | jbool b => exact ⟨[], by simp [mergeBase], rfl⟩
          | jnum n => exact ⟨[], by simp [mergeBase], rfl⟩
          | jstr st => exact ⟨[], by simp [mergeBase], rfl⟩
    have hagf1 : lookupField (setField fs0 "gateway"
        (forceMerge (mergeBase (lookupField fs0 "gateway")) gatewayInner)) "agents"
          = lookupField fs0 "agents" :=
      lookupField_setField_ne _ _ _ _ (by simp)
    have hc2 : deepMerge (forceMerge (.jobj fs0) gatewayDefaults) agentDefaults
        = .jobj (setField (setField fs0 "gateway"
            (forceMerge (mergeBase (lookupField fs0 "gateway")) gatewayInner))
            "agents" (deepMerge (.jobj afs) agentsInner)) := by
      rw [forceMerge_gd_obj, deepMerge_ad_obj, hagf1, hmba]
    have hA2eq : deepMerge (.jobj afs) agentsInner
        = .jobj (setField afs "defaults"
            (deepMerge (.jobj dfs) defaultsInner)) := by
      rw [deepMerge_agentsInner_obj, hmbd]
    obtain ⟨dgs, hD2⟩ := deepMerge_defaultsInner_isObj dfs
    have hdgs_model : lookupField dgs "model" = lookupField dfs "model" := by
      have hfr := deepMerge_defaultsInner_model_frame dfs
      rw [hD2] at hfr
      exact hfr
    rw [hc2] at hens
    obtain ⟨g3, hg3⟩ := ensureProviderEntry_obj env _ c3 hens _ rfl
    obtain ⟨g4, hg4⟩ := addModelEntry_obj env _ c3 c4 hadd g3 hg3
    have hc4ag : lookupField g4 "agents"
        = some (.jobj (setField afs "defaults"
            (deepMerge (.jobj dfs) defaultsInner))) := by
      have f1 : getKey c4 "agents" = getKey c3 "agents" :=
        addModelEntry_frame env _ c3 c4 hadd "agents" (by simp)
      have f2 : getKey c3 "agents" = some (deepMerge (.jobj afs) agentsInner) := by
        rw [ensureProviderEntry_frame env _ c3 hens "agents" (by simp)]
        exact lookupField_setField_self _ _ _
      rw [hg4] at f1
      rw [f2, hA2eq] at f1
      exact f1
    have hadgs : lookupField (setField afs "defaults"
        (deepMerge (.jobj dfs) defaultsInner)) "defaults" = some (.jobj dgs) := by
      rw [lookupField_setField_self, hD2]
    have hcomp := setSelector_compute (env.ollamaModel.getD "") g4
      (setField afs "defaults" (deepMerge (.jobj dfs) defaultsInner)) dgs c4 hg4
      hc4ag hadgs
    rw [hdgs_model] at hcomp
    by_cases heq : isStrVal (primaryValD (lookupField dfs "model"))
        ("ollama/" ++ env.ollamaModel.getD "") = true
    · rw [if_pos heq] at hcomp
      rw [hcomp] at hsel
      have hcfg : cfg = c4 := by injection hsel.symm
      obtain ⟨mfs, hmfs, hprim⟩ : ∃ mfs,
          lookupField dfs "model" = some (.jobj mfs) ∧
          lookupField mfs "primary"
            = some (.jstr ("ollama/" ++ env.ollamaModel.getD "")) := by
        cases hmv : lookupField dfs "model" with
        | none => rw [hmv] at heq; simp [primaryValD, isStrVal] at heq
        | some v =>
            cases v with
            | jobj mfs =>
                rw [hmv] at heq
                exact ⟨mfs, rfl, isStrVal_eq_some _ _ heq⟩
            | jarr es ps =>
                have hfixv := serializeFields_fix_lookup dfs hfixd "model" _ hmv
                rw [show serialize (.jarr es ps) = .jarr (serializeList es) []
                  from rfl] at hfixv
                have hps : ps = [] := by injection hfixv with h1 h2; exact h2.symm
                subst hps
                rw [hmv] at heq
                simp [primaryValD, getKey,
                  show canonIndex? "primary" = none from rfl,
                  lookupField, isStrVal] at heq
            | jnull => rw [hmv] at heq; simp [primaryValD, isStrVal] at heq
            | jbool b => rw [hmv] at heq; simp [primaryValD, isStrVal] at heq
            | jnum n => rw [hmv] at heq; simp [primaryValD, isStrVal] at heq
            | jstr st => rw [hmv] at heq; simp [primaryValD, isStrVal] at heq
      unfold persistedAfter
      rw [hrun, hcfg, hg4]
      simp [getPath, getKey, getKey_serialize_obj, serializeFields_setField,
        serializeFields_lookup, lookupField_setField_self, hc4ag, hadgs, hD2,
        hmfs, hdgs_model, hprim, serialize, serializeList, serializeFields,
        lookupField]
    · rw [if_neg heq] at hcomp
      rw [hcomp] at hsel
      have hcfg : cfg = .jobj (setField g4 "agents" (.jobj (setField
          (setField afs "defaults" (deepMerge (.jobj dfs) defaultsInner))
          "defaults" (.jobj (setField dgs "model"
            (.jobj [("primary",
              .jstr ("ollama/" ++ env.ollamaModel.getD ""))])))))) := by
        injection hsel.symm
      unfold persistedAfter
      rw [hrun, hcfg]
      simp [getPath, getKey, getKey_serialize_obj, serializeFields_setField,
        serializeFields_lookup, lookupField_setField_self, hD2, serialize,
        serializeList, serializeFields, lookupField]
  · intro g ags dgs c hcg hga hgd heq
    have hcomp := setSelector_compute (env.ollamaModel.getD "") g ags dgs c
      hcg hga hgd
    rw [if_pos heq] at hcomp
    exact hcomp

/-- Witness for the C5 amended theorem: an empty starting document gains
the desired selector in the persisted output. -/
theorem c5_env_model_precedence_witness :
    getPath (persistedAfter envFullModel (.jobj []))
        ["agents", "defaults", "model", "primary"]
      = some (.jstr ("ollama/" ++ (envFullModel.ollamaModel.getD ""))) := by
  exact (c5_env_model_precedence envFullModel (.jobj [])
    ((runMain envFullModel (.jobj [])).getD .jnull) []
    rfl rfl rfl rfl rfl rfl (by simp [lookupField]) (by simp [lookupField])).1

/-! ## Claim C10 -/

/-- C10: when provisioning is enabled with a model id and the current
`agents.defaults.model.primary` differs from the desired selector, the
update at lines 173-175 assigns a fresh object containing only `primary`,
so the persisted `agents.defaults.model` mapping is exactly
`(primary ↦ "ollama/" + modelId)` — any sibling fields the mapping
previously held are removed. -/
theorem c10_model_mapping_replaced (env : Env) (c0 cfg : JVal)
    (fs0 afs dfs mfs : List (String × JVal))
    (hu : truthyStr env.ollamaUrl = true) (hk : truthyStr env.ollamaKey = true)
    (hmt : truthyStr env.ollamaModel = true)
    (hrun : runMain env c0 = some cfg)
    (hc0 : c0 = .jobj fs0)
    (hag : lookupField fs0 "agents" = some (.jobj afs))
    (hdf : lookupField afs "defaults" = some (.jobj dfs))
    (hmv : lookupField dfs "model" = some (.jobj mfs))
    (hcur : isStrVal (lookupField mfs "primary")
      ("ollama/" ++ env.ollamaModel.getD "") = false) :
    getPath (persistedAfter env c0) ["agents", "defaults", "model"]
      = some (.jobj [("primary", .jstr ("ollama/" ++ env.ollamaModel.getD ""))]) := by
  obtain ⟨ho, hprov⟩ := runMain_some_inv env c0 cfg hu hk hrun
  obtain ⟨c3, c4, hens, hadd, hsel⟩ := provisionOllama_inv env _ cfg hmt hprov
  subst hc0
  have hagf1 : lookupField (setField fs0 "gateway"
      (forceMerge (mergeBase (lookupField fs0 "gateway")) gatewayInner)) "agents"
        = some (.jobj afs) := by
    rw [lookupField_setField_ne _ _ _ _ (by simp), hag]
  have hc2 : deepMerge (forceMerge (.jobj fs0) gatewayDefaults) agentDefaults
      = .jobj (setField (setField fs0 "gateway"
          (forceMerge (mergeBase (lookupField fs0 "gateway")) gatewayInner))
          "agents" (deepMerge (.jobj afs) agentsInner)) := by
    rw [forceMerge_gd_obj, deepMerge_ad_obj, hagf1]
    rfl
  have hA2eq : deepMerge (.jobj afs) agentsInner
      = .jobj (setField afs "defaults" (deepMerge (.jobj dfs) defaultsInner)) := by
    rw [deepMerge_agentsInner_obj, hdf]
    rfl
  obtain ⟨dgs, hD2⟩ := deepMerge_defaultsInner_isObj dfs
  have hdgs_model : lookupField dgs "model" = some (.jobj mfs) := by
    have hfr := deepMerge_defaultsInner_model_frame dfs
    rw [hD2] at hfr
    rw [show lookupField dgs "model" = getKey (.jobj dgs) "model" from rfl, hfr, hmv]
  rw [hc2] at hens
  obtain ⟨g3, hg3⟩ := ensureProviderEntry_obj env _ c3 hens _ rfl
  obtain ⟨g4, hg4⟩ := addModelEntry_obj env _ c3 c4 hadd g3 hg3
  have hc4ag : lookupField g4 "agents"
      = some (.jobj (setField afs "defaults"
          (deepMerge (.jobj dfs) defaultsInner))) := by
    have f1 : getKey c4 "agents" = getKey c3 "agents" :=
      addModelEntry_frame env _ c3 c4 hadd "agents" (by simp)
    have f2 : getKey c3 "agents" = some (deepMerge (.jobj afs) agentsInner) := by
      rw [ensureProviderEntry_frame env _ c3 hens "agents" (by simp)]
      exact lookupField_setField_self _ _ _
    rw [hg4] at f1
    rw [f2, hA2eq] at f1
    exact f1
  have hadgs : lookupField (setField afs "defaults"
      (deepMerge (.jobj dfs) defaultsInner)) "defaults" = some (.jobj dgs) := by
    rw [lookupField_setField_self, hD2]
  have hcomp := setSelector_compute (env.ollamaModel.getD "") g4
    (setField afs "defaults" (deepMerge (.jobj dfs) defaultsInner)) dgs c4 hg4
    hc4ag hadgs
  rw [hdgs_model] at hcomp
  rw [show primaryValD (some (.jobj mfs)) = lookupField mfs "primary" from rfl]
    at hcomp
  rw [if_neg (by rw [hcur]; exact Bool.false_ne_true)] at hcomp
  rw [hcomp] at hsel
  have hcfg : cfg = .jobj (setField g4 "agents" (.jobj (setField
      (setField afs "defaults" (deepMerge (.jobj dfs) defaultsInner)) "defaults"
      (.jobj (setField dgs "model"
        (.jobj [("primary", .jstr ("ollama/" ++ env.ollamaModel.getD ""))])))))) := by
    injection hsel.symm
  unfold persistedAfter
  rw [hrun, hcfg]
  simp [getPath, getKey, getKey_serialize_obj, serializeFields_setField,
    serializeFields_lookup, lookupField_setField_self, serialize,
    serializeList, serializeFields]

/-- Witness for C10 at a concrete input: the prior mapping selected
`ollama/modelA` with a sibling `temperature`; after the run the persisted
mapping holds only the new `primary`. -/
theorem c10_model_mapping_replaced_witness :
    getPath (persistedAfter envFullModel diskWithModelSiblings)
        ["agents", "defaults", "model"]
      = some (.jobj [("primary",
          .jstr ("ollama/" ++ (envFullModel.ollamaModel.getD "")))]) := by
  exact c10_model_mapping_replaced envFullModel diskWithModelSiblings
    ((runMain envFullModel diskWithModelSiblings).getD .jnull)
    [("agents", .jobj [("defaults", .jobj [("model", .jobj
      [("primary", .jstr "ollama/modelA"), ("temperature", .jnum 1)])])])]
    [("defaults", .jobj [("model", .jobj
      [("primary", .jstr "ollama/modelA"), ("temperature", .jnum 1)])])]
    [("model", .jobj
      [("primary", .jstr "ollama/modelA"), ("temperature", .jnum 1)])]
    [("primary", .jstr "ollama/modelA"), ("temperature", .jnum 1)]
    rfl rfl rfl rfl rfl rfl rfl rfl rfl

/-! ## Claim C6 -/

/-- C6: on a document whose `models.providers.ollama.models` is a
sequence, the model-append stage (lines 145-163) leaves the document
untouched when an entry with the supplied id already exists, and
otherwise appends exactly one fresh entry after the existing elements,
mutating and removing none of them; re-running the stage on the result
changes nothing, so two runs with the same id never produce two entries
with that id. -/
theorem c6_model_dedup (env : Env) (mid : String) (c3 : JVal)
    (g mfs pfs ef : List (String × JVal)) (mes : List JVal)
    (mps : List (String × JVal))
    (hc3 : c3 = .jobj g)
    (hm : lookupField g "models" = some (.jobj mfs))
    (hp : lookupField mfs "providers" = some (.jobj pfs))
    (ho : lookupField pfs "ollama" = some (.jobj ef))
    (hlv : lookupField ef "models" = some (.jarr mes mps)) :
    (someIdEq mes mid = .ok true → addModelEntry env mid c3 = .ok c3) ∧
    (someIdEq mes mid = .ok false →
      ∃ c4, addModelEntry env mid c3 = .ok c4 ∧
        readAt c4 ["models", "providers", "ollama", "models"]
          = .ok (some (.jarr (mes ++ [mkModelEntry mid
              (effectiveContextWindow env.ollamaContextWindow)]) [])) ∧
        addModelEntry env mid c4 = .ok c4) := by
  constructor
  · intro hsi
    have h := addModel_compute_entryObj env mid c3 g mfs pfs ef mes mps true
      hc3 hm hp ho hlv hsi
    simpa using h
  · intro hsi
    have h1 := addModel_compute_entryObj env mid c3 g mfs pfs ef mes mps false
      hc3 hm hp ho hlv hsi
    simp only [Bool.false_eq_true, if_false] at h1
    refine ⟨_, h1, ?_, ?_⟩
    · simp [readAt, readProp, lookupField_setField_self]
    · have h2 := addModel_compute_entryObj env mid
        (.jobj (setField g "models" (.jobj (setField mfs "providers"
          (.jobj (setField pfs "ollama" (.jobj (setField ef "models"
            (.jarr (mes ++ [mkModelEntry mid
              (effectiveContextWindow env.ollamaContextWindow)]) [])))))))))
        (setField g "models" (.jobj (setField mfs "providers"
          (.jobj (setField pfs "ollama" (.jobj (setField ef "models"
            (.jarr (mes ++ [mkModelEntry mid
              (effectiveContextWindow env.ollamaContextWindow)]) []))))))))
        (setField mfs "providers"
          (.jobj (setField pfs "ollama" (.jobj (setField ef "models"
            (.jarr (mes ++ [mkModelEntry mid
              (effectiveContextWindow env.ollamaContextWindow)]) []))))))
        (setField pfs "ollama" (.jobj (setField ef "models"
          (.jarr (mes ++ [mkModelEntry mid
            (effectiveContextWindow env.ollamaContextWindow)]) []))))
        (setField ef "models"
          (.jarr (mes ++ [mkModelEntry mid
            (effectiveContextWindow env.ollamaContextWindow)]) []))
        (mes ++ [mkModelEntry mid
          (effectiveContextWindow env.ollamaContextWindow)]) [] true
        rfl (lookupField_setField_self _ _ _) (lookupField_setField_self _ _ _)
        (lookupField_setField_self _ _ _) (lookupField_setField_self _ _ _)
        (someIdEq_append_self mes mid _ hsi)
      simpa using h2

theorem c6_model_dedup_witness :
    ∃ c4, addModelEntry envFullModel "qwen2.5-coder:32b"
        (.jobj [("models", .jobj [("providers", .jobj [("ollama",
          .jobj [("models", .jarr [] [])])])])]) = .ok c4 ∧
      readAt c4 ["models", "providers", "ollama", "models"]
        = .ok (some (.jarr ([] ++ [mkModelEntry "qwen2.5-coder:32b"
            (effectiveContextWindow envFullModel.ollamaContextWindow)]) [])) ∧
      addModelEntry envFullModel "qwen2.5-coder:32b" c4 = .ok c4 :=
  (c6_model_dedup envFullModel "qwen2.5-coder:32b"
    (.jobj [("models", .jobj [("providers", .jobj [("ollama",
      .jobj [("models", .jarr [] [])])])])])
    [("models", .jobj [("providers", .jobj [("ollama",
      .jobj [("models", .jarr [] [])])])])]
    [("providers", .jobj [("ollama", .jobj [("models", .jarr [] [])])])]
    [("ollama", .jobj [("models", .jarr [] [])])]
    [("models", .jarr [] [])]
    [] [] rfl rfl rfl rfl rfl).2 rfl

/-! ## Claim C8 -/

/-- C8 counterexample: the environment value "0" parses as the number 0,
yet the appended entry's contextWindow is the default 32768, because
`parseInt(...) || 32768` coalesces the falsy parse result 0. -/
theorem c8_zero_context_counterexample :
    jsParseInt "0" = some 0 ∧
    effectiveContextWindow (some "0") = 32768 ∧
    addModelEntry ⟨some "u", some "k", some "m", some "0"⟩ "m"
        (.jobj [("models", .jobj [("providers", .jobj [("ollama",
          .jobj [("models", .jarr [] [])])])])])
      = .ok (.jobj [("models", .jobj [("providers", .jobj [("ollama",
          .jobj [("models", .jarr [mkModelEntry "m" 32768] [])])])])]) := by
  refine ⟨?_, ?_, ?_⟩ <;> rfl

/-- C8: a newly appended entry carries contextWindow equal to the
effective context window and maxTokens equal to min 8192 (floor of a
quarter of it); the effective window is the environment value when it
parses to a nonzero number and 32768 when the variable is unset, fails
to parse, or parses to 0; with the default the maxTokens is 8192. -/
theorem c8_max_tokens_derivation (env : Env) (mid : String) (c3 : JVal)
    (g mfs pfs ef : List (String × JVal)) (mes : List JVal)
    (mps : List (String × JVal))
    (hc3 : c3 = .jobj g)
    (hm : lookupField g "models" = some (.jobj mfs))
    (hp : lookupField mfs "providers" = some (.jobj pfs))
    (ho : lookupField pfs "ollama" = some (.jobj ef))
    (hlv : lookupField ef "models" = some (.jarr mes mps))
    (hsi : someIdEq mes mid = .ok false) :
    (∃ c4, addModelEntry env mid c3 = .ok c4 ∧
      readAt c4 ["models", "providers", "ollama", "models"]
        = .ok (some (.jarr (mes ++ [mkModelEntry mid
            (effectiveContextWindow env.ollamaContextWindow)]) []))) ∧
    getKey (mkModelEntry mid (effectiveContextWindow env.ollamaContextWindow))
        "contextWindow"
      = some (.jnum (effectiveContextWindow env.ollamaContextWindow)) ∧
    getKey (mkModelEntry mid (effectiveContextWindow env.ollamaContextWindow))
        "maxTokens"
      = some (.jnum (min 8192 (Int.fdiv
          (effectiveContextWindow env.ollamaContextWindow) 4))) ∧
    (env.ollamaContextWindow = none →
      effectiveContextWindow env.ollamaContextWindow = 32768) ∧
    (∀ s, env.ollamaContextWindow = some s → jsParseInt s = none →
      effectiveContextWindow env.ollamaContextWindow = 32768) ∧
    (∀ s n, env.ollamaContextWindow = some s → jsParseInt s = some n → n ≠ 0 →
      effectiveContextWindow env.ollamaContextWindow = n) ∧
    min (8192 : Int) (Int.fdiv 32768 4) = 8192 := by
  refine ⟨?_, rfl, rfl, ?_, ?_, ?_, by decide⟩
  · have h1 := addModel_compute_entryObj env mid c3 g mfs pfs ef mes mps false
      hc3 hm hp ho hlv hsi
    simp only [Bool.false_eq_true, if_false] at h1
    refine ⟨_, h1, ?_⟩
    simp [readAt, readProp, lookupField_setField_self]
  · intro h
    rw [h]
    rfl
  · intro s hs hp'
    rw [hs]
    simp [effectiveContextWindow, hp']
  · intro s n hs hp' hn
    rw [hs]
    simp [effectiveContextWindow, hp', hn]

theorem c8_max_tokens_derivation_witness :
    (∃ c4, addModelEntry ⟨some "u", some "k", some "m", some "8000"⟩ "m"
        (.jobj [("models", .jobj [("providers", .jobj [("ollama",
          .jobj [("models", .jarr [] [])])])])]) = .ok c4) ∧
    effectiveContextWindow (some "8000") = 8000 ∧
    getKey (mkModelEntry "m" (effectiveContextWindow (some "8000")))
        "maxTokens" = some (.jnum 2000) := by
  have h := c8_max_tokens_derivation ⟨some "u", some "k", some "m", some "8000"⟩
    "m"
    (.jobj [("models", .jobj [("providers", .jobj [("ollama",
      .jobj [("models", .jarr [] [])])])])])
    [("models", .jobj [("providers", .jobj [("ollama",
      .jobj [("models", .jarr [] [])])])])]
    [("providers", .jobj [("ollama", .jobj [("models", .jarr [] [])])])]
    [("ollama", .jobj [("models", .jarr [] [])])]
    [("models", .jarr [] [])]
    [] [] rfl rfl rfl rfl rfl rfl
  obtain ⟨⟨c4, h1, -⟩, -, h3, -⟩ := h
  exact ⟨⟨c4, h1⟩, rfl, by rw [h3]; rfl⟩

/-! ## Lemmas: merge stability under serialization -/

theorem plainFields_cons (k : String) (sv : JVal) (rest : List (String × JVal))
    (h : plainFields ((k, sv) :: rest) = true) :
    canonIndex? k = none ∧ k ∉ rest.map Prod.fst ∧ plainSource sv = true ∧
      plainFields rest = true := by
  simp only [plainFields, Bool.and_eq_true, decide_eq_true_eq] at h
  exact ⟨h.1.1.1, h.1.1.2, h.1.2, h.2⟩

theorem serialize_objLike (v : JVal) :
    isObjLike (serialize v) = isObjLike v := by
  cases v <;> rfl

theorem serialize_eq_obj (u : JVal) (L : List (String × JVal))
    (h : serialize u = .jobj L) :
    ∃ gu, u = .jobj gu ∧ serializeFields gu = L := by
  cases u with
  | jobj gu =>
      refine ⟨gu, rfl, ?_⟩
      injection h
  | jnull => simp [serialize] at h
  | jbool b => simp [serialize] at h
  | jnum n => simp [serialize] at h
  | jstr s => simp [serialize] at h
  | jarr es ps => simp [serialize] at h

theorem serialize_eq_arr (u : JVal) (L : List JVal) (P : List (String × JVal))
    (h : serialize u = .jarr L P) :
    ∃ eu pu, u = .jarr eu pu ∧ serializeList eu = L := by
  cases u with
  | jarr es ps =>
      refine ⟨es, ps, rfl, ?_⟩
      injection h
  | jnull => simp [serialize] at h
  | jbool b => simp [serialize] at h
  | jnum n => simp [serialize] at h
  | jstr s => simp [serialize] at h
  | jobj fs => simp [serialize] at h

theorem serialize_scalar_inv (u v : JVal) (hv : isObjLike v = false)
    (h : serialize u = v) : u = v := by
  cases u with
  | jnull => exact h
  | jbool b => exact h
  | jnum n => exact h
  | jstr s => exact h
  | jarr es ps => rw [← h] at hv; simp [serialize, isObjLike] at hv
  | jobj fs => rw [← h] at hv; simp [serialize, isObjLike] at hv

theorem mergeBase_objLike (w : JVal) (h : isObjLike w = true) :
    mergeBase (some w) = w := by
  cases w with
  | jobj fs => rfl
  | jarr es ps => rfl
  | jnull => simp [isObjLike] at h
  | jbool b => simp [isObjLike] at h
  | jnum n => simp [isObjLike] at h
  | jstr s => simp [isObjLike] at h

theorem isObjLike_mergeBase (x : Option JVal) :
    isObjLike (mergeBase x) = true := by
  cases x with
  | none => rfl
  | some w => cases w <;> rfl

theorem setKey_objLike (t : JVal) (k : String) (v : JVal) :
    isObjLike (setKey t k v) = isObjLike t := by
  cases t with
  | jarr es ps =>
      simp only [setKey]
      cases canonIndex? k with
      | none => rfl
      | some i => by_cases hi : i < es.length <;> simp [hi, isObjLike]
  | jobj fs => rfl
  | jnull => rfl
  | jbool b => rfl
  | jnum n => rfl
  | jstr s => rfl

theorem setKey_nonObjLike (t : JVal) (k : String) (v : JVal)
    (ht : isObjLike t = false) : setKey t k v = t := by
  cases t with
  | jobj fs => simp [isObjLike] at ht
  | jarr es ps => simp [isObjLike] at ht
  | jnull => rfl
  | jbool b => rfl
  | jnum n => rfl
  | jstr s => rfl

theorem getKey_nonObjLike (t : JVal) (k : String)
    (ht : isObjLike t = false) : getKey t k = none := by
  cases t with
  | jobj fs => simp [isObjLike] at ht
  | jarr es ps => simp [isObjLike] at ht
  | jnull => rfl
  | jbool b => rfl
  | jnum n => rfl
  | jstr s => rfl

theorem deepMergeFields_nonObjLike (sf : List (String × JVal)) (t : JVal)
    (ht : isObjLike t = false) : deepMergeFields t sf = t := by
  induction sf with
  | nil => rfl
  | cons p rest ih =>
      obtain ⟨k, sv⟩ := p
      by_cases hm : isMergeableObj sv
      · rw [show deepMergeFields t ((k, sv) :: rest)
            = deepMergeFields (setKey t k
                (deepMerge (mergeBase (getKey t k)) sv)) rest from by
          simp [deepMergeFields, hm]]
        rw [setKey_nonObjLike t k _ ht]
        exact ih
      · rw [show deepMergeFields t ((k, sv) :: rest)
            = deepMergeFields t rest from by
          simp [deepMergeFields, hm, getKey_nonObjLike t k ht,
            setKey_nonObjLike t k sv ht]]
        exact ih

theorem forceMergeFields_nonObjLike (sf : List (String × JVal)) (t : JVal)
    (ht : isObjLike t = false) : forceMergeFields t sf = t := by
  induction sf with
  | nil => rfl
  | cons p rest ih =>
      obtain ⟨k, sv⟩ := p
      by_cases hm : isMergeableObj sv
      · rw [show forceMergeFields t ((k, sv) :: rest)
            = forceMergeFields (setKey t k
                (forceMerge (mergeBase (getKey t k)) sv)) rest from by
          simp [forceMergeFields, hm]]
        rw [setKey_nonObjLike t k _ ht]
        exact ih
      · rw [show forceMergeFields t ((k, sv) :: rest)
            = forceMergeFields (setKey t k sv) rest from by
          simp [forceMergeFields, hm]]
        rw [setKey_nonObjLike t k sv ht]
        exact ih

theorem deepMergeFields_objLike (sf : List (String × JVal)) :
    ∀ t, isObjLike (deepMergeFields t sf) = isObjLike t := by
  induction sf with
  | nil => intro t; rfl
  | cons p rest ih =>
      intro t
      obtain ⟨k, sv⟩ := p
      by_cases hm : isMergeableObj sv
      · rw [show deepMergeFields t ((k, sv) :: rest)
            = deepMergeFields (setKey t k
                (deepMerge (mergeBase (getKey t k)) sv)) rest from by
          simp [deepMergeFields, hm]]
        rw [ih _, setKey_objLike]
      · cases hg : getKey t k with
        | none =>
            rw [show deepMergeFields t ((k, sv) :: rest)
                = deepMergeFields (setKey t k sv) rest from by
              simp [deepMergeFields, hm, hg]]
            rw [ih _, setKey_objLike]
        | some w =>
            rw [show deepMergeFields t ((k, sv) :: rest)
                = deepMergeFields t rest from by
              simp [deepMergeFields, hm, hg]]
            exact ih t

theorem forceMergeFields_objLike (sf : List (String × JVal)) :
    ∀ t, isObjLike (forceMergeFields t sf) = isObjLike t := by
  induction sf with
  | nil => intro t; rfl
  | cons p rest ih =>
      intro t
      obtain ⟨k, sv⟩ := p
      by_cases hm : isMergeableObj sv
      · rw [show forceMergeFields t ((k, sv) :: rest)
            = forceMergeFields (setKey t k
                (forceMerge (mergeBase (getKey t k)) sv)) rest from by
          simp [forceMergeFields, hm]]
        rw [ih _, setKey_objLike]
      · rw [show forceMergeFields t ((k, sv) :: rest)
            = forceMergeFields (setKey t k sv) rest from by
          simp [forceMergeFields, hm]]
        rw [ih _, setKey_objLike]

theorem deepMergeFields_arr (sf : List (String × JVal))
    (hkeys : ∀ p ∈ sf, canonIndex? p.1 = none) :
    ∀ es ps, ∃ ps2, deepMergeFields (.jarr es ps) sf = .jarr es ps2 := by
  induction sf with
  | nil => intro es ps; exact ⟨ps, rfl⟩
  | cons p rest ih =>
      intro es ps
      obtain ⟨k, sv⟩ := p
      have hk : canonIndex? k = none := hkeys (k, sv) (by simp)
      have ih2 := ih (fun q hq => hkeys q (by simp [hq]))
      by_cases hm : isMergeableObj sv
      · rw [show deepMergeFields (.jarr es ps) ((k, sv) :: rest)
            = deepMergeFields (setKey (.jarr es ps) k
                (deepMerge (mergeBase (getKey (.jarr es ps) k)) sv)) rest from by
          simp [deepMergeFields, hm]]
        rw [setKey_arr_nonidx _ _ _ _ hk]
        exact ih2 es _
      · cases hg : getKey (.jarr es ps) k with
        | none =>
            rw [show deepMergeFields (.jarr es ps) ((k, sv) :: rest)
                = deepMergeFields (setKey (.jarr es ps) k sv) rest from by
              simp [deepMergeFields, hm, hg]]
            rw [setKey_arr_nonidx _ _ _ _ hk]
            exact ih2 es _
        | some w =>
            rw [show deepMergeFields (.jarr es ps) ((k, sv) :: rest)
                = deepMergeFields (.jarr es ps) rest from by
              simp [deepMergeFields, hm, hg]]
            exact ih2 es ps

theorem forceMergeFields_arr (sf : List (String × JVal))
    (hkeys : ∀ p ∈ sf, canonIndex? p.1 = none) :
    ∀ es ps, ∃ ps2, forceMergeFields (.jarr es ps) sf = .jarr es ps2 := by
  induction sf with
  | nil => intro es ps; exact ⟨ps, rfl⟩
  | cons p rest ih =>
      intro es ps
      obtain ⟨k, sv⟩ := p
      have hk : canonIndex? k = none := hkeys (k, sv) (by simp)
      have ih2 := ih (fun q hq => hkeys q (by simp [hq]))
      by_cases hm : isMergeableObj sv
      · rw [show forceMergeFields (.jarr es ps) ((k, sv) :: rest)
            = forceMergeFields (setKey (.jarr es ps) k
                (forceMerge (mergeBase (getKey (.jarr es ps) k)) sv)) rest from by
          simp [forceMergeFields, hm]]
        rw [setKey_arr_nonidx _ _ _ _ hk]
        exact ih2 es _
      · rw [show forceMergeFields (.jarr es ps) ((k, sv) :: rest)
            = forceMergeFields (setKey (.jarr es ps) k sv) rest from by
          simp [forceMergeFields, hm]]
        rw [setKey_arr_nonidx _ _ _ _ hk]
        exact ih2 es _

theorem deepMergeFields_frame_any (sf : List (String × JVal)) (q : String)
    (hq : q ∉ sf.map Prod.fst)
    (hkeys : ∀ p ∈ sf, canonIndex? p.1 = none) :
    ∀ t, getKey (deepMergeFields t sf) q = getKey t q := by
  induction sf with
  | nil => intro t; rfl
  | cons p rest ih =>
      intro t
      obtain ⟨k, sv⟩ := p
      simp only [List.map_cons, List.mem_cons, not_or] at hq
      have hk : canonIndex? k = none := hkeys (k, sv) (by simp)
      have hkq : k ≠ q := fun hh => hq.1 hh.symm
      have ih2 := ih hq.2 (fun r hr => hkeys r (by simp [hr]))
      by_cases hm : isMergeableObj sv
      · rw [show deepMergeFields t ((k, sv) :: rest)
            = deepMergeFields (setKey t k
                (deepMerge (mergeBase (getKey t k)) sv)) rest from by
          simp [deepMergeFields, hm]]
        rw [ih2 _, getKey_setKey_nonidx_ne _ _ _ _ hk hkq]
      · cases hg : getKey t k with
        | none =>
            rw [show deepMergeFields t ((k, sv) :: rest)
                = deepMergeFields (setKey t k sv) rest from by
              simp [deepMergeFields, hm, hg]]
            rw [ih2 _, getKey_setKey_nonidx_ne _ _ _ _ hk hkq]
        | some w =>
            rw [show deepMergeFields t ((k, sv) :: rest)
                = deepMergeFields t rest from by
              simp [deepMergeFields, hm, hg]]
            exact ih2 t

theorem forceMergeFields_frame_any (sf : List (String × JVal)) (q : String)
    (hq : q ∉ sf.map Prod.fst)
    (hkeys : ∀ p ∈ sf, canonIndex? p.1 = none) :
    ∀ t, getKey (forceMergeFields t sf) q = getKey t q := by
  induction sf with
  | nil => intro t; rfl
  | cons p rest ih =>
      intro t
      obtain ⟨k, sv⟩ := p
      simp only [List.map_cons, List.mem_cons, not_or] at hq
      have hk : canonIndex? k = none := hkeys (k, sv) (by simp)
      have hkq : k ≠ q := fun hh => hq.1 hh.symm
      have ih2 := ih hq.2 (fun r hr => hkeys r (by simp [hr]))
      by_cases hm : isMergeableObj sv
      · rw [show forceMergeFields t ((k, sv) :: rest)
            = forceMergeFields (setKey t k
                (forceMerge (mergeBase (getKey t k)) sv)) rest from by
          simp [forceMergeFields, hm]]
        rw [ih2 _, getKey_setKey_nonidx_ne _ _ _ _ hk hkq]
      · rw [show forceMergeFields t ((k, sv) :: rest)
            = forceMergeFields (setKey t k sv) rest from by
          simp [forceMergeFields, hm]]
        rw [ih2 _, getKey_setKey_nonidx_ne _ _ _ _ hk hkq]


theorem plainFields_keys_nonidx (sf : List (String × JVal))
    (h : plainFields sf = true) : ∀ p ∈ sf, canonIndex? p.1 = none := by
  induction sf with
  | nil => intro p hp; simp at hp
  | cons q rest ih =>
      obtain ⟨k, sv⟩ := q
      obtain ⟨hk, -, -, hrest⟩ := plainFields_cons k sv rest h
      intro p hp
      simp only [List.mem_cons] at hp
      rcases hp with rfl | hp2
      · exact hk
      · exact ih hrest p hp2

theorem serialize_nonObjLike (t : JVal) (ht : isObjLike t = false) :
    serialize t = t := by
  cases t with
  | jnull => rfl
  | jbool b => rfl
  | jnum n => rfl
  | jstr s => rfl
  | jarr es ps => simp [isObjLike] at ht
  | jobj fs => simp [isObjLike] at ht

theorem isMergeableObj_eq (sv : JVal) (h : isMergeableObj sv = true) :
    ∃ svf, sv = .jobj svf := by
  cases sv with
  | jobj svf => exact ⟨svf, rfl⟩
  | jnull => simp [isMergeableObj] at h
  | jbool b => simp [isMergeableObj] at h
  | jnum n => simp [isMergeableObj] at h
  | jstr s => simp [isMergeableObj] at h
  | jarr es ps => simp [isMergeableObj] at h

theorem serfields_lookup_transfer (gu G2 : List (String × JVal))
    (hgu : serializeFields gu = serializeFields G2) (k : String) (v : JVal)
    (h : lookupField G2 k = some v) :
    ∃ w, lookupField gu k = some w ∧ serialize w = serialize v := by
  have hmap : (lookupField gu k).map serialize = some (serialize v) := by
    rw [← serializeFields_lookup, hgu, serializeFields_lookup, h]
    rfl
  cases hq : lookupField gu k with
  | none => rw [hq] at hmap; simp at hmap
  | some w =>
      rw [hq] at hmap
      refine ⟨w, rfl, ?_⟩
      simpa using hmap

mutual

theorem fm_absorb : ∀ (sv : JVal), plainSource sv = true → ∀ t u,
    serialize u = serialize (forceMerge t sv) →
    serialize (forceMerge u sv) = serialize (forceMerge t sv)
  | .jnull, _, _, _, h => h
  | .jbool _, _, _, _, h => h
  | .jnum _, _, _, _, h => h
  | .jstr _, _, _, _, h => h
  | .jarr _ _, _, _, _, h => h
  | .jobj sf, hp, t, u, h => fm_absorb_fields sf hp t u h

theorem fm_absorb_fields : ∀ (sf : List (String × JVal)),
    plainFields sf = true → ∀ t u,
    serialize u = serialize (forceMergeFields t sf) →
    serialize (forceMergeFields u sf) = serialize (forceMergeFields t sf)
  | [], _, _, _, h => h
  | (k, sv) :: rest, hp, t, u, h => by
      obtain ⟨hk, hkr, hsv, hrest⟩ := plainFields_cons k sv rest hp
      have hkeys := plainFields_keys_nonidx ((k, sv) :: rest) hp
      have hkeysr := plainFields_keys_nonidx rest hrest
      cases t with
      | jnull =>
          rw [forceMergeFields_nonObjLike ((k, sv) :: rest) .jnull rfl] at h
          obtain rfl := serialize_scalar_inv u .jnull rfl h
          rfl
      | jbool b =>
          rw [forceMergeFields_nonObjLike ((k, sv) :: rest) (.jbool b) rfl] at h
          obtain rfl := serialize_scalar_inv u (.jbool b) rfl h
          rfl
      | jnum n =>
          rw [forceMergeFields_nonObjLike ((k, sv) :: rest) (.jnum n) rfl] at h
          obtain rfl := serialize_scalar_inv u (.jnum n) rfl h
          rfl
      | jstr s =>
          rw [forceMergeFields_nonObjLike ((k, sv) :: rest) (.jstr s) rfl] at h
          obtain rfl := serialize_scalar_inv u (.jstr s) rfl h
          rfl
      | jarr es ps =>
          obtain ⟨PS, hPS⟩ := forceMergeFields_arr ((k, sv) :: rest) hkeys es ps
          rw [hPS] at h
          have h2 : serialize u = .jarr (serializeList es) [] := h
          obtain ⟨eu, pu, rfl, heu⟩ := serialize_eq_arr u _ _ h2
          obtain ⟨PU, hPU⟩ := forceMergeFields_arr ((k, sv) :: rest) hkeys eu pu
          rw [hPS, hPU]
          show JVal.jarr (serializeList eu) [] = JVal.jarr (serializeList es) []
          rw [heu]
      | jobj fs =>
          by_cases hm : isMergeableObj sv
          · have ht : forceMergeFields (JVal.jobj fs) ((k, sv) :: rest)
                = forceMergeFields (.jobj (setField fs k
                    (forceMerge (mergeBase (lookupField fs k)) sv))) rest := by
              simp [forceMergeFields, hm, setKey, getKey]
            rw [ht] at h
            obtain ⟨G2, hG2⟩ := forceMergeFields_obj_isObj rest
              (setField fs k (forceMerge (mergeBase (lookupField fs k)) sv))
            rw [hG2] at h
            have h2 : serialize u = .jobj (serializeFields G2) := h
            obtain ⟨gu, rfl, hgu⟩ := serialize_eq_obj u _ h2
            have hfr : lookupField G2 k
                = some (forceMerge (mergeBase (lookupField fs k)) sv) := by
              have hfa := forceMergeFields_frame_any rest k hkr hkeysr
                (.jobj (setField fs k
                  (forceMerge (mergeBase (lookupField fs k)) sv)))
              rw [hG2] at hfa
              rw [show getKey (JVal.jobj G2) k = lookupField G2 k from rfl] at hfa
              rw [hfa]
              exact lookupField_setField_self _ _ _
            obtain ⟨w, hw, hws⟩ := serfields_lookup_transfer gu G2 hgu k _ hfr
            have hvtObj : isObjLike
                (forceMerge (mergeBase (lookupField fs k)) sv) = true := by
              obtain ⟨svf, rfl⟩ := isMergeableObj_eq sv hm
              rw [show forceMerge (mergeBase (lookupField fs k)) (JVal.jobj svf)
                  = forceMergeFields (mergeBase (lookupField fs k)) svf from rfl]
              rw [forceMergeFields_objLike]
              exact isObjLike_mergeBase _
            have hwObj : isObjLike w = true := by
              rw [← serialize_objLike w, hws, serialize_objLike]
              exact hvtObj
            have habs : serialize (forceMerge w sv)
                = serialize (forceMerge (mergeBase (lookupField fs k)) sv) :=
              fm_absorb sv hsv (mergeBase (lookupField fs k)) w hws
            have hu : forceMergeFields (JVal.jobj gu) ((k, sv) :: rest)
                = forceMergeFields (.jobj (setField gu k
                    (forceMerge w sv))) rest := by
              simp [forceMergeFields, hm, setKey, getKey, hw,
                mergeBase_objLike w hwObj]
            rw [ht, hu, hG2]
            have hkey : serialize (JVal.jobj (setField gu k (forceMerge w sv)))
                = serialize (JVal.jobj G2) := by
              rw [show serialize (JVal.jobj (setField gu k (forceMerge w sv)))
                  = .jobj (serializeFields (setField gu k (forceMerge w sv)))
                  from rfl]
              rw [serializeFields_setField, hgu, habs]
              rw [show serialize (JVal.jobj G2)
                  = .jobj (serializeFields G2) from rfl]
              congr 1
              apply setField_self
              rw [serializeFields_lookup, hfr]
              rfl
            have hrec := fm_absorb_fields rest hrest
              (.jobj (setField fs k
                (forceMerge (mergeBase (lookupField fs k)) sv)))
              (.jobj (setField gu k (forceMerge w sv)))
              (by rw [hG2]; exact hkey)
            rw [hG2] at hrec
            exact hrec
          · have ht : forceMergeFields (JVal.jobj fs) ((k, sv) :: rest)
                = forceMergeFields (.jobj (setField fs k sv)) rest := by
              simp [forceMergeFields, hm, setKey]
            rw [ht] at h
            obtain ⟨G2, hG2⟩ := forceMergeFields_obj_isObj rest
              (setField fs k sv)
            rw [hG2] at h
            have h2 : serialize u = .jobj (serializeFields G2) := h
            obtain ⟨gu, rfl, hgu⟩ := serialize_eq_obj u _ h2
            have hfr : lookupField G2 k = some sv := by
              have hfa := forceMergeFields_frame_any rest k hkr hkeysr
                (.jobj (setField fs k sv))
              rw [hG2] at hfa
              rw [show getKey (JVal.jobj G2) k = lookupField G2 k from rfl] at hfa
              rw [hfa]
              exact lookupField_setField_self _ _ _
            have hu : forceMergeFields (JVal.jobj gu) ((k, sv) :: rest)
                = forceMergeFields (.jobj (setField gu k sv)) rest := by
              simp [forceMergeFields, hm, setKey]
            rw [ht, hu, hG2]
            have hkey : serialize (JVal.jobj (setField gu k sv))
                = serialize (JVal.jobj G2) := by
              rw [show serialize (JVal.jobj (setField gu k sv))
                  = .jobj (serializeFields (setField gu k sv)) from rfl]
              rw [serializeFields_setField, hgu]
              rw [show serialize (JVal.jobj G2)
                  = .jobj (serializeFields G2) from rfl]
              congr 1
              apply setField_self
              rw [serializeFields_lookup, hfr]
              rfl
            have hrec := fm_absorb_fields rest hrest
              (.jobj (setField fs k sv))
              (.jobj (setField gu k sv))
              (by rw [hG2]; exact hkey)
            rw [hG2] at hrec
            exact hrec

end

mutual

theorem dm_absorb : ∀ (sv : JVal), plainSource sv = true → ∀ t u,
    serialize u = serialize (deepMerge t sv) →
    serialize (deepMerge u sv) = serialize (deepMerge t sv)
  | .jnull, _, _, _, h => h
  | .jbool _, _, _, _, h => h
  | .jnum _, _, _, _, h => h
  | .jstr _, _, _, _, h => h
  | .jarr _ _, _, _, _, h => h
  | .jobj sf, hp, t, u, h => dm_absorb_fields sf hp t u h

theorem dm_absorb_fields : ∀ (sf : List (String × JVal)),
    plainFields sf = true → ∀ t u,
    serialize u = serialize (deepMergeFields t sf) →
    serialize (deepMergeFields u sf) = serialize (deepMergeFields t sf)
  | [], _, _, _, h => h
  | (k, sv) :: rest, hp, t, u, h => by
      obtain ⟨hk, hkr, hsv, hrest⟩ := plainFields_cons k sv rest hp
      have hkeys := plainFields_keys_nonidx ((k, sv) :: rest) hp
      have hkeysr := plainFields_keys_nonidx rest hrest
      cases t with
      | jnull =>
          rw [deepMergeFields_nonObjLike ((k, sv) :: rest) .jnull rfl] at h
          obtain rfl := serialize_scalar_inv u .jnull rfl h
          rfl
      | jbool b =>
          rw [deepMergeFields_nonObjLike ((k, sv) :: rest) (.jbool b) rfl] at h
          obtain rfl := serialize_scalar_inv u (.jbool b) rfl h
          rfl
      | jnum n =>
          rw [deepMergeFields_nonObjLike ((k, sv) :: rest) (.jnum n) rfl] at h
          obtain rfl := serialize_scalar_inv u (.jnum n) rfl h
          rfl
      | jstr s =>
          rw [deepMergeFields_nonObjLike ((k, sv) :: rest) (.jstr s) rfl] at h
          obtain rfl := serialize_scalar_inv u (.jstr s) rfl h
          rfl
      | jarr es ps =>
          obtain ⟨PS, hPS⟩ := deepMergeFields_arr ((k, sv) :: rest) hkeys es ps
          rw [hPS] at h
          have h2 : serialize u = .jarr (serializeList es) [] := h
          obtain ⟨eu, pu, rfl, heu⟩ := serialize_eq_arr u _ _ h2
          obtain ⟨PU, hPU⟩ := deepMergeFields_arr ((k, sv) :: rest) hkeys eu pu
          rw [hPS, hPU]
          show JVal.jarr (serializeList eu) [] = JVal.jarr (serializeList es) []
          rw [heu]
      | jobj fs =>
          by_cases hm : isMergeableObj sv
          · have ht : deepMergeFields (JVal.jobj fs) ((k, sv) :: rest)
                = deepMergeFields (.jobj (setField fs k
                    (deepMerge (mergeBase (lookupField fs k)) sv))) rest := by
              simp [deepMergeFields, hm, setKey, getKey]
            rw [ht] at h
            obtain ⟨G2, hG2⟩ := deepMergeFields_obj_isObj rest
              (setField fs k (deepMerge (mergeBase (lookupField fs k)) sv))
            rw [hG2] at h
            have h2 : serialize u = .jobj (serializeFields G2) := h
            obtain ⟨gu, rfl, hgu⟩ := serialize_eq_obj u _ h2
            have hfr : lookupField G2 k
                = some (deepMerge (mergeBase (lookupField fs k)) sv) := by
              have hfa := deepMergeFields_frame_any rest k hkr hkeysr
                (.jobj (setField fs k
                  (deepMerge (mergeBase (lookupField fs k)) sv)))
              rw [hG2] at hfa
              rw [show getKey (JVal.jobj G2) k = lookupField G2 k from rfl] at hfa
              rw [hfa]
              exact lookupField_setField_self _ _ _
            obtain ⟨w, hw, hws⟩ := serfields_lookup_transfer gu G2 hgu k _ hfr
            have hvtObj : isObjLike
                (deepMerge (mergeBase (lookupField fs k)) sv) = true := by
              obtain ⟨svf, rfl⟩ := isMergeableObj_eq sv hm
              rw [show deepMerge (mergeBase (lookupField fs k)) (JVal.jobj svf)
                  = deepMergeFields (mergeBase (lookupField fs k)) svf from rfl]
              rw [deepMergeFields_objLike]
              exact isObjLike_mergeBase _
            have hwObj : isObjLike w = true := by
              rw [← serialize_objLike w, hws, serialize_objLike]
              exact hvtObj
            have habs : serialize (deepMerge w sv)
                = serialize (deepMerge (mergeBase (lookupField fs k)) sv) :=
              dm_absorb sv hsv (mergeBase (lookupField fs k)) w hws
            have hu : deepMergeFields (JVal.jobj gu) ((k, sv) :: rest)
                = deepMergeFields (.jobj (setField gu k
                    (deepMerge w sv))) rest := by
              simp [deepMergeFields, hm, setKey, getKey, hw,
                mergeBase_objLike w hwObj]
            rw [ht, hu, hG2]
            have hkey : serialize (JVal.jobj (setField gu k (deepMerge w sv)))
                = serialize (JVal.jobj G2) := by
              rw [show serialize (JVal.jobj (setField gu k (deepMerge w sv)))
                  = .jobj (serializeFields (setField gu k (deepMerge w sv)))
                  from rfl]
              rw [serializeFields_setField, hgu, habs]
              rw [show serialize (JVal.jobj G2)
                  = .jobj (serializeFields G2) from rfl]
              congr 1
              apply setField_self
              rw [serializeFields_lookup, hfr]
              rfl
            have hrec := dm_absorb_fields rest hrest
              (.jobj (setField fs k
                (deepMerge (mergeBase (lookupField fs k)) sv)))
              (.jobj (setField gu k (deepMerge w sv)))
              (by rw [hG2]; exact hkey)
            rw [hG2] at hrec
            exact hrec
          · cases hg : lookupField fs k with
            | some w0 =>
                have ht : deepMergeFields (JVal.jobj fs) ((k, sv) :: rest)
                    = deepMergeFields (JVal.jobj fs) rest := by
                  simp [deepMergeFields, hm, getKey, hg]
                rw [ht] at h
                obtain ⟨G2, hG2⟩ := deepMergeFields_obj_isObj rest fs
                rw [hG2] at h
                have h2 : serialize u = .jobj (serializeFields G2) := h
                obtain ⟨gu, rfl, hgu⟩ := serialize_eq_obj u _ h2
                have hfr : lookupField G2 k = some w0 := by
                  have hfa := deepMergeFields_frame_any rest k hkr hkeysr
                    (.jobj fs)
                  rw [hG2] at hfa
                  rw [show getKey (JVal.jobj G2) k
                      = lookupField G2 k from rfl] at hfa
                  rw [hfa]
                  exact hg
                obtain ⟨w, hw, hws⟩ := serfields_lookup_transfer gu G2 hgu k _ hfr
                have hu : deepMergeFields (JVal.jobj gu) ((k, sv) :: rest)
                    = deepMergeFields (JVal.jobj gu) rest := by
                  simp [deepMergeFields, hm, getKey, hw]
                rw [ht, hu, hG2]
                have hrec := dm_absorb_fields rest hrest (.jobj fs)
                  (.jobj gu) (by rw [hG2]; exact h2)
                rw [hG2] at hrec
                exact hrec
            | none =>
                have ht : deepMergeFields (JVal.jobj fs) ((k, sv) :: rest)
                    = deepMergeFields (.jobj (setField fs k sv)) rest := by
                  simp [deepMergeFields, hm, getKey, hg, setKey]
                rw [ht] at h
                obtain ⟨G2, hG2⟩ := deepMergeFields_obj_isObj rest
                  (setField fs k sv)
                rw [hG2] at h
                have h2 : serialize u = .jobj (serializeFields G2) := h
                obtain ⟨gu, rfl, hgu⟩ := serialize_eq_obj u _ h2
                have hfr : lookupField G2 k = some sv := by
                  have hfa := deepMergeFields_frame_any rest k hkr hkeysr
                    (.jobj (setField fs k sv))
                  rw [hG2] at hfa
                  rw [show getKey (JVal.jobj G2) k
                      = lookupField G2 k from rfl] at hfa
                  rw [hfa]
                  exact lookupField_setField_self _ _ _
                obtain ⟨w, hw, hws⟩ := serfields_lookup_transfer gu G2 hgu k _ hfr
                have hu : deepMergeFields (JVal.jobj gu) ((k, sv) :: rest)
                    = deepMergeFields (JVal.jobj gu) rest := by
                  simp [deepMergeFields, hm, getKey, hw]
                rw [ht, hu, hG2]
                have hrec := dm_absorb_fields rest hrest
                  (.jobj (setField fs k sv))
                  (.jobj gu) (by rw [hG2]; exact h2)
                rw [hG2] at hrec
                exact hrec

end

theorem plainSource_gatewayInner : plainSource gatewayInner = true := by decide

theorem plainSource_agentsInner : plainSource agentsInner = true := by decide

theorem fm_mergeBase_objLike (x : Option JVal) (s : JVal)
    (hs : isMergeableObj s = true) :
    isObjLike (forceMerge (mergeBase x) s) = true := by
  obtain ⟨sf, rfl⟩ := isMergeableObj_eq s hs
  rw [show forceMerge (mergeBase x) (JVal.jobj sf)
      = forceMergeFields (mergeBase x) sf from rfl]
  rw [forceMergeFields_objLike]
  exact isObjLike_mergeBase x

theorem dm_mergeBase_objLike (x : Option JVal) (s : JVal)
    (hs : isMergeableObj s = true) :
    isObjLike (deepMerge (mergeBase x) s) = true := by
  obtain ⟨sf, rfl⟩ := isMergeableObj_eq s hs
  rw [show deepMerge (mergeBase x) (JVal.jobj sf)
      = deepMergeFields (mergeBase x) sf from rfl]
  rw [deepMergeFields_objLike]
  exact isObjLike_mergeBase x

theorem gw_round2 (x : Option JVal) :
    serialize (forceMerge (serialize
        (forceMerge (mergeBase x) gatewayInner)) gatewayInner)
      = serialize (forceMerge (mergeBase x) gatewayInner) :=
  fm_absorb gatewayInner plainSource_gatewayInner (mergeBase x)
    (serialize (forceMerge (mergeBase x) gatewayInner))
    (serialize_idem _)

theorem ag_round2 (x : Option JVal) :
    serialize (deepMerge (serialize
        (deepMerge (mergeBase x) agentsInner)) agentsInner)
      = serialize (deepMerge (mergeBase x) agentsInner) :=
  dm_absorb agentsInner plainSource_agentsInner (mergeBase x)
    (serialize (deepMerge (mergeBase x) agentsInner))
    (serialize_idem _)

theorem merge_roundtrip (t : JVal) (ht : isObjLike t = true) :
    serialize (deepMerge (forceMerge (serialize
        (deepMerge (forceMerge t gatewayDefaults) agentDefaults))
      gatewayDefaults) agentDefaults)
      = serialize (deepMerge (forceMerge t gatewayDefaults) agentDefaults) := by
  cases t with
  | jnull => simp [isObjLike] at ht
  | jbool b => simp [isObjLike] at ht
  | jnum n => simp [isObjLike] at ht
  | jstr s => simp [isObjLike] at ht
  | jarr es ps =>
      rw [forceMerge_gd_arr, deepMerge_ad_arr]
      rw [show serialize (JVal.jarr es (setField (setField ps "gateway"
          (forceMerge (mergeBase (lookupField ps "gateway")) gatewayInner))
          "agents" (deepMerge (mergeBase (lookupField (setField ps "gateway"
            (forceMerge (mergeBase (lookupField ps "gateway")) gatewayInner))
            "agents")) agentsInner)))
          = JVal.jarr (serializeList es) [] from rfl]
      rw [forceMerge_gd_arr, deepMerge_ad_arr]
      show JVal.jarr (serializeList (serializeList es)) []
          = JVal.jarr (serializeList es) []
      rw [serializeList_idem]
  | jobj fs =>
      rw [forceMerge_gd_obj, deepMerge_ad_obj]
      rw [lookupField_setField_ne fs "agents" "gateway" _ (by decide)]
      -- name the two merged inner values
      generalize hG1 : forceMerge (mergeBase (lookupField fs "gateway"))
        gatewayInner = G1
      generalize hA1 : deepMerge (mergeBase (lookupField fs "agents"))
        agentsInner = A1
      have hG1o : isObjLike G1 = true := by
        rw [← hG1]; exact fm_mergeBase_objLike _ _ rfl
      have hA1o : isObjLike A1 = true := by
        rw [← hA1]; exact dm_mergeBase_objLike _ _ rfl
      -- serialized fields of the first run
      rw [show serialize (JVal.jobj (setField (setField fs "gateway" G1)
          "agents" A1))
          = JVal.jobj (serializeFields (setField (setField fs "gateway" G1)
            "agents" A1)) from rfl]
      rw [show serializeFields (setField (setField fs "gateway" G1)
          "agents" A1)
          = setField (setField (serializeFields fs) "gateway" (serialize G1))
            "agents" (serialize A1) from by
        rw [serializeFields_setField, serializeFields_setField]]
      -- second run
      rw [forceMerge_gd_obj, deepMerge_ad_obj]
      rw [lookupField_setField_ne _ "agents" "gateway" _ (by decide)]
      rw [show lookupField (setField (setField (serializeFields fs) "gateway"
          (serialize G1)) "agents" (serialize A1)) "gateway"
          = some (serialize G1) from by
        rw [lookupField_setField_ne _ "gateway" "agents" _ (by decide)]
        exact lookupField_setField_self _ _ _]
      rw [show lookupField (setField (setField (serializeFields fs) "gateway"
          (serialize G1)) "agents" (serialize A1)) "agents"
          = some (serialize A1) from lookupField_setField_self _ _ _]
      rw [mergeBase_objLike (serialize G1) (by rw [serialize_objLike]; exact hG1o)]
      rw [mergeBase_objLike (serialize A1) (by rw [serialize_objLike]; exact hA1o)]
      -- the re-merged inner values serialize to the old ones
      have hG2 : serialize (forceMerge (serialize G1) gatewayInner)
          = serialize G1 := by
        rw [← hG1]
        exact gw_round2 (lookupField fs "gateway")
      have hA2 : serialize (deepMerge (serialize A1) agentsInner)
          = serialize A1 := by
        rw [← hA1]
        exact ag_round2 (lookupField fs "agents")
      -- push the serialization through and collapse the two writes
      rw [show serialize (JVal.jobj (setField (setField (setField (setField
          (serializeFields fs) "gateway" (serialize G1)) "agents"
          (serialize A1)) "gateway" (forceMerge (serialize G1) gatewayInner))
          "agents" (deepMerge (serialize A1) agentsInner)))
          = JVal.jobj (serializeFields (setField (setField (setField (setField
            (serializeFields fs) "gateway" (serialize G1)) "agents"
            (serialize A1)) "gateway" (forceMerge (serialize G1) gatewayInner))
            "agents" (deepMerge (serialize A1) agentsInner))) from rfl]
      rw [serializeFields_setField, serializeFields_setField, hG2, hA2]
      rw [serializeFields_setField, serializeFields_setField,
        serializeFields_idem, serialize_idem, serialize_idem]
      rw [show setField (setField (setField (setField (serializeFields fs)
          "gateway" (serialize G1)) "agents" (serialize A1)) "gateway"
          (serialize G1)) "agents" (serialize A1)
          = setField (setField (serializeFields fs) "gateway" (serialize G1))
            "agents" (serialize A1) from by
        rw [setField_self _ "gateway" _ (by
          rw [lookupField_setField_ne _ "gateway" "agents" _ (by decide)]
          exact lookupField_setField_self _ _ _)]
        rw [setField_self _ "agents" _ (lookupField_setField_self _ _ _)]]

/-! ## Lemmas: a sequence-shaped document keeps its elements through every stage -/

theorem assignAt_arr_shape (es : List JVal) (ps : List (String × JVal))
    (path : List String) (k : String) (v : JVal) (r : JVal)
    (h : assignAt (.jarr es ps) path k v = .ok r)
    (hidx : canonIndex? (path.headD k) = none) :
    ∃ ps2, r = .jarr es ps2 := by
  cases path with
  | nil =>
      simp only [assignAt, writeProp] at h
      rw [setKey_arr_nonidx es ps k v hidx] at h
      injection h with h1
      exact ⟨setField ps k v, h1.symm⟩
  | cons p rest =>
      simp only [assignAt] at h
      rw [show readProp (.jarr es ps) p
          = Except.ok (getKey (.jarr es ps) p) from rfl] at h
      cases hg : getKey (.jarr es ps) p with
      | none => rw [hg] at h; simp at h
      | some base =>
          rw [hg] at h
          simp only [] at h
          cases ha : assignAt base rest k v with
          | error e => rw [ha] at h; simp at h
          | ok base2 =>
              rw [ha] at h
              simp only [writeProp] at h
              rw [setKey_arr_nonidx es ps p base2 hidx] at h
              injection h with h1
              exact ⟨setField ps p base2, h1.symm⟩

theorem guardAssign_arr_shape (cond : Bool) (es : List JVal)
    (ps : List (String × JVal)) (path : List String) (k : String) (r : JVal)
    (h : guardAssign cond (.jarr es ps) path k = .ok r)
    (hidx : canonIndex? (path.headD k) = none) :
    ∃ ps2, r = .jarr es ps2 := by
  unfold guardAssign at h
  by_cases hc : cond = true
  · rw [if_pos hc] at h
    exact ⟨ps, (except_pure_ok _ _ h).symm⟩
  · rw [if_neg hc] at h
    exact assignAt_arr_shape es ps path k _ r h hidx

theorem ensureProviderEntry_arr_shape (env : Env) (es : List JVal)
    (ps : List (String × JVal)) (c3 : JVal)
    (h : ensureProviderEntry env (.jarr es ps) = .ok c3) :
    ∃ ps2, c3 = .jarr es ps2 := by
  unfold ensureProviderEntry at h
  obtain ⟨mv, hmv, h⟩ := except_bind_ok _ _ _ h
  obtain ⟨c1, hc1, h⟩ := except_bind_ok _ _ _ h
  obtain ⟨pv, hpv, h⟩ := except_bind_ok _ _ _ h
  obtain ⟨c2, hc2, h⟩ := except_bind_ok _ _ _ h
  obtain ⟨ex, hex, h⟩ := except_bind_ok _ _ _ h
  obtain ⟨p1, e1⟩ := guardAssign_arr_shape _ es ps _ _ c1 hc1 rfl
  subst e1
  obtain ⟨p2, e2⟩ := guardAssign_arr_shape _ es p1 _ _ c2 hc2 rfl
  subst e2
  exact assignAt_arr_shape es p2 _ _ _ c3 h rfl

theorem addModelEntry_arr_shape (env : Env) (mid : String) (es : List JVal)
    (ps : List (String × JVal)) (c4 : JVal)
    (h : addModelEntry env mid (.jarr es ps) = .ok c4) :
    ∃ ps2, c4 = .jarr es ps2 := by
  unfold addModelEntry at h
  obtain ⟨emv, hemv, h⟩ := except_bind_ok _ _ _ h
  obtain ⟨ms, hms, h⟩ := except_bind_ok _ _ _ h
  obtain ⟨found, hfound, h⟩ := except_bind_ok _ _ _ h
  by_cases hf : found = true
  · rw [if_pos hf] at h
    exact ⟨ps, (except_pure_ok _ _ h).symm⟩
  · rw [if_neg hf] at h
    exact assignAt_arr_shape es ps _ _ _ c4 h rfl

theorem setSelector_arr_shape (mid : String) (es : List JVal)
    (ps : List (String × JVal)) (cfg : JVal)
    (h : setSelector mid (.jarr es ps) = .ok cfg) :
    ∃ ps2, cfg = .jarr es ps2 := by
  unfold setSelector at h
  obtain ⟨av, hav, h⟩ := except_bind_ok _ _ _ h
  obtain ⟨c5, hc5, h⟩ := except_bind_ok _ _ _ h
  obtain ⟨dv, hdv, h⟩ := except_bind_ok _ _ _ h
  obtain ⟨c6, hc6, h⟩ := except_bind_ok _ _ _ h
  obtain ⟨mvv, hmvv, h⟩ := except_bind_ok _ _ _ h
  obtain ⟨cur, hcur, h⟩ := except_bind_ok _ _ _ h
  obtain ⟨p5, e5⟩ := guardAssign_arr_shape _ es ps _ _ c5 hc5 rfl
  subst e5
  obtain ⟨p6, e6⟩ := guardAssign_arr_shape _ es p5 _ _ c6 hc6 rfl
  subst e6
  by_cases hs : isStrVal cur ("ollama/" ++ mid) = true
  · rw [if_pos hs] at h
    exact ⟨p6, (except_pure_ok _ _ h).symm⟩
  · rw [if_neg hs] at h
    exact assignAt_arr_shape es p6 _ _ _ cfg h rfl

theorem provisionOllama_arr_shape (env : Env) (es : List JVal)
    (ps : List (String × JVal)) (cfg : JVal)
    (h : provisionOllama env (.jarr es ps) = .ok cfg) :
    ∃ ps2, cfg = .jarr es ps2 := by
  unfold provisionOllama at h
  obtain ⟨c3, hc3, h⟩ := except_bind_ok _ _ _ h
  obtain ⟨p3, e3⟩ := ensureProviderEntry_arr_shape env es ps c3 hc3
  subst e3
  by_cases hm : truthyStr env.ollamaModel = true
  · rw [if_pos hm] at h
    obtain ⟨c4, hc4, h⟩ := except_bind_ok _ _ _ h
    obtain ⟨p4, e4⟩ := addModelEntry_arr_shape env _ es p3 c4 hc4
    subst e4
    exact setSelector_arr_shape _ es p4 cfg h
  · rw [if_neg hm] at h
    exact ⟨p3, (except_pure_ok _ _ h).symm⟩

theorem runMain_arr_shape (env : Env) (es : List JVal)
    (ps : List (String × JVal)) (cfg : JVal)
    (h : runMain env (.jarr es ps) = some cfg) :
    ∃ ps2, cfg = .jarr es ps2 := by
  unfold runMain at h
  rw [if_pos (show isObjLike (.jarr es ps) = true from rfl)] at h
  simp only [forceMerge_gd_arr, deepMerge_ad_arr] at h
  by_cases he : (truthyStr env.ollamaUrl && truthyStr env.ollamaKey) = true
  · rw [if_pos he] at h
    exact provisionOllama_arr_shape env es _ cfg (except_toOption_ok _ _ h)
  · rw [if_neg he] at h
    injection h with h1
    exact ⟨_, h1.symm⟩

/-! ## Lemmas: serialization-fixed documents and provider-entry structure -/

theorem serialize_fix_obj (fs : List (String × JVal))
    (h : serialize (.jobj fs) = .jobj fs) : serializeFields fs = fs := by
  injection h

theorem serialize_fix_arr (es : List JVal) (ps : List (String × JVal))
    (h : serialize (.jarr es ps) = .jarr es ps) :
    serializeList es = es ∧ ps = [] := by
  rw [show serialize (JVal.jarr es ps) = .jarr (serializeList es) [] from rfl] at h
  injection h with h1 h2
  exact ⟨h1, h2.symm⟩

theorem serializeFields_fix_mem (fs : List (String × JVal))
    (h : serializeFields fs = fs) (p : (String × JVal)) (hp : p ∈ fs) :
    serialize p.2 = p.2 := by
  induction fs with
  | nil => simp at hp
  | cons q rest ih =>
      obtain ⟨k0, v0⟩ := q
      rw [show serializeFields ((k0, v0) :: rest)
          = (k0, serialize v0) :: serializeFields rest from rfl] at h
      injection h with h1 h2
      simp only [List.mem_cons] at hp
      rcases hp with rfl | hp2
      · have := congrArg Prod.snd h1
        simpa using this
      · exact ih h2 hp2

theorem serializeList_fix_mem (es : List JVal)
    (h : serializeList es = es) (e : JVal) (he : e ∈ es) :
    serialize e = e := by
  induction es with
  | nil => simp at he
  | cons v rest ih =>
      rw [show serializeList (v :: rest)
          = serialize v :: serializeList rest from rfl] at h
      injection h with h1 h2
      simp only [List.mem_cons] at he
      rcases he with rfl | he2
      · exact h1
      · exact ih h2 he2

theorem applyFields_lookup_sources (base : List (String × JVal)) :
    ∀ (xs : List (String × JVal)) (k : String) (v : JVal),
      lookupField (applyFields base xs) k = some v →
      (∃ kk, (kk, v) ∈ xs) ∨ lookupField base k = some v := by
  intro xs
  induction xs generalizing base with
  | nil =>
      intro k v h
      exact Or.inr h
  | cons p rest ih =>
      intro k v h
      obtain ⟨k0, v0⟩ := p
      rw [show applyFields base ((k0, v0) :: rest)
          = applyFields (setField base k0 v0) rest from rfl] at h
      rcases ih (setField base k0 v0) k v h with hx | hb
      · obtain ⟨kk, hkk⟩ := hx
        exact Or.inl ⟨kk, by simp [hkk]⟩
      · by_cases hk : k0 = k
        · subst hk
          rw [lookupField_setField_self] at hb
          injection hb with hv
          exact Or.inl ⟨k0, by simp [hv]⟩
        · rw [lookupField_setField_ne _ _ _ _ hk] at hb
          exact Or.inr hb

theorem spreadFields_mem_serfix (v : JVal) (hv : serialize v = v)
    (p : String × JVal) (hp : p ∈ spreadFields v) : serialize p.2 = p.2 := by
  cases v with
  | jobj fs =>
      exact serializeFields_fix_mem fs (serialize_fix_obj fs hv) p hp
  | jarr es ps =>
      obtain ⟨hes, rfl⟩ := serialize_fix_arr es ps hv
      simp only [spreadFields, List.append_nil, List.mem_map] at hp
      obtain ⟨q, hq, rfl⟩ := hp
      have h3 := (List.mem_enumFrom hq).2
      refine serializeList_fix_mem es hes q.2 ?_
      rw [h3.2]
      exact List.getElem_mem _
  | jstr s =>
      simp only [spreadFields, List.mem_map] at hp
      obtain ⟨q, hq, rfl⟩ := hp
      rfl
  | jnull => simp [spreadFields] at hp
  | jbool b => simp [spreadFields] at hp
  | jnum n => simp [spreadFields] at hp

theorem entry_keys_facts (env : Env) (xs : List (String × JVal)) :
    ((applyFields (baseEntryFields env) xs).map Prod.fst).take 4
      = ["baseUrl", "apiKey", "api", "authHeader"] ∧
    ((applyFields (baseEntryFields env) xs).map Prod.fst).Nodup := by
  obtain ⟨ex, hkeys, hnd⟩ := applyFields_keys (baseEntryFields env) xs (by
    rw [show (baseEntryFields env).map Prod.fst
        = ["baseUrl", "apiKey", "api", "authHeader"] from rfl]
    decide)
  rw [show (baseEntryFields env).map Prod.fst
      = ["baseUrl", "apiKey", "api", "authHeader"] from rfl] at hkeys
  constructor
  · rw [hkeys]
    rfl
  · rw [hkeys]
    exact hnd

theorem serialize_mkModelEntry (mid : String) (cw : Int) :
    serialize (mkModelEntry mid cw) = mkModelEntry mid cw := rfl

theorem dm_empty_toolsInner : deepMerge (.jobj []) toolsInner = toolsInner := rfl

theorem dm_empty_defaultsInner :
    deepMerge (.jobj []) defaultsInner = defaultsInner := rfl

theorem dm_empty_agentsInner :
    deepMerge (.jobj []) agentsInner = agentsInner := rfl

theorem plainSource_toolsInner : plainSource toolsInner = true := by decide

theorem tools_round2 (y : Option JVal) :
    serialize (deepMerge (serialize
        (deepMerge (mergeBase y) toolsInner)) toolsInner)
      = serialize (deepMerge (mergeBase y) toolsInner) :=
  dm_absorb toolsInner plainSource_toolsInner (mergeBase y)
    (serialize (deepMerge (mergeBase y) toolsInner))
    (serialize_idem _)

theorem dm_single_stable (key : String) (inner : JVal)
    (hmi : isMergeableObj inner = true)
    (af : List (String × JVal)) (D : JVal)
    (hd : lookupField af key = some D)
    (hDo : isObjLike D = true)
    (hDs : serialize (deepMerge (serialize D) inner) = serialize D) :
    serialize (deepMerge (serialize (.jobj af)) (.jobj [(key, inner)]))
      = serialize (.jobj af) := by
  have h1 : deepMerge (serialize (.jobj af)) (.jobj [(key, inner)])
      = .jobj (setField (serializeFields af) key
          (deepMerge (mergeBase
            (lookupField (serializeFields af) key)) inner)) := by
    rw [show serialize (JVal.jobj af) = .jobj (serializeFields af) from rfl]
    show deepMergeFields (.jobj (serializeFields af)) [(key, inner)] = _
    simp [deepMergeFields, hmi, setKey, getKey]
  rw [h1]
  rw [show lookupField (serializeFields af) key = some (serialize D) from by
    rw [serializeFields_lookup, hd]; rfl]
  rw [mergeBase_objLike _ (by rw [serialize_objLike]; exact hDo)]
  rw [show serialize (JVal.jobj (setField (serializeFields af) key
      (deepMerge (serialize D) inner)))
      = .jobj (serializeFields (setField (serializeFields af) key
        (deepMerge (serialize D) inner))) from rfl]
  rw [serializeFields_setField, serializeFields_idem, hDs]
  rw [show serialize (JVal.jobj af) = .jobj (serializeFields af) from rfl]
  congr 1
  apply setField_self
  rw [serializeFields_lookup, hd]
  rfl

/-! ## Lemmas: more provisioning-stage computations -/

theorem addModel_compute_provArr (env : Env) (mid : String) (c3 : JVal)
    (g mfs : List (String × JVal)) (pes : List JVal)
    (pps ef : List (String × JVal))
    (hc3 : c3 = .jobj g)
    (hm : lookupField g "models" = some (.jobj mfs))
    (hp : lookupField mfs "providers" = some (.jarr pes pps))
    (ho : lookupField pps "ollama" = some (.jobj ef))
    (hlv : truthyOpt (lookupField ef "models") = false) :
    addModelEntry env mid c3 =
      .ok (.jobj (setField g "models" (.jobj (setField mfs "providers"
        (.jarr pes (setField pps "ollama" (.jobj (setField ef "models"
          (.jarr [mkModelEntry mid
            (effectiveContextWindow env.ollamaContextWindow)] []))))))))) := by
  subst hc3
  unfold addModelEntry
  have hoi : canonIndex? "ollama" = none := rfl
  have h1 : readAt (.jobj g) ["models", "providers", "ollama", "models"]
      = .ok (lookupField ef "models") := by
    simp [readAt, readProp, hm, hp, ho, getKey, hoi]
  have h4 : assignAt (.jobj g) ["models", "providers", "ollama"] "models"
      (.jarr ([] ++ [mkModelEntry mid
        (effectiveContextWindow env.ollamaContextWindow)]) [])
      = .ok (.jobj (setField g "models" (.jobj (setField mfs "providers"
        (.jarr pes (setField pps "ollama" (.jobj (setField ef "models"
          (.jarr [mkModelEntry mid
            (effectiveContextWindow env.ollamaContextWindow)] []))))))))) := by
    simp [assignAt, readProp, hm, hp, ho, getKey, hoi, writeProp, setKey]
  rw [h1]
  simp only [Bind.bind, Except.bind]
  rw [jsOr_falsy _ _ hlv]
  rw [show coerceModels (.jarr [] []) = .ok [] from rfl]
  simp only []
  rw [show someIdEq [] mid = .ok false from rfl]
  simp only [Bool.false_eq_true, if_false]
  rw [h4]

theorem addModel_compute_modArr (env : Env) (mid : String) (c3 : JVal)
    (g : List (String × JVal)) (mes : List JVal)
    (mps pfs ef : List (String × JVal))
    (hc3 : c3 = .jobj g)
    (hm : lookupField g "models" = some (.jarr mes mps))
    (hp : lookupField mps "providers" = some (.jobj pfs))
    (ho : lookupField pfs "ollama" = some (.jobj ef))
    (hlv : truthyOpt (lookupField ef "models") = false) :
    addModelEntry env mid c3 =
      .ok (.jobj (setField g "models" (.jarr mes (setField mps "providers"
        (.jobj (setField pfs "ollama" (.jobj (setField ef "models"
          (.jarr [mkModelEntry mid
            (effectiveContextWindow env.ollamaContextWindow)] []))))))))) := by
  subst hc3
  unfold addModelEntry
  have hpi : canonIndex? "providers" = none := rfl
  have h1 : readAt (.jobj g) ["models", "providers", "ollama", "models"]
      = .ok (lookupField ef "models") := by
    simp [readAt, readProp, hm, hp, ho, getKey, hpi]
  have h4 : assignAt (.jobj g) ["models", "providers", "ollama"] "models"
      (.jarr ([] ++ [mkModelEntry mid
        (effectiveContextWindow env.ollamaContextWindow)]) [])
      = .ok (.jobj (setField g "models" (.jarr mes (setField mps "providers"
        (.jobj (setField pfs "ollama" (.jobj (setField ef "models"
          (.jarr [mkModelEntry mid
            (effectiveContextWindow env.ollamaContextWindow)] []))))))))) := by
    simp [assignAt, readProp, hm, hp, ho, getKey, hpi, writeProp, setKey]
  rw [h1]
  simp only [Bind.bind, Except.bind]
  rw [jsOr_falsy _ _ hlv]
  rw [show coerceModels (.jarr [] []) = .ok [] from rfl]
  simp only []
  rw [show someIdEq [] mid = .ok false from rfl]
  simp only [Bool.false_eq_true, if_false]
  rw [h4]

theorem setSelector_compute_defaultsArr (mid : String)
    (g4 ags : List (String × JVal)) (des : List JVal)
    (dps : List (String × JVal)) (c4 : JVal) (hc4 : c4 = .jobj g4)
    (hA : lookupField g4 "agents" = some (.jobj ags))
    (hD : lookupField ags "defaults" = some (.jarr des dps)) :
    setSelector mid c4 =
      if isStrVal (primaryValD (lookupField dps "model")) ("ollama/" ++ mid) then
        .ok c4
      else
        .ok (.jobj (setField g4 "agents" (.jobj (setField ags "defaults"
          (.jarr des (setField dps "model"
            (.jobj [("primary", .jstr ("ollama/" ++ mid))]))))))) := by
  subst hc4
  unfold setSelector
  have hmi : canonIndex? "model" = none := rfl
  have h1 : readProp (.jobj g4) "agents" = .ok (some (.jobj ags)) := by
    simp [readProp, hA]
  have h2 : readAt (.jobj g4) ["agents", "defaults"]
      = .ok (some (.jarr des dps)) := by
    simp [readAt, readProp, hA, hD]
  have h3 : readAt (.jobj g4) ["agents", "defaults", "model"]
      = .ok (lookupField dps "model") := by
    simp [readAt, readProp, hA, hD, getKey, hmi]
  have h4 : assignAt (.jobj g4) ["agents", "defaults"] "model"
      (.jobj [("primary", .jstr ("ollama/" ++ mid))])
      = .ok (.jobj (setField g4 "agents" (.jobj (setField ags "defaults"
        (.jarr des (setField dps "model"
          (.jobj [("primary", .jstr ("ollama/" ++ mid))]))))))) := by
    simp [assignAt, readProp, hA, hD, writeProp, setKey, hmi]
  rw [h1]
  simp only [Bind.bind, Except.bind, guardAssign, truthyOpt, truthy, if_true]
  simp only [pure, Except.pure]
  rw [h2]
  simp only [truthyOpt, truthy, if_true]
  rw [h3]
  simp only []
  rw [primaryOf_ok]
  simp only []
  by_cases hs : isStrVal (primaryValD (lookupField dps "model"))
      ("ollama/" ++ mid) = true
  · rw [if_pos hs, if_pos hs]
  · rw [if_neg hs, if_neg hs, h4]

theorem setSelector_compute_agentsArr (mid : String)
    (g4 : List (String × JVal)) (aes : List JVal)
    (aps df : List (String × JVal)) (c4 : JVal) (hc4 : c4 = .jobj g4)
    (hA : lookupField g4 "agents" = some (.jarr aes aps))
    (hD : lookupField aps "defaults" = some (.jobj df)) :
    setSelector mid c4 =
      if isStrVal (primaryValD (lookupField df "model")) ("ollama/" ++ mid) then
        .ok c4
      else
        .ok (.jobj (setField g4 "agents" (.jarr aes (setField aps "defaults"
          (.jobj (setField df "model"
            (.jobj [("primary", .jstr ("ollama/" ++ mid))]))))))) := by
  subst hc4
  unfold setSelector
  have hdi : canonIndex? "defaults" = none := rfl
  have h1 : readProp (.jobj g4) "agents" = .ok (some (.jarr aes aps)) := by
    simp [readProp, hA]
  have h2 : readAt (.jobj g4) ["agents", "defaults"]
      = .ok (some (.jobj df)) := by
    simp [readAt, readProp, hA, hD, getKey, hdi]
  have h3 : readAt (.jobj g4) ["agents", "defaults", "model"]
      = .ok (lookupField df "model") := by
    simp [readAt, readProp, hA, hD, getKey, hdi]
  have h4 : assignAt (.jobj g4) ["agents", "defaults"] "model"
      (.jobj [("primary", .jstr ("ollama/" ++ mid))])
      = .ok (.jobj (setField g4 "agents" (.jarr aes (setField aps "defaults"
        (.jobj (setField df "model"
          (.jobj [("primary", .jstr ("ollama/" ++ mid))]))))))) := by
    simp [assignAt, readProp, hA, hD, getKey, hdi, writeProp, setKey]
  rw [h1]
  simp only [Bind.bind, Except.bind, guardAssign, truthyOpt, truthy, if_true]
  simp only [pure, Except.pure]
  rw [h2]
  simp only [truthyOpt, truthy, if_true]
  rw [h3]
  simp only []
  rw [primaryOf_ok]
  simp only []
  by_cases hs : isStrVal (primaryValD (lookupField df "model"))
      ("ollama/" ++ mid) = true
  · rw [if_pos hs, if_pos hs]
  · rw [if_neg hs, if_neg hs, h4]

theorem ensure_identity_objobj (env : Env) (c : JVal)
    (g mfs pfs ef : List (String × JVal)) (hc : c = .jobj g)
    (hm : lookupField g "models" = some (.jobj mfs))
    (hp : lookupField mfs "providers" = some (.jobj pfs))
    (ho : lookupField pfs "ollama" = some (.jobj ef))
    (htake : (ef.map Prod.fst).take 4 = ["baseUrl", "apiKey", "api", "authHeader"])
    (hnd : (ef.map Prod.fst).Nodup) :
    ensureProviderEntry env c = .ok c := by
  rw [ensure_compute_obj_obj env c g mfs pfs hc hm hp]
  rw [ho]
  rw [show jsOr (some (.jobj ef)) (.jobj []) = .jobj ef from by
    simp [jsOr, truthy]]
  rw [show spreadFields (.jobj ef) = ef from rfl]
  rw [applyFields_base4_absorb env ef htake hnd]
  rw [setField_self pfs "ollama" _ ho]
  rw [setField_self mfs "providers" _ hp]
  rw [setField_self g "models" _ hm]
  rw [hc]

theorem deepMerge_defaultsInner_obj (dfs : List (String × JVal)) :
    deepMerge (.jobj dfs) defaultsInner
      = .jobj (setField dfs "tools"
          (deepMerge (mergeBase (lookupField dfs "tools")) toolsInner)) := by
  show deepMergeFields (.jobj dfs) [("tools", toolsInner)] = _
  simp [deepMergeFields, show isMergeableObj toolsInner = true from rfl,
    setKey, getKey]

theorem deepMerge_defaultsInner_arr (des : List JVal)
    (dps : List (String × JVal)) :
    deepMerge (.jarr des dps) defaultsInner
      = .jarr des (setField dps "tools"
          (deepMerge (mergeBase (lookupField dps "tools")) toolsInner)) := by
  show deepMergeFields (.jarr des dps) [("tools", toolsInner)] = _
  have hidx : canonIndex? "tools" = none := rfl
  simp [deepMergeFields, show isMergeableObj toolsInner = true from rfl,
    setKey_arr_nonidx des dps "tools" _ hidx, getKey, hidx]

theorem deepMerge_agentsInner_arr (aes : List JVal)
    (aps : List (String × JVal)) :
    deepMerge (.jarr aes aps) agentsInner
      = .jarr aes (setField aps "defaults"
          (deepMerge (mergeBase (lookupField aps "defaults")) defaultsInner)) := by
  show deepMergeFields (.jarr aes aps) [("defaults", defaultsInner)] = _
  have hidx : canonIndex? "defaults" = none := rfl
  simp [deepMergeFields, isMergeableObj_defaultsInner,
    setKey_arr_nonidx aes aps "defaults" _ hidx, getKey, hidx]

theorem provisionOllama_build (env : Env) (mid : String) (c c3 c4 cfg : JVal)
    (hmid : mid = env.ollamaModel.getD "")
    (hm : truthyStr env.ollamaModel = true)
    (h3 : ensureProviderEntry env c = .ok c3)
    (h4 : addModelEntry env mid c3 = .ok c4)
    (h5 : setSelector mid c4 = .ok cfg) :
    provisionOllama env c = .ok cfg := by
  subst hmid
  unfold provisionOllama
  rw [h3]
  simp only [Bind.bind, Except.bind, hm, if_true]
  rw [h4]
  simp only []
  exact h5

theorem runMain_build (env : Env) (c0 cfg : JVal) (ho : isObjLike c0 = true)
    (hu : truthyStr env.ollamaUrl = true)
    (hk : truthyStr env.ollamaKey = true)
    (hp : provisionOllama env
      (deepMerge (forceMerge c0 gatewayDefaults) agentDefaults) = .ok cfg) :
    runMain env c0 = some cfg := by
  unfold runMain
  rw [if_pos ho, hu, hk]
  simp only [Bool.and_self, if_true]
  rw [hp]
  rfl

theorem addModel_error_scalarProviders (env : Env) (mid : String) (c3 : JVal)
    (g mfs : List (String × JVal)) (pv : JVal)
    (hc3 : c3 = .jobj g)
    (hm : lookupField g "models" = some (.jobj mfs))
    (hp : lookupField mfs "providers" = some pv)
    (htr : truthy pv = true) (hsc : isObjLike pv = false) :
    addModelEntry env mid c3 = .error () := by
  subst hc3
  unfold addModelEntry
  have h1 : readAt (.jobj g) ["models", "providers", "ollama", "models"]
      = .error () := by
    cases pv with
    | jbool b => simp [readAt, readProp, hm, hp]
    | jnum n => simp [readAt, readProp, hm, hp]
    | jstr str => simp [readAt, readProp, hm, hp]
    | jnull => simp [truthy] at htr
    | jobj fs => simp [isObjLike] at hsc
    | jarr es ps => simp [isObjLike] at hsc
  rw [h1]
  rfl

/-! ## Lemmas: the provisioning stages on a re-serialized document -/

theorem models_rt_objobj_ensure (env : Env)
    (m1f p1f e1f : List (String × JVal))
    (hp1 : lookupField m1f "providers" = some (.jobj p1f))
    (ho1 : lookupField p1f "ollama" = some (.jobj e1f))
    (htake : (e1f.map Prod.fst).take 4
      = ["baseUrl", "apiKey", "api", "authHeader"])
    (hnd : (e1f.map Prod.fst).Nodup)
    (uf : List (String × JVal))
    (hum : lookupField uf "models" = some (serialize (.jobj m1f))) :
    ensureProviderEntry env (.jobj uf) = .ok (.jobj uf) := by
  have hum' : lookupField uf "models"
      = some (.jobj (serializeFields m1f)) := hum
  have hp' : lookupField (serializeFields m1f) "providers"
      = some (.jobj (serializeFields p1f)) := by
    rw [serializeFields_lookup, hp1]; rfl
  have ho' : lookupField (serializeFields p1f) "ollama"
      = some (.jobj (serializeFields e1f)) := by
    rw [serializeFields_lookup, ho1]; rfl
  have htake' : (((serializeFields e1f).map Prod.fst)).take 4
      = ["baseUrl", "apiKey", "api", "authHeader"] := by
    rw [serializeFields_keys]; exact htake
  have hnd' : ((serializeFields e1f).map Prod.fst).Nodup := by
    rw [serializeFields_keys]; exact hnd
  exact ensure_identity_objobj env (.jobj uf) uf _ _ _ rfl hum' hp' ho'
    htake' hnd'

theorem models_rt_objobj (env : Env) (mid : String)
    (m1f p1f e1f : List (String × JVal)) (mes1 : List JVal)
    (mps1 : List (String × JVal))
    (hp1 : lookupField m1f "providers" = some (.jobj p1f))
    (ho1 : lookupField p1f "ollama" = some (.jobj e1f))
    (htake : (e1f.map Prod.fst).take 4
      = ["baseUrl", "apiKey", "api", "authHeader"])
    (hnd : (e1f.map Prod.fst).Nodup)
    (hlv : lookupField e1f "models" = some (.jarr mes1 mps1))
    (hsi : someIdEq (serializeList mes1) mid = .ok true)
    (uf : List (String × JVal))
    (hum : lookupField uf "models" = some (serialize (.jobj m1f))) :
    ∃ Na N2,
      ensureProviderEntry env (.jobj uf)
        = .ok (.jobj (setField uf "models" Na)) ∧
      addModelEntry env mid (.jobj (setField uf "models" Na))
        = .ok (.jobj (setField uf "models" N2)) ∧
      serialize N2 = serialize (.jobj m1f) := by
  refine ⟨serialize (.jobj m1f), serialize (.jobj m1f), ?_, ?_, serialize_idem _⟩
  · rw [setField_self uf "models" _ hum]
    exact models_rt_objobj_ensure env m1f p1f e1f hp1 ho1 htake hnd uf hum
  · rw [setField_self uf "models" _ hum]
    have hum' : lookupField uf "models"
        = some (.jobj (serializeFields m1f)) := hum
    have hp' : lookupField (serializeFields m1f) "providers"
        = some (.jobj (serializeFields p1f)) := by
      rw [serializeFields_lookup, hp1]; rfl
    have ho' : lookupField (serializeFields p1f) "ollama"
        = some (.jobj (serializeFields e1f)) := by
      rw [serializeFields_lookup, ho1]; rfl
    have hlv' : lookupField (serializeFields e1f) "models"
        = some (.jarr (serializeList mes1) []) := by
      rw [serializeFields_lookup, hlv]; rfl
    have h := addModel_compute_entryObj env mid (.jobj uf) uf _ _ _
      (serializeList mes1) [] true rfl hum' hp' ho' hlv' hsi
    simpa using h

theorem models_rt_provArr_ensure (env : Env)
    (m1f : List (String × JVal)) (pes1 : List JVal)
    (pps1 : List (String × JVal))
    (hp1 : lookupField m1f "providers" = some (.jarr pes1 pps1))
    (uf : List (String × JVal))
    (hum : lookupField uf "models" = some (serialize (.jobj m1f))) :
    ensureProviderEntry env (.jobj uf)
      = .ok (.jobj (setField uf "models"
          (.jobj (setField (serializeFields m1f) "providers"
            (.jarr (serializeList pes1)
              [("ollama", .jobj (baseEntryFields env))]))))) ∧
    serialize (JVal.jobj (setField (serializeFields m1f) "providers"
        (.jarr (serializeList pes1)
          [("ollama", .jobj (baseEntryFields env))])))
      = serialize (.jobj m1f) := by
  have hum' : lookupField uf "models"
      = some (.jobj (serializeFields m1f)) := hum
  have hp' : lookupField (serializeFields m1f) "providers"
      = some (.jarr (serializeList pes1) []) := by
    rw [serializeFields_lookup, hp1]; rfl
  constructor
  · exact ensure_compute_obj_arrProviders env (.jobj uf) uf _
      (serializeList pes1) rfl hum' hp'
  · rw [show serialize (JVal.jobj (setField (serializeFields m1f) "providers"
        (.jarr (serializeList pes1)
          [("ollama", .jobj (baseEntryFields env))])))
        = .jobj (serializeFields (setField (serializeFields m1f) "providers"
          (.jarr (serializeList pes1)
            [("ollama", .jobj (baseEntryFields env))]))) from rfl]
    rw [serializeFields_setField, serializeFields_idem]
    rw [show serialize (JVal.jarr (serializeList pes1)
        [("ollama", .jobj (baseEntryFields env))])
        = .jarr (serializeList (serializeList pes1)) [] from rfl]
    rw [serializeList_idem]
    rw [setField_self _ "providers" _ hp']
    rfl

theorem models_rt_provArr (env : Env) (mid : String)
    (m1f : List (String × JVal)) (pes1 : List JVal)
    (pps1 : List (String × JVal))
    (hp1 : lookupField m1f "providers" = some (.jarr pes1 pps1))
    (uf : List (String × JVal))
    (hum : lookupField uf "models" = some (serialize (.jobj m1f))) :
    ∃ Na N2,
      ensureProviderEntry env (.jobj uf)
        = .ok (.jobj (setField uf "models" Na)) ∧
      addModelEntry env mid (.jobj (setField uf "models" Na))
        = .ok (.jobj (setField uf "models" N2)) ∧
      serialize N2 = serialize (.jobj m1f) := by
  have hp' : lookupField (serializeFields m1f) "providers"
      = some (.jarr (serializeList pes1) []) := by
    rw [serializeFields_lookup, hp1]; rfl
  obtain ⟨hens, -⟩ := models_rt_provArr_ensure env m1f pes1 pps1 hp1 uf hum
  refine ⟨.jobj (setField (serializeFields m1f) "providers"
      (.jarr (serializeList pes1) [("ollama", .jobj (baseEntryFields env))])),
    .jobj (setField (setField (serializeFields m1f) "providers"
        (.jarr (serializeList pes1) [("ollama", .jobj (baseEntryFields env))]))
      "providers"
      (.jarr (serializeList pes1) (setField
        [("ollama", .jobj (baseEntryFields env))] "ollama"
        (.jobj (setField (baseEntryFields env) "models"
          (.jarr [mkModelEntry mid
            (effectiveContextWindow env.ollamaContextWindow)] [])))))),
    hens, ?_, ?_⟩
  · have h := addModel_compute_provArr env mid
      (.jobj (setField uf "models" (.jobj (setField (serializeFields m1f)
        "providers" (.jarr (serializeList pes1)
          [("ollama", .jobj (baseEntryFields env))])))))
      (setField uf "models" (.jobj (setField (serializeFields m1f)
        "providers" (.jarr (serializeList pes1)
          [("ollama", .jobj (baseEntryFields env))]))))
      (setField (serializeFields m1f) "providers"
        (.jarr (serializeList pes1) [("ollama", .jobj (baseEntryFields env))]))
      (serializeList pes1)
      [("ollama", .jobj (baseEntryFields env))]
      (baseEntryFields env)
      rfl (lookupField_setField_self _ _ _) (lookupField_setField_self _ _ _)
      rfl rfl
    rw [h]
    rw [setField_setField_same]
  · rw [show serialize (JVal.jobj (setField (setField (serializeFields m1f)
        "providers" (.jarr (serializeList pes1)
          [("ollama", .jobj (baseEntryFields env))])) "providers"
        (.jarr (serializeList pes1) (setField
          [("ollama", .jobj (baseEntryFields env))] "ollama"
          (.jobj (setField (baseEntryFields env) "models"
            (.jarr [mkModelEntry mid
              (effectiveContextWindow env.ollamaContextWindow)] [])))))))
        = .jobj (serializeFields (setField (setField (serializeFields m1f)
          "providers" (.jarr (serializeList pes1)
            [("ollama", .jobj (baseEntryFields env))])) "providers"
          (.jarr (serializeList pes1) (setField
            [("ollama", .jobj (baseEntryFields env))] "ollama"
            (.jobj (setField (baseEntryFields env) "models"
              (.jarr [mkModelEntry mid
                (effectiveContextWindow env.ollamaContextWindow)] [])))))))
        from rfl]
    rw [serializeFields_setField, serializeFields_setField,
      serializeFields_idem]
    rw [setField_setField_same]
    rw [show serialize (JVal.jarr (serializeList pes1) (setField
        [("ollama", .jobj (baseEntryFields env))] "ollama"
        (.jobj (setField (baseEntryFields env) "models"
          (.jarr [mkModelEntry mid
            (effectiveContextWindow env.ollamaContextWindow)] [])))))
        = .jarr (serializeList (serializeList pes1)) [] from rfl]
    rw [serializeList_idem]
    rw [setField_self _ "providers" _ hp']
    rfl

theorem models_rt_arrModels_ensure (env : Env)
    (mes1 : List JVal) (mps1 : List (String × JVal))
    (uf : List (String × JVal))
    (hum : lookupField uf "models" = some (serialize (.jarr mes1 mps1))) :
    ensureProviderEntry env (.jobj uf)
      = .ok (.jobj (setField uf "models"
          (.jarr (serializeList mes1) [("providers",
            .jobj [("ollama", .jobj (baseEntryFields env))])]))) ∧
    serialize (JVal.jarr (serializeList mes1) [("providers",
        .jobj [("ollama", .jobj (baseEntryFields env))])])
      = serialize (.jarr mes1 mps1) := by
  have hum' : lookupField uf "models"
      = some (.jarr (serializeList mes1) []) := hum
  constructor
  · exact ensure_compute_arrModels env (.jobj uf) uf (serializeList mes1)
      rfl hum'
  · rw [show serialize (JVal.jarr (serializeList mes1) [("providers",
        .jobj [("ollama", .jobj (baseEntryFields env))])])
        = .jarr (serializeList (serializeList mes1)) [] from rfl]
    rw [serializeList_idem]
    rfl

theorem models_rt_arrModels (env : Env) (mid : String)
    (mes1 : List JVal) (mps1 : List (String × JVal))
    (uf : List (String × JVal))
    (hum : lookupField uf "models" = some (serialize (.jarr mes1 mps1))) :
    ∃ Na N2,
      ensureProviderEntry env (.jobj uf)
        = .ok (.jobj (setField uf "models" Na)) ∧
      addModelEntry env mid (.jobj (setField uf "models" Na))
        = .ok (.jobj (setField uf "models" N2)) ∧
      serialize N2 = serialize (.jarr mes1 mps1) := by
  obtain ⟨hens, -⟩ := models_rt_arrModels_ensure env mes1 mps1 uf hum
  refine ⟨.jarr (serializeList mes1) [("providers",
      .jobj [("ollama", .jobj (baseEntryFields env))])],
    .jarr (serializeList mes1) (setField [("providers",
      .jobj [("ollama", .jobj (baseEntryFields env))])] "providers"
      (.jobj (setField [("ollama", .jobj (baseEntryFields env))] "ollama"
        (.jobj (setField (baseEntryFields env) "models"
          (.jarr [mkModelEntry mid
            (effectiveContextWindow env.ollamaContextWindow)] [])))))),
    hens, ?_, ?_⟩
  · have h := addModel_compute_modArr env mid
      (.jobj (setField uf "models" (.jarr (serializeList mes1) [("providers",
        .jobj [("ollama", .jobj (baseEntryFields env))])])))
      (setField uf "models" (.jarr (serializeList mes1) [("providers",
        .jobj [("ollama", .jobj (baseEntryFields env))])]))
      (serializeList mes1)
      [("providers", .jobj [("ollama", .jobj (baseEntryFields env))])]
      [("ollama", .jobj (baseEntryFields env))]
      (baseEntryFields env)
      rfl (lookupField_setField_self _ _ _) rfl rfl rfl
    rw [h]
    rw [setField_setField_same]
  · rw [show serialize (JVal.jarr (serializeList mes1) (setField [("providers",
        .jobj [("ollama", .jobj (baseEntryFields env))])] "providers"
        (.jobj (setField [("ollama", .jobj (baseEntryFields env))] "ollama"
          (.jobj (setField (baseEntryFields env) "models"
            (.jarr [mkModelEntry mid
              (effectiveContextWindow env.ollamaContextWindow)] [])))))))
        = .jarr (serializeList (serializeList mes1)) [] from rfl]
    rw [serializeList_idem]
    rfl

theorem models_rt_scalarProviders_ensure (env : Env)
    (m1f : List (String × JVal)) (pv : JVal)
    (hp1 : lookupField m1f "providers" = some pv)
    (htr : truthy pv = true) (hsc : isObjLike pv = false)
    (hfix : serialize pv = pv)
    (uf : List (String × JVal))
    (hum : lookupField uf "models" = some (serialize (.jobj m1f))) :
    ensureProviderEntry env (.jobj uf) = .ok (.jobj uf) := by
  have hum' : lookupField uf "models"
      = some (.jobj (serializeFields m1f)) := hum
  have hp' : lookupField (serializeFields m1f) "providers" = some pv := by
    rw [serializeFields_lookup, hp1]
    show some (serialize pv) = some pv
    rw [hfix]
  exact ensure_compute_obj_scalarProviders env (.jobj uf) uf _ pv rfl
    hum' hp' htr hsc

theorem agents_stab_objobj (af df : List (String × JVal)) (T : JVal)
    (hd : lookupField af "defaults" = some (.jobj df))
    (hT : lookupField df "tools" = some T)
    (hTo : isObjLike T = true)
    (hTs : serialize (deepMerge (serialize T) toolsInner) = serialize T) :
    serialize (deepMerge (serialize (.jobj af)) agentsInner)
      = serialize (.jobj af) := by
  have hDs : serialize (deepMerge (serialize (.jobj df)) defaultsInner)
      = serialize (.jobj df) := by
    have := dm_single_stable "tools" toolsInner rfl df T hT hTo hTs
    exact this
  exact dm_single_stable "defaults" defaultsInner rfl af (.jobj df) hd rfl hDs

theorem selector_rt_objobj (mid : String) (af df : List (String × JVal))
    (T : JVal)
    (hd : lookupField af "defaults" = some (.jobj df))
    (hT : lookupField df "tools" = some T)
    (hTo : isObjLike T = true)
    (hTs : serialize (deepMerge (serialize T) toolsInner) = serialize T)
    (hprim : isStrVal (primaryValD ((lookupField df "model").map serialize))
      ("ollama/" ++ mid) = true)
    (vf : List (String × JVal))
    (hv : lookupField vf "agents"
      = some (deepMerge (serialize (.jobj af)) agentsInner)) :
    ∃ A3, setSelector mid (.jobj vf) = .ok (.jobj (setField vf "agents" A3)) ∧
      serialize A3 = serialize (.jobj af) := by
  have hA2 : deepMerge (serialize (.jobj af)) agentsInner
      = .jobj (setField (serializeFields af) "defaults"
          (.jobj (setField (serializeFields df) "tools"
            (deepMerge (serialize T) toolsInner)))) := by
    rw [show serialize (JVal.jobj af) = .jobj (serializeFields af) from rfl]
    rw [deepMerge_agentsInner_obj]
    rw [show lookupField (serializeFields af) "defaults"
        = some (.jobj (serializeFields df)) from by
      rw [serializeFields_lookup, hd]; rfl]
    rw [show mergeBase (some (.jobj (serializeFields df)))
        = .jobj (serializeFields df) from rfl]
    rw [deepMerge_defaultsInner_obj]
    rw [show lookupField (serializeFields df) "tools"
        = some (serialize T) from by
      rw [serializeFields_lookup, hT]; rfl]
    rw [mergeBase_objLike _ (by rw [serialize_objLike]; exact hTo)]
  have hv' : lookupField vf "agents"
      = some (.jobj (setField (serializeFields af) "defaults"
          (.jobj (setField (serializeFields df) "tools"
            (deepMerge (serialize T) toolsInner))))) := by
    rw [hv, hA2]
  have hsel := setSelector_compute mid vf
    (setField (serializeFields af) "defaults"
      (.jobj (setField (serializeFields df) "tools"
        (deepMerge (serialize T) toolsInner))))
    (setField (serializeFields df) "tools" (deepMerge (serialize T) toolsInner))
    (.jobj vf) rfl hv' (lookupField_setField_self _ _ _)
  rw [show lookupField (setField (serializeFields df) "tools"
      (deepMerge (serialize T) toolsInner)) "model"
      = (lookupField df "model").map serialize from by
    rw [lookupField_setField_ne _ _ _ _ (by decide)]
    exact serializeFields_lookup df "model"] at hsel
  rw [if_pos hprim] at hsel
  refine ⟨deepMerge (serialize (.jobj af)) agentsInner, ?_, ?_⟩
  · rw [hsel]
    rw [show (deepMerge (serialize (.jobj af)) agentsInner)
        = .jobj (setField (serializeFields af) "defaults"
          (.jobj (setField (serializeFields df) "tools"
            (deepMerge (serialize T) toolsInner)))) from hA2]
    rw [setField_self vf "agents" _ hv']
  · exact agents_stab_objobj af df T hd hT hTo hTs

theorem dm_serarr_defaultsInner (des : List JVal) :
    deepMerge (.jarr des []) defaultsInner
      = .jarr des [("tools", toolsInner)] := by
  rw [deepMerge_defaultsInner_arr]
  rfl

theorem dm_serarr_agentsInner (aes : List JVal) :
    deepMerge (.jarr aes []) agentsInner
      = .jarr aes [("defaults", defaultsInner)] := by
  rw [deepMerge_agentsInner_arr]
  rfl

theorem agents_stab_defaultsArr (af : List (String × JVal)) (des : List JVal)
    (dps : List (String × JVal))
    (hd : lookupField af "defaults" = some (.jarr des dps)) :
    serialize (deepMerge (serialize (.jobj af)) agentsInner)
      = serialize (.jobj af) := by
  have hDs : serialize (deepMerge (serialize (.jarr des dps)) defaultsInner)
      = serialize (.jarr des dps) := by
    rw [show serialize (JVal.jarr des dps)
        = .jarr (serializeList des) [] from rfl]
    rw [dm_serarr_defaultsInner]
    rw [show serialize (JVal.jarr (serializeList des) [("tools", toolsInner)])
        = .jarr (serializeList (serializeList des)) [] from rfl]
    rw [serializeList_idem]
  exact dm_single_stable "defaults" defaultsInner rfl af (.jarr des dps)
    hd rfl hDs

theorem agents_stab_arr (aes : List JVal) (aps : List (String × JVal)) :
    serialize (deepMerge (serialize (.jarr aes aps)) agentsInner)
      = serialize (.jarr aes aps) := by
  rw [show serialize (JVal.jarr aes aps)
      = .jarr (serializeList aes) [] from rfl]
  rw [dm_serarr_agentsInner]
  rw [show serialize (JVal.jarr (serializeList aes)
      [("defaults", defaultsInner)])
      = .jarr (serializeList (serializeList aes)) [] from rfl]
  rw [serializeList_idem]

theorem selector_rt_defaultsArr (mid : String) (af : List (String × JVal))
    (des : List JVal) (dps : List (String × JVal))
    (hd : lookupField af "defaults" = some (.jarr des dps))
    (vf : List (String × JVal))
    (hv : lookupField vf "agents"
      = some (deepMerge (serialize (.jobj af)) agentsInner)) :
    ∃ A3, setSelector mid (.jobj vf) = .ok (.jobj (setField vf "agents" A3)) ∧
      serialize A3 = serialize (.jobj af) := by
  have hA2 : deepMerge (serialize (.jobj af)) agentsInner
      = .jobj (setField (serializeFields af) "defaults"
          (.jarr (serializeList des) [("tools", toolsInner)])) := by
    rw [show serialize (JVal.jobj af) = .jobj (serializeFields af) from rfl]
    rw [deepMerge_agentsInner_obj]
    rw [show lookupField (serializeFields af) "defaults"
        = some (.jarr (serializeList des) []) from by
      rw [serializeFields_lookup, hd]; rfl]
    rw [show mergeBase (some (.jarr (serializeList des) []))
        = .jarr (serializeList des) [] from rfl]
    rw [dm_serarr_defaultsInner]
  have hv' : lookupField vf "agents"
      = some (.jobj (setField (serializeFields af) "defaults"
          (.jarr (serializeList des) [("tools", toolsInner)]))) := by
    rw [hv, hA2]
  have hsel := setSelector_compute_defaultsArr mid vf
    (setField (serializeFields af) "defaults"
      (.jarr (serializeList des) [("tools", toolsInner)]))
    (serializeList des) [("tools", toolsInner)]
    (.jobj vf) rfl hv' (lookupField_setField_self _ _ _)
  rw [show isStrVal (primaryValD (lookupField [("tools", toolsInner)] "model"))
      ("ollama/" ++ mid) = false from rfl] at hsel
  simp only [Bool.false_eq_true, if_false] at hsel
  refine ⟨.jobj (setField (setField (serializeFields af) "defaults"
      (.jarr (serializeList des) [("tools", toolsInner)])) "defaults"
      (.jarr (serializeList des) (setField [("tools", toolsInner)] "model"
        (.jobj [("primary", .jstr ("ollama/" ++ mid))])))), hsel, ?_⟩
  rw [show serialize (JVal.jobj (setField (setField (serializeFields af)
      "defaults" (.jarr (serializeList des) [("tools", toolsInner)]))
      "defaults" (.jarr (serializeList des)
        (setField [("tools", toolsInner)] "model"
          (.jobj [("primary", .jstr ("ollama/" ++ mid))])))))
      = .jobj (serializeFields (setField (setField (serializeFields af)
        "defaults" (.jarr (serializeList des) [("tools", toolsInner)]))
        "defaults" (.jarr (serializeList des)
          (setField [("tools", toolsInner)] "model"
            (.jobj [("primary", .jstr ("ollama/" ++ mid))]))))) from rfl]
  rw [serializeFields_setField, serializeFields_setField, serializeFields_idem]
  rw [setField_setField_same]
  rw [show serialize (JVal.jarr (serializeList des)
      (setField [("tools", toolsInner)] "model"
        (.jobj [("primary", .jstr ("ollama/" ++ mid))])))
      = .jarr (serializeList (serializeList des)) [] from rfl]
  rw [serializeList_idem]
  rw [setField_self _ "defaults" _ (by
    rw [serializeFields_lookup, hd]; rfl)]
  rfl

theorem selector_rt_agentsArr (mid : String) (aes : List JVal)
    (aps : List (String × JVal))
    (vf : List (String × JVal))
    (hv : lookupField vf "agents"
      = some (deepMerge (serialize (.jarr aes aps)) agentsInner)) :
    ∃ A3, setSelector mid (.jobj vf) = .ok (.jobj (setField vf "agents" A3)) ∧
      serialize A3 = serialize (.jarr aes aps) := by
  have hA2 : deepMerge (serialize (.jarr aes aps)) agentsInner
      = .jarr (serializeList aes) [("defaults", defaultsInner)] := by
    rw [show serialize (JVal.jarr aes aps)
        = .jarr (serializeList aes) [] from rfl]
    rw [dm_serarr_agentsInner]
  have hv' : lookupField vf "agents"
      = some (.jarr (serializeList aes) [("defaults", defaultsInner)]) := by
    rw [hv, hA2]
  have hsel := setSelector_compute_agentsArr mid vf
    (serializeList aes) [("defaults", defaultsInner)] [("tools", toolsInner)]
    (.jobj vf) rfl hv' rfl
  rw [show isStrVal (primaryValD (lookupField [("tools", toolsInner)] "model"))
      ("ollama/" ++ mid) = false from rfl] at hsel
  simp only [Bool.false_eq_true, if_false] at hsel
  refine ⟨.jarr (serializeList aes)
      (setField [("defaults", defaultsInner)] "defaults"
        (.jobj (setField [("tools", toolsInner)] "model"
          (.jobj [("primary", .jstr ("ollama/" ++ mid))])))), hsel, ?_⟩
  rw [show serialize (JVal.jarr (serializeList aes)
      (setField [("defaults", defaultsInner)] "defaults"
        (.jobj (setField [("tools", toolsInner)] "model"
          (.jobj [("primary", .jstr ("ollama/" ++ mid))])))))
      = .jarr (serializeList (serializeList aes)) [] from rfl]
  rw [serializeList_idem]
  rfl

theorem provision_roundtrip_model (env : Env) (mid : String)
    (cf : List (String × JVal)) (G1 AS N1 : JVal)
    (hmid : mid = env.ollamaModel.getD "")
    (hmod : truthyStr env.ollamaModel = true)
    (hu : truthyStr env.ollamaUrl = true)
    (hk : truthyStr env.ollamaKey = true)
    (hgw : lookupField cf "gateway" = some G1)
    (hG1 : ∃ x, G1 = forceMerge (mergeBase x) gatewayInner)
    (hag : lookupField cf "agents" = some AS)
    (hASo : isObjLike AS = true)
    (hN : lookupField cf "models" = some N1)
    (hStab : serialize (deepMerge (serialize AS) agentsInner) = serialize AS)
    (HM : ∀ uf, lookupField uf "models" = some (serialize N1) →
      ∃ Na N2, ensureProviderEntry env (.jobj uf)
          = .ok (.jobj (setField uf "models" Na)) ∧
        addModelEntry env mid (.jobj (setField uf "models" Na))
          = .ok (.jobj (setField uf "models" N2)) ∧
        serialize N2 = serialize N1)
    (HA : ∀ vf, lookupField vf "agents"
        = some (deepMerge (serialize AS) agentsInner) →
      ∃ A3, setSelector mid (.jobj vf)
          = .ok (.jobj (setField vf "agents" A3)) ∧
        serialize A3 = serialize AS) :
    persistedAfter env (serialize (.jobj cf)) = serialize (.jobj cf) := by
  have hsdg : lookupField (serializeFields cf) "gateway"
      = some (serialize G1) := by
    rw [serializeFields_lookup, hgw]; rfl
  have hsda : lookupField (serializeFields cf) "agents"
      = some (serialize AS) := by
    rw [serializeFields_lookup, hag]; rfl
  have hsdm : lookupField (serializeFields cf) "models"
      = some (serialize N1) := by
    rw [serializeFields_lookup, hN]; rfl
  have hG1o : isObjLike G1 = true := by
    obtain ⟨x, rfl⟩ := hG1
    exact fm_mergeBase_objLike x gatewayInner rfl
  have hm1 : forceMerge (.jobj (serializeFields cf)) gatewayDefaults
      = .jobj (setField (serializeFields cf) "gateway"
          (forceMerge (serialize G1) gatewayInner)) := by
    rw [forceMerge_gd_obj, hsdg]
    rw [mergeBase_objLike _ (by rw [serialize_objLike]; exact hG1o)]
  have hm2 : deepMerge (.jobj (setField (serializeFields cf) "gateway"
      (forceMerge (serialize G1) gatewayInner))) agentDefaults
      = .jobj (setField (setField (serializeFields cf) "gateway"
          (forceMerge (serialize G1) gatewayInner)) "agents"
          (deepMerge (serialize AS) agentsInner)) := by
    rw [deepMerge_ad_obj]
    rw [lookupField_setField_ne _ "agents" "gateway" _ (by decide), hsda]
    rw [mergeBase_objLike _ (by rw [serialize_objLike]; exact hASo)]
  have hum : lookupField (setField (setField (serializeFields cf) "gateway"
      (forceMerge (serialize G1) gatewayInner)) "agents"
      (deepMerge (serialize AS) agentsInner)) "models"
      = some (serialize N1) := by
    rw [lookupField_setField_ne _ "models" "agents" _ (by decide)]
    rw [lookupField_setField_ne _ "models" "gateway" _ (by decide)]
    exact hsdm
  obtain ⟨Na, N2, hens, hadd, hN2⟩ := HM _ hum
  have hva : lookupField (setField (setField (setField (serializeFields cf)
      "gateway" (forceMerge (serialize G1) gatewayInner)) "agents"
      (deepMerge (serialize AS) agentsInner)) "models" N2) "agents"
      = some (deepMerge (serialize AS) agentsInner) := by
    rw [lookupField_setField_ne _ "agents" "models" _ (by decide)]
    exact lookupField_setField_self _ _ _
  obtain ⟨A3, hsel, hA3⟩ := HA _ hva
  have hprov : provisionOllama env (.jobj (setField (setField
      (serializeFields cf) "gateway" (forceMerge (serialize G1) gatewayInner))
      "agents" (deepMerge (serialize AS) agentsInner)))
      = .ok (.jobj (setField (setField (setField (setField
          (serializeFields cf) "gateway"
          (forceMerge (serialize G1) gatewayInner)) "agents"
          (deepMerge (serialize AS) agentsInner)) "models" N2)
          "agents" A3)) := by
    exact provisionOllama_build env mid _ _ _ _ hmid hmod hens hadd hsel
  have hrun2 : runMain env (.jobj (serializeFields cf))
      = some (.jobj (setField (setField (setField (setField
          (serializeFields cf) "gateway"
          (forceMerge (serialize G1) gatewayInner)) "agents"
          (deepMerge (serialize AS) agentsInner)) "models" N2)
          "agents" A3)) := by
    refine runMain_build env _ _ rfl hu hk ?_
    rw [hm1, hm2]
    exact hprov
  rw [show serialize (JVal.jobj cf) = .jobj (serializeFields cf) from rfl]
  unfold persistedAfter
  rw [hrun2]
  simp only []
  rw [show serialize (JVal.jobj (setField (setField (setField (setField
      (serializeFields cf) "gateway" (forceMerge (serialize G1) gatewayInner))
      "agents" (deepMerge (serialize AS) agentsInner)) "models" N2)
      "agents" A3))
      = .jobj (serializeFields (setField (setField (setField (setField
        (serializeFields cf) "gateway"
        (forceMerge (serialize G1) gatewayInner)) "agents"
        (deepMerge (serialize AS) agentsInner)) "models" N2)
        "agents" A3)) from rfl]
  rw [serializeFields_setField, serializeFields_setField,
    serializeFields_setField, serializeFields_setField, serializeFields_idem]
  have hG2eq : serialize (forceMerge (serialize G1) gatewayInner)
      = serialize G1 := by
    obtain ⟨x, rfl⟩ := hG1
    exact gw_round2 x
  rw [hG2eq, hStab, hN2, hA3]
  rw [setField_self _ "gateway" _ hsdg]
  rw [setField_self _ "agents" _ hsda]
  rw [setField_self _ "models" _ hsdm]
  rw [setField_self _ "agents" _ hsda]

theorem provision_roundtrip_nomodel (env : Env)
    (cf : List (String × JVal)) (G1 AS N1 : JVal)
    (hmod : truthyStr env.ollamaModel = false)
    (hu : truthyStr env.ollamaUrl = true)
    (hk : truthyStr env.ollamaKey = true)
    (hgw : lookupField cf "gateway" = some G1)
    (hG1 : ∃ x, G1 = forceMerge (mergeBase x) gatewayInner)
    (hag : lookupField cf "agents" = some AS)
    (hASo : isObjLike AS = true)
    (hN : lookupField cf "models" = some N1)
    (hStab : serialize (deepMerge (serialize AS) agentsInner) = serialize AS)
    (HM : ∀ uf, lookupField uf "models" = some (serialize N1) →
      ∃ Na, ensureProviderEntry env (.jobj uf)
          = .ok (.jobj (setField uf "models" Na)) ∧
        serialize Na = serialize N1) :
    persistedAfter env (serialize (.jobj cf)) = serialize (.jobj cf) := by
  have hsdg : lookupField (serializeFields cf) "gateway"
      = some (serialize G1) := by
    rw [serializeFields_lookup, hgw]; rfl
  have hsda : lookupField (serializeFields cf) "agents"
      = some (serialize AS) := by
    rw [serializeFields_lookup, hag]; rfl
  have hsdm : lookupField (serializeFields cf) "models"
      = some (serialize N1) := by
    rw [serializeFields_lookup, hN]; rfl
  have hG1o : isObjLike G1 = true := by
    obtain ⟨x, rfl⟩ := hG1
    exact fm_mergeBase_objLike x gatewayInner rfl
  have hm1 : forceMerge (.jobj (serializeFields cf)) gatewayDefaults
      = .jobj (setField (serializeFields cf) "gateway"
          (forceMerge (serialize G1) gatewayInner)) := by
    rw [forceMerge_gd_obj, hsdg]
    rw [mergeBase_objLike _ (by rw [serialize_objLike]; exact hG1o)]
  have hm2 : deepMerge (.jobj (setField (serializeFields cf) "gateway"
      (forceMerge (serialize G1) gatewayInner))) agentDefaults
      = .jobj (setField (setField (serializeFields cf) "gateway"
          (forceMerge (serialize G1) gatewayInner)) "agents"
          (deepMerge (serialize AS) agentsInner)) := by
    rw [deepMerge_ad_obj]
    rw [lookupField_setField_ne _ "agents" "gateway" _ (by decide), hsda]
    rw [mergeBase_objLike _ (by rw [serialize_objLike]; exact hASo)]
  have hum : lookupField (setField (setField (serializeFields cf) "gateway"
      (forceMerge (serialize G1) gatewayInner)) "agents"
      (deepMerge (serialize AS) agentsInner)) "models"
      = some (serialize N1) := by
    rw [lookupField_setField_ne _ "models" "agents" _ (by decide)]
    rw [lookupField_setField_ne _ "models" "gateway" _ (by decide)]
    exact hsdm
  obtain ⟨Na, hens, hNa⟩ := HM _ hum
  have hprov : provisionOllama env (.jobj (setField (setField
      (serializeFields cf) "gateway" (forceMerge (serialize G1) gatewayInner))
      "agents" (deepMerge (serialize AS) agentsInner)))
      = .ok (.jobj (setField (setField (setField (serializeFields cf)
          "gateway" (forceMerge (serialize G1) gatewayInner)) "agents"
          (deepMerge (serialize AS) agentsInner)) "models" Na)) := by
    rw [provisionOllama_noModel env _ hmod]
    exact hens
  have hrun2 : runMain env (.jobj (serializeFields cf))
      = some (.jobj (setField (setField (setField (serializeFields cf)
          "gateway" (forceMerge (serialize G1) gatewayInner)) "agents"
          (deepMerge (serialize AS) agentsInner)) "models" Na)) := by
    refine runMain_build env _ _ rfl hu hk ?_
    rw [hm1, hm2]
    exact hprov
  rw [show serialize (JVal.jobj cf) = .jobj (serializeFields cf) from rfl]
  unfold persistedAfter
  rw [hrun2]
  simp only []
  rw [show serialize (JVal.jobj (setField (setField (setField
      (serializeFields cf) "gateway" (forceMerge (serialize G1) gatewayInner))
      "agents" (deepMerge (serialize AS) agentsInner)) "models" Na))
      = .jobj (serializeFields (setField (setField (setField
        (serializeFields cf) "gateway"
        (forceMerge (serialize G1) gatewayInner)) "agents"
        (deepMerge (serialize AS) agentsInner)) "models" Na)) from rfl]
  rw [serializeFields_setField, serializeFields_setField,
    serializeFields_setField, serializeFields_idem]
  have hG2eq : serialize (forceMerge (serialize G1) gatewayInner)
      = serialize G1 := by
    obtain ⟨x, rfl⟩ := hG1
    exact gw_round2 x
  rw [hG2eq, hStab, hNa]
  rw [setField_self _ "gateway" _ hsdg]
  rw [setField_self _ "agents" _ hsda]
  rw [setField_self _ "models" _ hsdm]

theorem mergeBase_fix (v : Option JVal)
    (h : ∀ w, v = some w → serialize w = w) :
    serialize (mergeBase v) = mergeBase v := by
  cases v with
  | none => rfl
  | some w =>
      have hw := h w rfl
      cases w with
      | jobj fs => exact hw
      | jarr es ps => exact hw
      | jnull => rfl
      | jbool b => rfl
      | jnum n => rfl
      | jstr s => rfl

theorem selector_post (env : Env) (mid : String) (c4 cfg : JVal)
    (c4f : List (String × JVal)) (x0 : Option JVal)
    (hc4 : c4 = .jobj c4f)
    (hag : lookupField c4f "agents"
      = some (deepMerge (mergeBase x0) agentsInner))
    (hx0fix : serialize (mergeBase x0) = mergeBase x0)
    (h5 : setSelector mid c4 = .ok cfg) :
    ∃ AS, cfg = .jobj (setField c4f "agents" AS) ∧ isObjLike AS = true ∧
      serialize (deepMerge (serialize AS) agentsInner) = serialize AS ∧
      (∀ vf, lookupField vf "agents"
          = some (deepMerge (serialize AS) agentsInner) →
        ∃ A3, setSelector mid (.jobj vf)
            = .ok (.jobj (setField vf "agents" A3)) ∧
          serialize A3 = serialize AS) := by
  have hmbo := isObjLike_mergeBase x0
  cases hmb : mergeBase x0 with
  | jnull => rw [hmb] at hmbo; simp [isObjLike] at hmbo
  | jbool b => rw [hmb] at hmbo; simp [isObjLike] at hmbo
  | jnum n => rw [hmb] at hmbo; simp [isObjLike] at hmbo
  | jstr str => rw [hmb] at hmbo; simp [isObjLike] at hmbo
  | jobj afs =>
      rw [hmb] at hag hx0fix
      have hafs : serializeFields afs = afs := serialize_fix_obj afs hx0fix
      rw [deepMerge_agentsInner_obj] at hag
      have hdfix : serialize (mergeBase (lookupField afs "defaults"))
          = mergeBase (lookupField afs "defaults") :=
        mergeBase_fix _ (fun w hw => serializeFields_fix_lookup afs hafs
          "defaults" w hw)
      have hdbo := isObjLike_mergeBase (lookupField afs "defaults")
      cases hmd : mergeBase (lookupField afs "defaults") with
      | jnull => rw [hmd] at hdbo; simp [isObjLike] at hdbo
      | jbool b => rw [hmd] at hdbo; simp [isObjLike] at hdbo
      | jnum n => rw [hmd] at hdbo; simp [isObjLike] at hdbo
      | jstr str => rw [hmd] at hdbo; simp [isObjLike] at hdbo
      | jobj dfs =>
          rw [hmd] at hag hdfix
          have hdfs : serializeFields dfs = dfs := serialize_fix_obj dfs hdfix
          rw [deepMerge_defaultsInner_obj] at hag
          have hsel := setSelector_compute mid c4f
            (setField afs "defaults" (.jobj (setField dfs "tools"
              (deepMerge (mergeBase (lookupField dfs "tools")) toolsInner))))
            (setField dfs "tools"
              (deepMerge (mergeBase (lookupField dfs "tools")) toolsInner))
            c4 hc4 hag (lookupField_setField_self _ _ _)
          rw [lookupField_setField_ne _ "model" "tools" _ (by decide)] at hsel
          have hTo : isObjLike (deepMerge (mergeBase (lookupField dfs "tools"))
              toolsInner) = true :=
            dm_mergeBase_objLike _ _ rfl
          have hTs : serialize (deepMerge (serialize (deepMerge
              (mergeBase (lookupField dfs "tools")) toolsInner)) toolsInner)
              = serialize (deepMerge (mergeBase (lookupField dfs "tools"))
                toolsInner) :=
            tools_round2 (lookupField dfs "tools")
          have hmvfix : ∀ w, lookupField dfs "model" = some w →
              serialize w = w :=
            fun w hw => serializeFields_fix_lookup dfs hdfs "model" w hw
          have hmvmap : (lookupField dfs "model").map serialize
              = lookupField dfs "model" := by
            cases hq : lookupField dfs "model" with
            | none => rfl
            | some w =>
                rw [show (some w).map serialize
                    = some (serialize w) from rfl, hmvfix w hq]
          by_cases hpm : isStrVal (primaryValD (lookupField dfs "model"))
              ("ollama/" ++ mid) = true
          · rw [if_pos hpm] at hsel
            rw [h5] at hsel
            injection hsel with hcfg
            refine ⟨.jobj (setField afs "defaults" (.jobj (setField dfs "tools"
              (deepMerge (mergeBase (lookupField dfs "tools")) toolsInner)))),
              ?_, rfl, ?_, ?_⟩
            · rw [hcfg, hc4]
              rw [setField_self c4f "agents" _ hag]
            · exact agents_stab_objobj _ _ _ (lookupField_setField_self _ _ _)
                (lookupField_setField_self _ _ _) hTo hTs
            · intro vf hv
              refine selector_rt_objobj mid _ _ _
                (lookupField_setField_self _ _ _)
                (lookupField_setField_self _ _ _) hTo hTs ?_ vf hv
              rw [lookupField_setField_ne _ "model" "tools" _ (by decide)]
              rw [hmvmap]
              exact hpm
          · rw [if_neg hpm] at hsel
            rw [h5] at hsel
            injection hsel with hcfg
            refine ⟨.jobj (setField (setField afs "defaults"
              (.jobj (setField dfs "tools" (deepMerge
                (mergeBase (lookupField dfs "tools")) toolsInner))))
              "defaults" (.jobj (setField (setField dfs "tools"
                (deepMerge (mergeBase (lookupField dfs "tools")) toolsInner))
                "model" (.jobj [("primary", .jstr ("ollama/" ++ mid))])))),
              ?_, rfl, ?_, ?_⟩
            · rw [← hcfg]
            · exact agents_stab_objobj _ _ _
                (lookupField_setField_self _ _ _)
                (by rw [lookupField_setField_ne _ "tools" "model" _ (by decide)]
                    exact lookupField_setField_self _ _ _)
                hTo hTs
            · intro vf hv
              refine selector_rt_objobj mid _ _ _
                (lookupField_setField_self _ _ _)
                (by rw [lookupField_setField_ne _ "tools" "model" _ (by decide)]
                    exact lookupField_setField_self _ _ _)
                hTo hTs ?_ vf hv
              rw [lookupField_setField_self]
              simp [primaryValD, serialize, serializeFields, lookupField,
                isStrVal]
      | jarr des dps =>
          rw [hmd] at hag hdfix
          obtain ⟨hdes, rfl⟩ := serialize_fix_arr des dps hdfix
          rw [dm_serarr_defaultsInner] at hag
          have hsel := setSelector_compute_defaultsArr mid c4f
            (setField afs "defaults" (.jarr des [("tools", toolsInner)]))
            des [("tools", toolsInner)]
            c4 hc4 hag (lookupField_setField_self _ _ _)
          rw [show isStrVal (primaryValD
              (lookupField [("tools", toolsInner)] "model"))
              ("ollama/" ++ mid) = false from rfl] at hsel
          simp only [Bool.false_eq_true, if_false] at hsel
          rw [h5] at hsel
          injection hsel with hcfg
          refine ⟨.jobj (setField (setField afs "defaults"
            (.jarr des [("tools", toolsInner)])) "defaults"
            (.jarr des (setField [("tools", toolsInner)] "model"
              (.jobj [("primary", .jstr ("ollama/" ++ mid))])))),
            by rw [← hcfg], rfl, ?_, ?_⟩
          · exact agents_stab_defaultsArr _ des _
              (lookupField_setField_self _ _ _)
          · intro vf hv
            exact selector_rt_defaultsArr mid _ des _
              (lookupField_setField_self _ _ _) vf hv
  | jarr aes aps =>
      rw [hmb] at hag hx0fix
      obtain ⟨haes, rfl⟩ := serialize_fix_arr aes aps hx0fix
      rw [dm_serarr_agentsInner] at hag
      have hsel := setSelector_compute_agentsArr mid c4f
        aes [("defaults", defaultsInner)] [("tools", toolsInner)]
        c4 hc4 hag rfl
      rw [show isStrVal (primaryValD
          (lookupField [("tools", toolsInner)] "model"))
          ("ollama/" ++ mid) = false from rfl] at hsel
      simp only [Bool.false_eq_true, if_false] at hsel
      rw [h5] at hsel
      injection hsel with hcfg
      refine ⟨.jarr aes (setField [("defaults", defaultsInner)] "defaults"
        (.jobj (setField [("tools", toolsInner)] "model"
          (.jobj [("primary", .jstr ("ollama/" ++ mid))])))),
        by rw [← hcfg], rfl, ?_, ?_⟩
      · exact agents_stab_arr aes _
      · intro vf hv
        exact selector_rt_agentsArr mid aes _ vf hv

theorem serializeList_append (xs ys : List JVal) :
    serializeList (xs ++ ys) = serializeList xs ++ serializeList ys := by
  induction xs with
  | nil => rfl
  | cons v rest ih =>
      rw [show serializeList ((v :: rest) ++ ys)
          = serialize v :: serializeList (rest ++ ys) from rfl, ih]
      rfl

theorem someIdEq_mk_self (mid : String) (cw : Int) :
    someIdEq [mkModelEntry mid cw] mid = .ok true := by
  simp [someIdEq, mkModelEntry, readProp, lookupField, isStrVal]

theorem base4_setField_keys (env : Env) (v : JVal) :
    (((setField (baseEntryFields env) "models" v).map Prod.fst).take 4
      = ["baseUrl", "apiKey", "api", "authHeader"]) ∧
    ((setField (baseEntryFields env) "models" v).map Prod.fst).Nodup := by
  constructor
  · rfl
  · rw [show (setField (baseEntryFields env) "models" v).map Prod.fst
        = ["baseUrl", "apiKey", "api", "authHeader", "models"] from rfl]
    decide

theorem entry_keys_facts_setField (env : Env) (ef : List (String × JVal))
    (v : JVal)
    (htake : (ef.map Prod.fst).take 4
      = ["baseUrl", "apiKey", "api", "authHeader"])
    (hnd : (ef.map Prod.fst).Nodup) :
    (((setField ef "models" v).map Prod.fst).take 4
      = ["baseUrl", "apiKey", "api", "authHeader"]) ∧
    ((setField ef "models" v).map Prod.fst).Nodup := by
  by_cases hmem : "models" ∈ ef.map Prod.fst
  · rw [setField_keys_mem ef "models" v hmem]
    exact ⟨htake, hnd⟩
  · rw [setField_keys_not_mem ef "models" v hmem]
    have hlen : 4 ≤ (ef.map Prod.fst).length := by
      have h1 := congrArg List.length htake
      rw [List.length_take] at h1
      simp only [List.length_cons, List.length_nil] at h1
      omega
    constructor
    · rw [List.take_append_of_le_length hlen]
      exact htake
    · simp only [List.nodup_append]
      refine ⟨hnd, by decide, ?_⟩
      intro a ha hb
      simp only [List.mem_singleton] at hb
      subst hb
      exact hmem ha

theorem lookupField_base4_models (env : Env) :
    lookupField (baseEntryFields env) "models" = none := rfl

theorem jsOr_entry_fix (pfs : List (String × JVal))
    (hpfs : serializeFields pfs = pfs) :
    serialize (jsOr (lookupField pfs "ollama") (.jobj []))
      = jsOr (lookupField pfs "ollama") (.jobj []) := by
  cases hq : lookupField pfs "ollama" with
  | none => rfl
  | some w =>
      have hw := serializeFields_fix_lookup pfs hpfs "ollama" w hq
      by_cases htr : truthy w = true
      · rw [show jsOr (some w) (.jobj []) = w from by simp [jsOr, htr]]
        exact hw
      · rw [show jsOr (some w) (.jobj []) = .jobj [] from by
          simp [jsOr]
          intro hc
          exact absurd hc htr]
        rfl

theorem entry_lookup_fix (env : Env) (pfs : List (String × JVal))
    (hpfs : serializeFields pfs = pfs) (w : JVal)
    (hw : lookupField (applyFields (baseEntryFields env)
      (spreadFields (jsOr (lookupField pfs "ollama") (.jobj []))))
      "models" = some w) :
    serialize w = w := by
  rcases applyFields_lookup_sources (baseEntryFields env) _ "models" w hw with
    ⟨kk, hmem⟩ | hbase
  · exact spreadFields_mem_serfix _ (jsOr_entry_fix pfs hpfs) (kk, w) hmem
  · rw [lookupField_base4_models] at hbase
    cases hbase

theorem models_post (env : Env) (mid : String) (c2 c3 c4 : JVal)
    (Yf : List (String × JVal))
    (hc2 : c2 = .jobj Yf)
    (hfix : ∀ w, lookupField Yf "models" = some w → serialize w = w)
    (h3 : ensureProviderEntry env c2 = .ok c3)
    (h4 : addModelEntry env mid c3 = .ok c4) :
    ∃ N1, c4 = .jobj (setField Yf "models" N1) ∧
      (∀ uf, lookupField uf "models" = some (serialize N1) →
        ∃ Na N2, ensureProviderEntry env (.jobj uf)
            = .ok (.jobj (setField uf "models" Na)) ∧
          addModelEntry env mid (.jobj (setField uf "models" Na))
            = .ok (.jobj (setField uf "models" N2)) ∧
          serialize N2 = serialize N1) := by
  -- fresh-entry helper used by several branches
  have freshCase : ∀ (mfs2 : List (String × JVal)),
      c3 = .jobj (setField Yf "models" (.jobj (setField mfs2 "providers"
        (.jobj [("ollama", .jobj (baseEntryFields env))])))) →
      ∃ N1, c4 = .jobj (setField Yf "models" N1) ∧
      (∀ uf, lookupField uf "models" = some (serialize N1) →
        ∃ Na N2, ensureProviderEntry env (.jobj uf)
            = .ok (.jobj (setField uf "models" Na)) ∧
          addModelEntry env mid (.jobj (setField uf "models" Na))
            = .ok (.jobj (setField uf "models" N2)) ∧
          serialize N2 = serialize N1) := by
    intro mfs2 hc3
    have hadd := addModel_compute_entryObj_noList env mid c3
      (setField Yf "models" (.jobj (setField mfs2 "providers"
        (.jobj [("ollama", .jobj (baseEntryFields env))]))))
      (setField mfs2 "providers"
        (.jobj [("ollama", .jobj (baseEntryFields env))]))
      [("ollama", .jobj (baseEntryFields env))]
      (baseEntryFields env)
      hc3 (lookupField_setField_self _ _ _) (lookupField_setField_self _ _ _)
      rfl rfl
    rw [h4] at hadd
    injection hadd with hc4
    rw [setField_setField_same] at hc4
    refine ⟨.jobj (setField (setField mfs2 "providers"
      (.jobj [("ollama", .jobj (baseEntryFields env))])) "providers"
      (.jobj (setField [("ollama", .jobj (baseEntryFields env))] "ollama"
        (.jobj (setField (baseEntryFields env) "models"
          (.jarr [mkModelEntry mid
            (effectiveContextWindow env.ollamaContextWindow)] [])))))),
      hc4, ?_⟩
    intro uf hum
    rw [setField_setField_same] at hum ⊢
    refine models_rt_objobj env mid _ _ _
      [mkModelEntry mid (effectiveContextWindow env.ollamaContextWindow)] []
      (lookupField_setField_self _ _ _) (lookupField_setField_self _ _ _)
      (base4_setField_keys env _).1 (base4_setField_keys env _).2
      (lookupField_setField_self _ _ _) ?_ uf hum
    rw [show serializeList [mkModelEntry mid
        (effectiveContextWindow env.ollamaContextWindow)]
        = [mkModelEntry mid
          (effectiveContextWindow env.ollamaContextWindow)] from rfl]
    exact someIdEq_mk_self mid _
  cases hmv : lookupField Yf "models" with
  | none =>
      have hc3c := ensure_compute_noModels env c2 Yf hc2 (by rw [hmv]; rfl)
      rw [h3] at hc3c
      injection hc3c with hc3
      exact freshCase [] (by rw [hc3]; rfl)
  | some v =>
      have hvfix := hfix v hmv
      cases v with
      | jnull =>
          have hc3c := ensure_compute_noModels env c2 Yf hc2 (by rw [hmv]; rfl)
          rw [h3] at hc3c
          injection hc3c with hc3
          exact freshCase [] (by rw [hc3]; rfl)
      | jbool b =>
          by_cases htb : truthy (.jbool b) = true
          · have herr := ensure_error_scalarModels env c2 Yf _ hc2 hmv htb rfl
            rw [h3] at herr
            cases herr
          · have hc3c := ensure_compute_noModels env c2 Yf hc2 (by
              rw [hmv]
              show truthy (JVal.jbool b) = false
              cases hq : truthy (JVal.jbool b)
              · rfl
              · exact absurd hq htb)
            rw [h3] at hc3c
            injection hc3c with hc3
            exact freshCase [] (by rw [hc3]; rfl)
      | jnum n =>
          by_cases htb : truthy (.jnum n) = true
          · have herr := ensure_error_scalarModels env c2 Yf _ hc2 hmv htb rfl
            rw [h3] at herr
            cases herr
          · have hc3c := ensure_compute_noModels env c2 Yf hc2 (by
              rw [hmv]
              show truthy (JVal.jnum n) = false
              cases hq : truthy (JVal.jnum n)
              · rfl
              · exact absurd hq htb)
            rw [h3] at hc3c
            injection hc3c with hc3
            exact freshCase [] (by rw [hc3]; rfl)
      | jstr str =>
          by_cases htb : truthy (.jstr str) = true
          · have herr := ensure_error_scalarModels env c2 Yf _ hc2 hmv htb rfl
            rw [h3] at herr
            cases herr
          · have hc3c := ensure_compute_noModels env c2 Yf hc2 (by
              rw [hmv]
              show truthy (JVal.jstr str) = false
              cases hq : truthy (JVal.jstr str)
              · rfl
              · exact absurd hq htb)
            rw [h3] at hc3c
            injection hc3c with hc3
            exact freshCase [] (by rw [hc3]; rfl)
      | jarr mes mps =>
          obtain ⟨hmes, rfl⟩ := serialize_fix_arr mes mps hvfix
          have hc3c := ensure_compute_arrModels env c2 Yf mes hc2 hmv
          rw [h3] at hc3c
          injection hc3c with hc3
          have hadd := addModel_compute_modArr env mid c3
            (setField Yf "models" (.jarr mes [("providers",
              .jobj [("ollama", .jobj (baseEntryFields env))])]))
            mes
            [("providers", .jobj [("ollama", .jobj (baseEntryFields env))])]
            [("ollama", .jobj (baseEntryFields env))]
            (baseEntryFields env)
            hc3 (lookupField_setField_self _ _ _) rfl rfl rfl
          rw [h4] at hadd
          injection hadd with hc4
          rw [setField_setField_same] at hc4
          refine ⟨.jarr mes (setField [("providers",
            .jobj [("ollama", .jobj (baseEntryFields env))])] "providers"
            (.jobj (setField [("ollama", .jobj (baseEntryFields env))]
              "ollama" (.jobj (setField (baseEntryFields env) "models"
                (.jarr [mkModelEntry mid
                  (effectiveContextWindow env.ollamaContextWindow)] [])))))),
            hc4, ?_⟩
          intro uf hum
          exact models_rt_arrModels env mid mes _ uf hum
      | jobj mfs =>
          have hmfs : serializeFields mfs = mfs := serialize_fix_obj mfs hvfix
          cases hpv : lookupField mfs "providers" with
          | none =>
              have hc3c := ensure_compute_obj_noProviders env c2 Yf mfs hc2
                hmv (by rw [hpv]; rfl)
              rw [h3] at hc3c
              injection hc3c with hc3
              exact freshCase mfs (by rw [hc3])
          | some pv =>
              have hpvfix := serializeFields_fix_lookup mfs hmfs "providers"
                pv hpv
              cases pv with
              | jnull =>
                  have hc3c := ensure_compute_obj_noProviders env c2 Yf mfs
                    hc2 hmv (by rw [hpv]; rfl)
                  rw [h3] at hc3c
                  injection hc3c with hc3
                  exact freshCase mfs (by rw [hc3])
              | jbool b =>
                  by_cases htb : truthy (.jbool b) = true
                  · have hc3c := ensure_compute_obj_scalarProviders env c2 Yf
                      mfs (.jbool b) hc2 hmv hpv htb rfl
                    rw [h3] at hc3c
                    injection hc3c with hc3
                    have herr := addModel_error_scalarProviders env mid c3 Yf
                      mfs (.jbool b) (by rw [hc3, hc2]) hmv hpv htb rfl
                    rw [h4] at herr
                    cases herr
                  · have hc3c := ensure_compute_obj_noProviders env c2 Yf mfs
                      hc2 hmv (by
                        rw [hpv]
                        show truthy (JVal.jbool b) = false
                        cases hq : truthy (JVal.jbool b)
                        · rfl
                        · exact absurd hq htb)
                    rw [h3] at hc3c
                    injection hc3c with hc3
                    exact freshCase mfs (by rw [hc3])
              | jnum n =>
                  by_cases htb : truthy (.jnum n) = true
                  · have hc3c := ensure_compute_obj_scalarProviders env c2 Yf
                      mfs (.jnum n) hc2 hmv hpv htb rfl
                    rw [h3] at hc3c
                    injection hc3c with hc3
                    have herr := addModel_error_scalarProviders env mid c3 Yf
                      mfs (.jnum n) (by rw [hc3, hc2]) hmv hpv htb rfl
                    rw [h4] at herr
                    cases herr
                  · have hc3c := ensure_compute_obj_noProviders env c2 Yf mfs
                      hc2 hmv (by
                        rw [hpv]
                        show truthy (JVal.jnum n) = false
                        cases hq : truthy (JVal.jnum n)
                        · rfl
                        · exact absurd hq htb)
                    rw [h3] at hc3c
                    injection hc3c with hc3
                    exact freshCase mfs (by rw [hc3])
              | jstr str =>
                  by_cases htb : truthy (.jstr str) = true
                  · have hc3c := ensure_compute_obj_scalarProviders env c2 Yf
                      mfs (.jstr str) hc2 hmv hpv htb rfl
                    rw [h3] at hc3c
                    injection hc3c with hc3
                    have herr := addModel_error_scalarProviders env mid c3 Yf
                      mfs (.jstr str) (by rw [hc3, hc2]) hmv hpv htb rfl
                    rw [h4] at herr
                    cases herr
                  · have hc3c := ensure_compute_obj_noProviders env c2 Yf mfs
                      hc2 hmv (by
                        rw [hpv]
                        show truthy (JVal.jstr str) = false
                        cases hq : truthy (JVal.jstr str)
                        · rfl
                        · exact absurd hq htb)
                    rw [h3] at hc3c
                    injection hc3c with hc3
                    exact freshCase mfs (by rw [hc3])
              | jarr pes pps =>
                  obtain ⟨hpes, rfl⟩ := serialize_fix_arr pes pps hpvfix
                  have hc3c := ensure_compute_obj_arrProviders env c2 Yf mfs
                    pes hc2 hmv hpv
                  rw [h3] at hc3c
                  injection hc3c with hc3
                  have hadd := addModel_compute_provArr env mid c3
                    (setField Yf "models" (.jobj (setField mfs "providers"
                      (.jarr pes [("ollama", .jobj (baseEntryFields env))]))))
                    (setField mfs "providers"
                      (.jarr pes [("ollama", .jobj (baseEntryFields env))]))
                    pes
                    [("ollama", .jobj (baseEntryFields env))]
                    (baseEntryFields env)
                    hc3 (lookupField_setField_self _ _ _)
                    (lookupField_setField_self _ _ _) rfl rfl
                  rw [h4] at hadd
                  injection hadd with hc4
                  rw [setField_setField_same] at hc4
                  refine ⟨.jobj (setField (setField mfs "providers"
                    (.jarr pes [("ollama", .jobj (baseEntryFields env))]))
                    "providers" (.jarr pes
                      (setField [("ollama", .jobj (baseEntryFields env))]
                        "ollama" (.jobj (setField (baseEntryFields env)
                          "models" (.jarr [mkModelEntry mid
                            (effectiveContextWindow
                              env.ollamaContextWindow)] [])))))),
                    hc4, ?_⟩
                  intro uf hum
                  rw [setField_setField_same] at hum ⊢
                  exact models_rt_provArr env mid _ pes _
                    (lookupField_setField_self _ _ _) uf hum
              | jobj pfs =>
                  have hpfs : serializeFields pfs = pfs :=
                    serialize_fix_obj pfs hpvfix
                  have hc3c := ensure_compute_obj_obj env c2 Yf mfs pfs
                    hc2 hmv hpv
                  rw [h3] at hc3c
                  injection hc3c with hc3
                  have hE := entry_keys_facts env
                    (spreadFields (jsOr (lookupField pfs "ollama") (.jobj [])))
                  cases hlv : lookupField (applyFields (baseEntryFields env)
                      (spreadFields (jsOr (lookupField pfs "ollama")
                        (.jobj [])))) "models" with
                  | none =>
                      have hadd := addModel_compute_entryObj_noList env mid c3
                        (setField Yf "models" (.jobj (setField mfs "providers"
                          (.jobj (setField pfs "ollama"
                            (.jobj (applyFields (baseEntryFields env)
                              (spreadFields (jsOr (lookupField pfs "ollama")
                                (.jobj []))))))))))
                        (setField mfs "providers"
                          (.jobj (setField pfs "ollama"
                            (.jobj (applyFields (baseEntryFields env)
                              (spreadFields (jsOr (lookupField pfs "ollama")
                                (.jobj []))))))))
                        (setField pfs "ollama"
                          (.jobj (applyFields (baseEntryFields env)
                            (spreadFields (jsOr (lookupField pfs "ollama")
                              (.jobj []))))))
                        (applyFields (baseEntryFields env)
                          (spreadFields (jsOr (lookupField pfs "ollama")
                            (.jobj []))))
                        hc3 (lookupField_setField_self _ _ _)
                        (lookupField_setField_self _ _ _)
                        (lookupField_setField_self _ _ _)
                        (by rw [hlv]; rfl)
                      rw [h4] at hadd
                      injection hadd with hc4
                      rw [setField_setField_same] at hc4
                      refine ⟨_, hc4, ?_⟩
                      intro uf hum
                      refine models_rt_objobj env mid _ _ _
                        [mkModelEntry mid
                          (effectiveContextWindow env.ollamaContextWindow)] []
                        (lookupField_setField_self _ _ _)
                        (lookupField_setField_self _ _ _)
                        (entry_keys_facts_setField env _ _ hE.1 hE.2).1
                        (entry_keys_facts_setField env _ _ hE.1 hE.2).2
                        (lookupField_setField_self _ _ _) ?_ uf hum
                      rw [show serializeList [mkModelEntry mid
                          (effectiveContextWindow env.ollamaContextWindow)]
                          = [mkModelEntry mid
                            (effectiveContextWindow
                              env.ollamaContextWindow)] from rfl]
                      exact someIdEq_mk_self mid _
                  | some lv =>
                      have hlvfix := entry_lookup_fix env pfs hpfs lv hlv
                      by_cases htw : truthy lv = true
                      · cases lv with
                        | jarr mes1 mps1 =>
                            obtain ⟨hmes1, rfl⟩ :=
                              serialize_fix_arr mes1 mps1 hlvfix
                            cases hsi0 : someIdEq mes1 mid with
                            | error e =>
                                cases e
                                have herr := addModel_error_someId env mid c3
                                  (setField Yf "models" (.jobj (setField mfs
                                    "providers" (.jobj (setField pfs "ollama"
                                      (.jobj (applyFields (baseEntryFields env)
                                        (spreadFields (jsOr
                                          (lookupField pfs "ollama")
                                          (.jobj []))))))))))
                                  (setField mfs "providers"
                                    (.jobj (setField pfs "ollama"
                                      (.jobj (applyFields (baseEntryFields env)
                                        (spreadFields (jsOr
                                          (lookupField pfs "ollama")
                                          (.jobj []))))))))
                                  (setField pfs "ollama"
                                    (.jobj (applyFields (baseEntryFields env)
                                      (spreadFields (jsOr
                                        (lookupField pfs "ollama")
                                        (.jobj []))))))
                                  (applyFields (baseEntryFields env)
                                    (spreadFields (jsOr
                                      (lookupField pfs "ollama") (.jobj []))))
                                  mes1 []
                                  hc3 (lookupField_setField_self _ _ _)
                                  (lookupField_setField_self _ _ _)
                                  (lookupField_setField_self _ _ _)
                                  hlv hsi0
                                rw [h4] at herr
                                cases herr
                            | ok b =>
                                have hadd := addModel_compute_entryObj env mid
                                  c3
                                  (setField Yf "models" (.jobj (setField mfs
                                    "providers" (.jobj (setField pfs "ollama"
                                      (.jobj (applyFields (baseEntryFields env)
                                        (spreadFields (jsOr
                                          (lookupField pfs "ollama")
                                          (.jobj []))))))))))
                                  (setField mfs "providers"
                                    (.jobj (setField pfs "ollama"
                                      (.jobj (applyFields (baseEntryFields env)
                                        (spreadFields (jsOr
                                          (lookupField pfs "ollama")
                                          (.jobj []))))))))
                                  (setField pfs "ollama"
                                    (.jobj (applyFields (baseEntryFields env)
                                      (spreadFields (jsOr
                                        (lookupField pfs "ollama")
                                        (.jobj []))))))
                                  (applyFields (baseEntryFields env)
                                    (spreadFields (jsOr
                                      (lookupField pfs "ollama") (.jobj []))))
                                  mes1 [] b
                                  hc3 (lookupField_setField_self _ _ _)
                                  (lookupField_setField_self _ _ _)
                                  (lookupField_setField_self _ _ _)
                                  hlv hsi0
                                cases b with
                                | true =>
                                    simp only [if_true] at hadd
                                    rw [h4] at hadd
                                    injection hadd with hc4
                                    refine ⟨_, by rw [hc4, hc3], ?_⟩
                                    intro uf hum
                                    refine models_rt_objobj env mid _ _ _
                                      mes1 []
                                      (lookupField_setField_self _ _ _)
                                      (lookupField_setField_self _ _ _)
                                      hE.1 hE.2 hlv ?_ uf hum
                                    rw [hmes1]
                                    exact hsi0
                                | false =>
                                    simp only [Bool.false_eq_true, if_false]
                                      at hadd
                                    rw [h4] at hadd
                                    injection hadd with hc4
                                    rw [setField_setField_same] at hc4
                                    refine ⟨_, hc4, ?_⟩
                                    intro uf hum
                                    refine models_rt_objobj env mid _ _ _
                                      (mes1 ++ [mkModelEntry mid
                                        (effectiveContextWindow
                                          env.ollamaContextWindow)]) []
                                      (lookupField_setField_self _ _ _)
                                      (lookupField_setField_self _ _ _)
                                      (entry_keys_facts_setField env _ _
                                        hE.1 hE.2).1
                                      (entry_keys_facts_setField env _ _
                                        hE.1 hE.2).2
                                      (lookupField_setField_self _ _ _)
                                      ?_ uf hum
                                    rw [serializeList_append, hmes1]
                                    rw [show serializeList [mkModelEntry mid
                                        (effectiveContextWindow
                                          env.ollamaContextWindow)]
                                        = [mkModelEntry mid
                                          (effectiveContextWindow
                                            env.ollamaContextWindow)]
                                        from rfl]
                                    exact someIdEq_append_self mes1 mid _ hsi0
                        | jnull => simp [truthy] at htw
                        | jbool b =>
                            have herr := addModel_error_badList env mid c3
                              (setField Yf "models" (.jobj (setField mfs
                                "providers" (.jobj (setField pfs "ollama"
                                  (.jobj (applyFields (baseEntryFields env)
                                    (spreadFields (jsOr
                                      (lookupField pfs "ollama")
                                      (.jobj []))))))))))
                              (setField mfs "providers"
                                (.jobj (setField pfs "ollama"
                                  (.jobj (applyFields (baseEntryFields env)
                                    (spreadFields (jsOr
                                      (lookupField pfs "ollama")
                                      (.jobj []))))))))
                              (setField pfs "ollama"
                                (.jobj (applyFields (baseEntryFields env)
                                  (spreadFields (jsOr
                                    (lookupField pfs "ollama") (.jobj []))))))
                              (applyFields (baseEntryFields env)
                                (spreadFields (jsOr
                                  (lookupField pfs "ollama") (.jobj []))))
                              (.jbool b)
                              hc3 (lookupField_setField_self _ _ _)
                              (lookupField_setField_self _ _ _)
                              (lookupField_setField_self _ _ _)
                              hlv htw (fun es ps h => by cases h)
                            rw [h4] at herr
                            cases herr
                        | jnum n =>
                            have herr := addModel_error_badList env mid c3
                              (setField Yf "models" (.jobj (setField mfs
                                "providers" (.jobj (setField pfs "ollama"
                                  (.jobj (applyFields (baseEntryFields env)
                                    (spreadFields (jsOr
                                      (lookupField pfs "ollama")
                                      (.jobj []))))))))))
                              (setField mfs "providers"
                                (.jobj (setField pfs "ollama"
                                  (.jobj (applyFields (baseEntryFields env)
                                    (spreadFields (jsOr
                                      (lookupField pfs "ollama")
                                      (.jobj []))))))))
                              (setField pfs "ollama"
                                (.jobj (applyFields (baseEntryFields env)
                                  (spreadFields (jsOr
                                    (lookupField pfs "ollama") (.jobj []))))))
                              (applyFields (baseEntryFields env)
                                (spreadFields (jsOr
                                  (lookupField pfs "ollama") (.jobj []))))
                              (.jnum n)
                              hc3 (lookupField_setField_self _ _ _)
                              (lookupField_setField_self _ _ _)
                              (lookupField_setField_self _ _ _)
                              hlv htw (fun es ps h => by cases h)
                            rw [h4] at herr
                            cases herr
                        | jstr s2 =>
                            have herr := addModel_error_badList env mid c3
                              (setField Yf "models" (.jobj (setField mfs
                                "providers" (.jobj (setField pfs "ollama"
                                  (.jobj (applyFields (baseEntryFields env)
                                    (spreadFields (jsOr
                                      (lookupField pfs "ollama")
                                      (.jobj []))))))))))
                              (setField mfs "providers"
                                (.jobj (setField pfs "ollama"
                                  (.jobj (applyFields (baseEntryFields env)
                                    (spreadFields (jsOr
                                      (lookupField pfs "ollama")
                                      (.jobj []))))))))
                              (setField pfs "ollama"
                                (.jobj (applyFields (baseEntryFields env)
                                  (spreadFields (jsOr
                                    (lookupField pfs "ollama") (.jobj []))))))
                              (applyFields (baseEntryFields env)
                                (spreadFields (jsOr
                                  (lookupField pfs "ollama") (.jobj []))))
                              (.jstr s2)
                              hc3 (lookupField_setField_self _ _ _)
                              (lookupField_setField_self _ _ _)
                              (lookupField_setField_self _ _ _)
                              hlv htw (fun es ps h => by cases h)
                            rw [h4] at herr
                            cases herr
                        | jobj fs2 =>
                            have herr := addModel_error_badList env mid c3
                              (setField Yf "models" (.jobj (setField mfs
                                "providers" (.jobj (setField pfs "ollama"
                                  (.jobj (applyFields (baseEntryFields env)
                                    (spreadFields (jsOr
                                      (lookupField pfs "ollama")
                                      (.jobj []))))))))))
                              (setField mfs "providers"
                                (.jobj (setField pfs "ollama"
                                  (.jobj (applyFields (baseEntryFields env)
                                    (spreadFields (jsOr
                                      (lookupField pfs "ollama")
                                      (.jobj []))))))))
                              (setField pfs "ollama"
                                (.jobj (applyFields (baseEntryFields env)
                                  (spreadFields (jsOr
                                    (lookupField pfs "ollama") (.jobj []))))))
                              (applyFields (baseEntryFields env)
                                (spreadFields (jsOr
                                  (lookupField pfs "ollama") (.jobj []))))
                              (.jobj fs2)
                              hc3 (lookupField_setField_self _ _ _)
                              (lookupField_setField_self _ _ _)
                              (lookupField_setField_self _ _ _)
                              hlv htw (fun es ps h => by cases h)
                            rw [h4] at herr
                            cases herr
                      · have hadd := addModel_compute_entryObj_noList env mid
                          c3
                          (setField Yf "models" (.jobj (setField mfs
                            "providers" (.jobj (setField pfs "ollama"
                              (.jobj (applyFields (baseEntryFields env)
                                (spreadFields (jsOr (lookupField pfs "ollama")
                                  (.jobj []))))))))))
                          (setField mfs "providers"
                            (.jobj (setField pfs "ollama"
                              (.jobj (applyFields (baseEntryFields env)
                                (spreadFields (jsOr (lookupField pfs "ollama")
                                  (.jobj []))))))))
                          (setField pfs "ollama"
                            (.jobj (applyFields (baseEntryFields env)
                              (spreadFields (jsOr (lookupField pfs "ollama")
                                (.jobj []))))))
                          (applyFields (baseEntryFields env)
                            (spreadFields (jsOr (lookupField pfs "ollama")
                              (.jobj []))))
                          hc3 (lookupField_setField_self _ _ _)
                          (lookupField_setField_self _ _ _)
                          (lookupField_setField_self _ _ _)
                          (by
                            rw [hlv]
                            show truthy lv = false
                            cases hq : truthy lv
                            · rfl
                            · exact absurd hq htw)
                        rw [h4] at hadd
                        injection hadd with hc4
                        rw [setField_setField_same] at hc4
                        refine ⟨_, hc4, ?_⟩
                        intro uf hum
                        refine models_rt_objobj env mid _ _ _
                          [mkModelEntry mid
                            (effectiveContextWindow env.ollamaContextWindow)]
                          []
                          (lookupField_setField_self _ _ _)
                          (lookupField_setField_self _ _ _)
                          (entry_keys_facts_setField env _ _ hE.1 hE.2).1
                          (entry_keys_facts_setField env _ _ hE.1 hE.2).2
                          (lookupField_setField_self _ _ _) ?_ uf hum
                        rw [show serializeList [mkModelEntry mid
                            (effectiveContextWindow env.ollamaContextWindow)]
                            = [mkModelEntry mid
                              (effectiveContextWindow
                                env.ollamaContextWindow)] from rfl]
                        exact someIdEq_mk_self mid _

theorem base4_keys_facts (env : Env) :
    (((baseEntryFields env).map Prod.fst).take 4
      = ["baseUrl", "apiKey", "api", "authHeader"]) ∧
    ((baseEntryFields env).map Prod.fst).Nodup := by
  constructor
  · rfl
  · rw [show (baseEntryFields env).map Prod.fst
        = ["baseUrl", "apiKey", "api", "authHeader"] from rfl]
    decide

theorem models_post_nomodel (env : Env) (c2 c3 : JVal)
    (Yf : List (String × JVal))
    (hc2 : c2 = .jobj Yf)
    (hfix : ∀ w, lookupField Yf "models" = some w → serialize w = w)
    (h3 : ensureProviderEntry env c2 = .ok c3) :
    ∃ N1, c3 = .jobj (setField Yf "models" N1) ∧
      (∀ uf, lookupField uf "models" = some (serialize N1) →
        ∃ Na, ensureProviderEntry env (.jobj uf)
            = .ok (.jobj (setField uf "models" Na)) ∧
          serialize Na = serialize N1) := by
  have present : ∀ (N1 : JVal) (uf : List (String × JVal)),
      lookupField uf "models" = some (serialize N1) →
      ensureProviderEntry env (.jobj uf) = .ok (.jobj uf) →
      ∃ Na, ensureProviderEntry env (.jobj uf)
          = .ok (.jobj (setField uf "models" Na)) ∧
        serialize Na = serialize N1 := by
    intro N1 uf hum hid
    refine ⟨serialize N1, ?_, serialize_idem _⟩
    rw [setField_self uf "models" _ hum]
    exact hid
  have freshE : ∀ (mfs2 : List (String × JVal)),
      c3 = .jobj (setField Yf "models" (.jobj (setField mfs2 "providers"
        (.jobj [("ollama", .jobj (baseEntryFields env))])))) →
      ∃ N1, c3 = .jobj (setField Yf "models" N1) ∧
      (∀ uf, lookupField uf "models" = some (serialize N1) →
        ∃ Na, ensureProviderEntry env (.jobj uf)
            = .ok (.jobj (setField uf "models" Na)) ∧
          serialize Na = serialize N1) := by
    intro mfs2 hc3
    refine ⟨.jobj (setField mfs2 "providers"
      (.jobj [("ollama", .jobj (baseEntryFields env))])), hc3, ?_⟩
    intro uf hum
    refine present _ uf hum ?_
    exact models_rt_objobj_ensure env
      (setField mfs2 "providers"
        (.jobj [("ollama", .jobj (baseEntryFields env))]))
      [("ollama", .jobj (baseEntryFields env))]
      (baseEntryFields env)
      (lookupField_setField_self _ _ _) rfl
      (base4_keys_facts env).1 (base4_keys_facts env).2 uf hum
  cases hmv : lookupField Yf "models" with
  | none =>
      have hc3c := ensure_compute_noModels env c2 Yf hc2 (by rw [hmv]; rfl)
      rw [h3] at hc3c
      injection hc3c with hc3
      exact freshE [] (by rw [hc3]; rfl)
  | some v =>
      have hvfix := hfix v hmv
      cases v with
      | jnull =>
          have hc3c := ensure_compute_noModels env c2 Yf hc2 (by rw [hmv]; rfl)
          rw [h3] at hc3c
          injection hc3c with hc3
          exact freshE [] (by rw [hc3]; rfl)
      | jbool b =>
          by_cases htb : truthy (.jbool b) = true
          · have herr := ensure_error_scalarModels env c2 Yf _ hc2 hmv htb rfl
            rw [h3] at herr
            cases herr
          · have hc3c := ensure_compute_noModels env c2 Yf hc2 (by
              rw [hmv]
              show truthy (JVal.jbool b) = false
              cases hq : truthy (JVal.jbool b)
              · rfl
              · exact absurd hq htb)
            rw [h3] at hc3c
            injection hc3c with hc3
            exact freshE [] (by rw [hc3]; rfl)
      | jnum n =>
          by_cases htb : truthy (.jnum n) = true
          · have herr := ensure_error_scalarModels env c2 Yf _ hc2 hmv htb rfl
            rw [h3] at herr
            cases herr
          · have hc3c := ensure_compute_noModels env c2 Yf hc2 (by
              rw [hmv]
              show truthy (JVal.jnum n) = false
              cases hq : truthy (JVal.jnum n)
              · rfl
              · exact absurd hq htb)
            rw [h3] at hc3c
            injection hc3c with hc3
            exact freshE [] (by rw [hc3]; rfl)
      | jstr str =>
          by_cases htb : truthy (.jstr str) = true
          · have herr := ensure_error_scalarModels env c2 Yf _ hc2 hmv htb rfl
            rw [h3] at herr
            cases herr
          · have hc3c := ensure_compute_noModels env c2 Yf hc2 (by
              rw [hmv]
              show truthy (JVal.jstr str) = false
              cases hq : truthy (JVal.jstr str)
              · rfl
              · exact absurd hq htb)
            rw [h3] at hc3c
            injection hc3c with hc3
            exact freshE [] (by rw [hc3]; rfl)
      | jarr mes mps =>
          obtain ⟨hmes, rfl⟩ := serialize_fix_arr mes mps hvfix
          have hc3c := ensure_compute_arrModels env c2 Yf mes hc2 hmv
          rw [h3] at hc3c
          injection hc3c with hc3
          refine ⟨.jarr mes [("providers",
            .jobj [("ollama", .jobj (baseEntryFields env))])], hc3, ?_⟩
          intro uf hum
          obtain ⟨hE, hS⟩ := models_rt_arrModels_ensure env mes _ uf hum
          exact ⟨_, hE, hS⟩
      | jobj mfs =>
          have hmfs : serializeFields mfs = mfs := serialize_fix_obj mfs hvfix
          cases hpv : lookupField mfs "providers" with
          | none =>
              have hc3c := ensure_compute_obj_noProviders env c2 Yf mfs hc2
                hmv (by rw [hpv]; rfl)
              rw [h3] at hc3c
              injection hc3c with hc3
              exact freshE mfs (by rw [hc3])
          | some pv =>
              have hpvfix := serializeFields_fix_lookup mfs hmfs "providers"
                pv hpv
              cases pv with
              | jnull =>
                  have hc3c := ensure_compute_obj_noProviders env c2 Yf mfs
                    hc2 hmv (by rw [hpv]; rfl)
                  rw [h3] at hc3c
                  injection hc3c with hc3
                  exact freshE mfs (by rw [hc3])
              | jbool b =>
                  by_cases htb : truthy (.jbool b) = true
                  · have hc3c := ensure_compute_obj_scalarProviders env c2 Yf
                      mfs (.jbool b) hc2 hmv hpv htb rfl
                    rw [h3] at hc3c
                    injection hc3c with hc3
                    refine ⟨.jobj mfs, ?_, ?_⟩
                    · rw [hc3, hc2, setField_self Yf "models" _ hmv]
                    · intro uf hum
                      refine present _ uf hum ?_
                      exact models_rt_scalarProviders_ensure env mfs
                        (.jbool b) hpv htb rfl hpvfix uf hum
                  · have hc3c := ensure_compute_obj_noProviders env c2 Yf mfs
                      hc2 hmv (by
                        rw [hpv]
                        show truthy (JVal.jbool b) = false
                        cases hq : truthy (JVal.jbool b)
                        · rfl
                        · exact absurd hq htb)
                    rw [h3] at hc3c
                    injection hc3c with hc3
                    exact freshE mfs (by rw [hc3])
              | jnum n =>
                  by_cases htb : truthy (.jnum n) = true
                  · have hc3c := ensure_compute_obj_scalarProviders env c2 Yf
                      mfs (.jnum n) hc2 hmv hpv htb rfl
                    rw [h3] at hc3c
                    injection hc3c with hc3
                    refine ⟨.jobj mfs, ?_, ?_⟩
                    · rw [hc3, hc2, setField_self Yf "models" _ hmv]
                    · intro uf hum
                      refine present _ uf hum ?_
                      exact models_rt_scalarProviders_ensure env mfs
                        (.jnum n) hpv htb rfl hpvfix uf hum
                  · have hc3c := ensure_compute_obj_noProviders env c2 Yf mfs
                      hc2 hmv (by
                        rw [hpv]
                        show truthy (JVal.jnum n) = false
                        cases hq : truthy (JVal.jnum n)
                        · rfl
                        · exact absurd hq htb)
                    rw [h3] at hc3c
                    injection hc3c with hc3
                    exact freshE mfs (by rw [hc3])
              | jstr str =>
                  by_cases htb : truthy (.jstr str) = true
                  · have hc3c := ensure_compute_obj_scalarProviders env c2 Yf
                      mfs (.jstr str) hc2 hmv hpv htb rfl
                    rw [h3] at hc3c
                    injection hc3c with hc3
                    refine ⟨.jobj mfs, ?_, ?_⟩
                    · rw [hc3, hc2, setField_self Yf "models" _ hmv]
                    · intro uf hum
                      refine present _ uf hum ?_
                      exact models_rt_scalarProviders_ensure env mfs
                        (.jstr str) hpv htb rfl hpvfix uf hum
                  · have hc3c := ensure_compute_obj_noProviders env c2 Yf mfs
                      hc2 hmv (by
                        rw [hpv]
                        show truthy (JVal.jstr str) = false
                        cases hq : truthy (JVal.jstr str)
                        · rfl
                        · exact absurd hq htb)
                    rw [h3] at hc3c
                    injection hc3c with hc3
                    exact freshE mfs (by rw [hc3])
              | jarr pes pps =>
                  obtain ⟨hpes, rfl⟩ := serialize_fix_arr pes pps hpvfix
                  have hc3c := ensure_compute_obj_arrProviders env c2 Yf mfs
                    pes hc2 hmv hpv
                  rw [h3] at hc3c
                  injection hc3c with hc3
                  refine ⟨.jobj (setField mfs "providers"
                    (.jarr pes [("ollama", .jobj (baseEntryFields env))])),
                    hc3, ?_⟩
                  intro uf hum
                  obtain ⟨hE, hS⟩ := models_rt_provArr_ensure env _ pes _
                    (lookupField_setField_self _ _ _) uf hum
                  exact ⟨_, hE, hS⟩
              | jobj pfs =>
                  have hc3c := ensure_compute_obj_obj env c2 Yf mfs pfs
                    hc2 hmv hpv
                  rw [h3] at hc3c
                  injection hc3c with hc3
                  have hE := entry_keys_facts env
                    (spreadFields (jsOr (lookupField pfs "ollama") (.jobj [])))
                  refine ⟨.jobj (setField mfs "providers"
                    (.jobj (setField pfs "ollama"
                      (.jobj (applyFields (baseEntryFields env)
                        (spreadFields (jsOr (lookupField pfs "ollama")
                          (.jobj [])))))))), hc3, ?_⟩
                  intro uf hum
                  refine present _ uf hum ?_
                  exact models_rt_objobj_ensure env _ _ _
                    (lookupField_setField_self _ _ _)
                    (lookupField_setField_self _ _ _)
                    hE.1 hE.2 uf hum

theorem provision_firstrun_roundtrip (env : Env)
    (fs0 : List (String × JVal)) (cfg : JVal)
    (hser : serialize (.jobj fs0) = .jobj fs0)
    (hu : truthyStr env.ollamaUrl = true)
    (hk : truthyStr env.ollamaKey = true)
    (hok : provisionOllama env (deepMerge (forceMerge (.jobj fs0)
      gatewayDefaults) agentDefaults) = .ok cfg) :
    persistedAfter env (serialize cfg) = serialize cfg := by
  have hfsf : serializeFields fs0 = fs0 := serialize_fix_obj fs0 hser
  have hc2 : deepMerge (forceMerge (.jobj fs0) gatewayDefaults) agentDefaults
      = .jobj (setField (setField fs0 "gateway"
          (forceMerge (mergeBase (lookupField fs0 "gateway")) gatewayInner))
          "agents"
          (deepMerge (mergeBase (lookupField fs0 "agents")) agentsInner)) := by
    rw [forceMerge_gd_obj, deepMerge_ad_obj]
    rw [lookupField_setField_ne fs0 "agents" "gateway" _ (by decide)]
  rw [hc2] at hok
  have hYm : lookupField (setField (setField fs0 "gateway"
      (forceMerge (mergeBase (lookupField fs0 "gateway")) gatewayInner))
      "agents"
      (deepMerge (mergeBase (lookupField fs0 "agents")) agentsInner)) "models"
      = lookupField fs0 "models" := by
    rw [lookupField_setField_ne _ "models" "agents" _ (by decide)]
    rw [lookupField_setField_ne _ "models" "gateway" _ (by decide)]
  have hfixm : ∀ w, lookupField (setField (setField fs0 "gateway"
      (forceMerge (mergeBase (lookupField fs0 "gateway")) gatewayInner))
      "agents"
      (deepMerge (mergeBase (lookupField fs0 "agents")) agentsInner)) "models"
      = some w → serialize w = w := by
    intro w hw
    rw [hYm] at hw
    exact serializeFields_fix_lookup fs0 hfsf "models" w hw
  have hYa : lookupField (setField (setField fs0 "gateway"
      (forceMerge (mergeBase (lookupField fs0 "gateway")) gatewayInner))
      "agents"
      (deepMerge (mergeBase (lookupField fs0 "agents")) agentsInner)) "agents"
      = some (deepMerge (mergeBase (lookupField fs0 "agents")) agentsInner) :=
    lookupField_setField_self _ _ _
  have hYg : lookupField (setField (setField fs0 "gateway"
      (forceMerge (mergeBase (lookupField fs0 "gateway")) gatewayInner))
      "agents"
      (deepMerge (mergeBase (lookupField fs0 "agents")) agentsInner)) "gateway"
      = some (forceMerge (mergeBase (lookupField fs0 "gateway"))
          gatewayInner) := by
    rw [lookupField_setField_ne _ "gateway" "agents" _ (by decide)]
    exact lookupField_setField_self _ _ _
  have hx0fix : serialize (mergeBase (lookupField fs0 "agents"))
      = mergeBase (lookupField fs0 "agents") :=
    mergeBase_fix _ (fun w hw => serializeFields_fix_lookup fs0 hfsf
      "agents" w hw)
  by_cases hmod : truthyStr env.ollamaModel = true
  · obtain ⟨c3, c4raw, h3, h4, h5⟩ := provisionOllama_inv env _ cfg hmod hok
    obtain ⟨N1, hc4, HM⟩ := models_post env (env.ollamaModel.getD "")
      _ c3 c4raw _ rfl hfixm h3 h4
    obtain ⟨AS, hcfg, hASo, hStab, HA⟩ := selector_post env
      (env.ollamaModel.getD "") c4raw cfg _ (lookupField fs0 "agents")
      hc4 (by
        rw [lookupField_setField_ne _ "agents" "models" _ (by decide)]
        exact hYa)
      hx0fix h5
    rw [hcfg]
    refine provision_roundtrip_model env (env.ollamaModel.getD "") _
      (forceMerge (mergeBase (lookupField fs0 "gateway")) gatewayInner)
      AS N1 rfl hmod hu hk ?_ ⟨lookupField fs0 "gateway", rfl⟩ ?_ hASo ?_
      hStab HM HA
    · rw [lookupField_setField_ne _ "gateway" "agents" _ (by decide)]
      rw [lookupField_setField_ne _ "gateway" "models" _ (by decide)]
      exact hYg
    · exact lookupField_setField_self _ _ _
    · rw [lookupField_setField_ne _ "models" "agents" _ (by decide)]
      exact lookupField_setField_self _ _ _
  · have hmod' : truthyStr env.ollamaModel = false := by
      cases hq : truthyStr env.ollamaModel
      · rfl
      · exact absurd hq hmod
    rw [provisionOllama_noModel env _ hmod'] at hok
    obtain ⟨N1, hcfg, HMn⟩ := models_post_nomodel env _ cfg _ rfl hfixm hok
    rw [hcfg]
    refine provision_roundtrip_nomodel env _
      (forceMerge (mergeBase (lookupField fs0 "gateway")) gatewayInner)
      (deepMerge (mergeBase (lookupField fs0 "agents")) agentsInner)
      N1 hmod' hu hk ?_ ⟨lookupField fs0 "gateway", rfl⟩ ?_
      (dm_mergeBase_objLike _ _ rfl) ?_ (ag_round2 _) HMn
    · rw [lookupField_setField_ne _ "gateway" "models" _ (by decide)]
      exact hYg
    · rw [lookupField_setField_ne _ "agents" "models" _ (by decide)]
      exact hYa
    · exact lookupField_setField_self _ _ _

/-! ## Claim C3 -/

/-- C3: with the on-disk document a parsed JSON value (its arrays carry no
extra properties, which `serialize` expresses as a fixed point), running the
whole orchestrator pipeline — load, force-merge of the gateway defaults,
preserve-merge of the agent defaults, optional ollama provisioning, save —
twice with the same environment yields the same persisted document as
running it once: the second run either throws before saving or rewrites
exactly the bytes the first run wrote. -/
theorem c3_pipeline_idempotent (env : Env) (c0 : JVal)
    (hser : serialize c0 = c0) :
    persistedAfter env (persistedAfter env c0) = persistedAfter env c0 := by
  cases hrun : runMain env c0 with
  | none =>
      rw [show persistedAfter env c0 = c0 from by
        unfold persistedAfter
        rw [hrun]]
      unfold persistedAfter
      rw [hrun]
  | some cfg =>
      have hP1 : persistedAfter env c0 = serialize cfg := by
        unfold persistedAfter
        rw [hrun]
      rw [hP1]
      cases c0 with
      | jnull => unfold runMain at hrun; simp [isObjLike] at hrun
      | jbool b => unfold runMain at hrun; simp [isObjLike] at hrun
      | jnum n => unfold runMain at hrun; simp [isObjLike] at hrun
      | jstr s => unfold runMain at hrun; simp [isObjLike] at hrun
      | jarr es ps =>
          obtain ⟨hes, rfl⟩ := serialize_fix_arr es ps hser
          obtain ⟨ps2, rfl⟩ := runMain_arr_shape env es [] cfg hrun
          rw [show serialize (JVal.jarr es ps2)
              = .jarr (serializeList es) [] from rfl, hes]
          unfold persistedAfter
          rw [hrun]
          simp only []
          rw [show serialize (JVal.jarr es ps2)
              = .jarr (serializeList es) [] from rfl, hes]
      | jobj fs0 =>
          by_cases henv : (truthyStr env.ollamaUrl
              && truthyStr env.ollamaKey) = true
          · have hu : truthyStr env.ollamaUrl = true :=
              (Bool.and_eq_true _ _).mp henv |>.1
            have hk : truthyStr env.ollamaKey = true :=
              (Bool.and_eq_true _ _).mp henv |>.2
            obtain ⟨ho, hprov⟩ := runMain_some_inv env _ cfg hu hk hrun
            exact provision_firstrun_roundtrip env fs0 cfg hser hu hk hprov
          · have hno : (truthyStr env.ollamaUrl
                && truthyStr env.ollamaKey) = false := by
              cases hq : (truthyStr env.ollamaUrl && truthyStr env.ollamaKey)
              · rfl
              · exact absurd hq henv
            have hskip := runMain_skip env (.jobj fs0) rfl hno
            rw [hrun] at hskip
            injection hskip with hcfg
            rw [hcfg]
            have hobj2 : isObjLike (serialize (deepMerge (forceMerge
                (.jobj fs0) gatewayDefaults) agentDefaults)) = true := by
              rw [serialize_objLike]
              exact deepMerge_ad_objLike _ (forceMerge_gd_objLike _ rfl)
            have hrun2 := runMain_skip env (serialize (deepMerge (forceMerge
              (.jobj fs0) gatewayDefaults) agentDefaults)) hobj2 hno
            unfold persistedAfter
            rw [hrun2]
            exact merge_roundtrip (.jobj fs0) rfl

theorem c3_pipeline_idempotent_witness :
    serialize diskWithModelSiblings = diskWithModelSiblings ∧
    persistedAfter envFullModel
        (persistedAfter envFullModel diskWithModelSiblings)
      = persistedAfter envFullModel diskWithModelSiblings :=
  ⟨rfl, c3_pipeline_idempotent envFullModel diskWithModelSiblings rfl⟩

end StartupConfig
